import Mathlib

/-!
# redfish_exporter: a shallow embedding of the collection pipeline

The Go package `collector` turns the resources of one Redfish endpoint into
Prometheus gauge samples.  This file embeds

* the enumeration codecs (`enumHealth`, `enumState`, ...),
* the twenty `process*` functions of the three domain collectors,
* the three `Collect` traversals with their error returns,
* `execute` and `RedfishCollector.Collect`.

Conventions of the embedding.

* Go `float64` values are exact rationals (`ℚ`).  Every codec result and every
  constant of the package is a small integer, and the conversions multiply or
  divide by the constants of `common.go`.
* A Go string type (`common.Health`, `redfish.PowerState`, ...) is `String`.
* A fallible read `x, err := r.Read()` is the pair `Read α` of the returned
  value and the returned error (`none` is Go's `nil` error).
* The channel `ch` is the list of metrics sent on it, oldest first.
-/

/-! ## The Prometheus client: descriptors and constant metrics -/

namespace prometheus

/-- Descriptor built by `prometheus.NewDesc(fqName, help, variableLabels, constLabels)`. -/
structure Desc where
  fqName : String
  help : String
  variableLabels : List String
  constLabels : List (String × String)
deriving DecidableEq, Repr

/-- Sample built by `prometheus.MustNewConstMetric(desc, GaugeValue, value, labelValues...)`. -/
structure Metric where
  desc : Desc
  value : ℚ
  labelValues : List String
deriving DecidableEq, Repr

/-- Modelled from the spec: `prometheus.BuildFQName` of the client library (outside src/),
which joins the non-empty parts with an underscore and is empty when `name` is empty. -/
def BuildFQName (namespace_ subsystem name : String) : String :=
  if name = "" then ""
  else if namespace_ ≠ "" ∧ subsystem ≠ "" then namespace_ ++ "_" ++ subsystem ++ "_" ++ name
  else if namespace_ ≠ "" then namespace_ ++ "_" ++ name
  else if subsystem ≠ "" then subsystem ++ "_" ++ name
  else name

/-- Constructor `prometheus.NewDesc`. -/
def NewDesc (fqName help : String) (variableLabels : List String)
    (constLabels : List (String × String)) : Desc :=
  { fqName := fqName, help := help, variableLabels := variableLabels, constLabels := constLabels }

/-- Constructor `prometheus.MustNewConstMetric` for a gauge. -/
def MustNewConstMetric (desc : Desc) (value : ℚ) (labelValues : List String) : Metric :=
  { desc := desc, value := value, labelValues := labelValues }

/-- Metric name of a sample. -/
def Metric.name (m : Metric) : String := m.desc.fqName

/-- Label keys of a sample: the constant label names followed by the variable label names. -/
def Metric.labelKeys (m : Metric) : List String :=
  m.desc.constLabels.map Prod.fst ++ m.desc.variableLabels

/-- Label pairs of a sample: constant labels followed by the variable labels with their values. -/
def Metric.labels (m : Metric) : List (String × String) :=
  m.desc.constLabels ++ m.desc.variableLabels.zip m.labelValues

end prometheus

/-! ## The gofish value sets used by the codecs -/

namespace common

/-- Go type `common.Health`, a string type. -/
abbrev Health := String

/-- Go type `common.State`, a string type. -/
abbrev State := String

/-- Modelled from the spec: gofish constant `common.OKHealth` (declared outside src/). -/
def OKHealth : Health := "OK"
/-- Modelled from the spec: gofish constant `common.WarningHealth` (declared outside src/). -/
def WarningHealth : Health := "Warning"
/-- Modelled from the spec: gofish constant `common.CriticalHealth` (declared outside src/). -/
def CriticalHealth : Health := "Critical"

/-- Modelled from the spec: gofish constant `common.DisabledState` (declared outside src/). -/
def DisabledState : State := "Disabled"
/-- Modelled from the spec: gofish constant `common.EnabledState` (declared outside src/). -/
def EnabledState : State := "Enabled"
/-- Modelled from the spec: gofish constant `common.StandbyOfflineState` (declared outside src/). -/
def StandbyOfflineState : State := "StandbyOffline"
/-- Modelled from the spec: gofish constant `common.StandbySpareState` (declared outside src/). -/
def StandbySpareState : State := "StandbySpare"
/-- Modelled from the spec: gofish constant `common.InTestState` (declared outside src/). -/
def InTestState : State := "InTest"
/-- Modelled from the spec: gofish constant `common.StartingState` (declared outside src/). -/
def StartingState : State := "Starting"
/-- Modelled from the spec: gofish constant `common.AbsentState` (declared outside src/). -/
def AbsentState : State := "Absent"
/-- Modelled from the spec: gofish constant `common.UnavailableOfflineState` (declared outside src/). -/
def UnavailableOfflineState : State := "UnavailableOffline"
/-- Modelled from the spec: gofish constant `common.DeferringState` (declared outside src/). -/
def DeferringState : State := "Deferring"
/-- Modelled from the spec: gofish constant `common.QuiescedState` (declared outside src/). -/
def QuiescedState : State := "Quiesced"
/-- Modelled from the spec: gofish constant `common.UpdatingState` (declared outside src/). -/
def UpdatingState : State := "Updating"

/-- Go struct `common.Status`, of which the collectors read the health and the state. -/
structure Status where
  Health : Health
  State : State
deriving DecidableEq, Repr

end common

namespace redfish

/-- Go type `redfish.PowerState`, a string type. -/
abbrev PowerState := String
/-- Go type `redfish.IntrusionSensor`, a string type. -/
abbrev IntrusionSensor := String
/-- Go type `redfish.PortLinkStatus`, a string type. -/
abbrev PortLinkStatus := String
/-- Go type `redfish.LinkStatus`, a string type. -/
abbrev LinkStatus := String
/-- Go type `redfish.EncryptionStatus`, a string type. -/
abbrev EncryptionStatus := String
/-- Go type `redfish.HotspareType`, a string type. -/
abbrev HotspareType := String
/-- Go type `redfish.StatusIndicator`, a string type. -/
abbrev StatusIndicator := String
/-- Go type `redfish.MediaType`, a string type. -/
abbrev MediaType := String
/-- Go type `redfish.ReadingUnits`, a string type. -/
abbrev ReadingUnits := String

/-- Modelled from the spec: gofish constant `redfish.OffPowerState` (declared outside src/). -/
def OffPowerState : PowerState := "Off"
/-- Modelled from the spec: gofish constant `redfish.OnPowerState` (declared outside src/). -/
def OnPowerState : PowerState := "On"
/-- Modelled from the spec: gofish constant `redfish.PoweringOnPowerState` (declared outside src/). -/
def PoweringOnPowerState : PowerState := "PoweringOn"
/-- Modelled from the spec: gofish constant `redfish.PoweringOffPowerState` (declared outside src/). -/
def PoweringOffPowerState : PowerState := "PoweringOff"

/-- Modelled from the spec: gofish constant `redfish.NormalIntrusionSensor` (declared outside src/). -/
def NormalIntrusionSensor : IntrusionSensor := "Normal"
/-- Modelled from the spec: gofish constant `redfish.HardwareIntrusionIntrusionSensor` (declared outside src/). -/
def HardwareIntrusionIntrusionSensor : IntrusionSensor := "HardwareIntrusion"
/-- Modelled from the spec: gofish constant `redfish.TamperingDetectedIntrusionSensor` (declared outside src/). -/
def TamperingDetectedIntrusionSensor : IntrusionSensor := "TamperingDetected"

/-- Modelled from the spec: gofish constant `redfish.DownPortLinkStatus` (declared outside src/). -/
def DownPortLinkStatus : PortLinkStatus := "Down"
/-- Modelled from the spec: gofish constant `redfish.UpPortLinkStatus` (declared outside src/). -/
def UpPortLinkStatus : PortLinkStatus := "Up"

/-- Modelled from the spec: gofish constant `redfish.LinkDownLinkStatus` (declared outside src/). -/
def LinkDownLinkStatus : LinkStatus := "LinkDown"
/-- Modelled from the spec: gofish constant `redfish.LinkUpLinkStatus` (declared outside src/). -/
def LinkUpLinkStatus : LinkStatus := "LinkUp"
/-- Modelled from the spec: gofish constant `redfish.NoLinkLinkStatus` (declared outside src/). -/
def NoLinkLinkStatus : LinkStatus := "NoLink"

/-- Modelled from the spec: gofish constant `redfish.UnecryptedEncryptionStatus`, the misspelt
duplicate of the unencrypted status (declared outside src/). -/
def UnecryptedEncryptionStatus : EncryptionStatus := "Unecrypted"
/-- Modelled from the spec: gofish constant `redfish.UnencryptedEncryptionStatus` (declared outside src/). -/
def UnencryptedEncryptionStatus : EncryptionStatus := "Unencrypted"
/-- Modelled from the spec: gofish constant `redfish.UnlockedEncryptionStatus` (declared outside src/). -/
def UnlockedEncryptionStatus : EncryptionStatus := "Unlocked"
/-- Modelled from the spec: gofish constant `redfish.LockedEncryptionStatus` (declared outside src/). -/
def LockedEncryptionStatus : EncryptionStatus := "Locked"
/-- Modelled from the spec: gofish constant `redfish.ForeignEncryptionStatus` (declared outside src/). -/
def ForeignEncryptionStatus : EncryptionStatus := "Foreign"

/-- Modelled from the spec: gofish constant `redfish.NoneHotspareType` (declared outside src/). -/
def NoneHotspareType : HotspareType := "None"
/-- Modelled from the spec: gofish constant `redfish.GlobalHotspareType` (declared outside src/). -/
def GlobalHotspareType : HotspareType := "Global"
/-- Modelled from the spec: gofish constant `redfish.ChassisHotspareType` (declared outside src/). -/
def ChassisHotspareType : HotspareType := "Chassis"
/-- Modelled from the spec: gofish constant `redfish.DedicatedHotspareType` (declared outside src/). -/
def DedicatedHotspareType : HotspareType := "Dedicated"

/-- Modelled from the spec: gofish constant `redfish.FailStatusIndicator` (declared outside src/). -/
def FailStatusIndicator : StatusIndicator := "Fail"
/-- Modelled from the spec: gofish constant `redfish.OKStatusIndicator` (declared outside src/). -/
def OKStatusIndicator : StatusIndicator := "OK"
/-- Modelled from the spec: gofish constant `redfish.RebuildStatusIndicator` (declared outside src/). -/
def RebuildStatusIndicator : StatusIndicator := "Rebuild"
/-- Modelled from the spec: gofish constant `redfish.PredictiveFailureAnalysisStatusIndicator`
(declared outside src/). -/
def PredictiveFailureAnalysisStatusIndicator : StatusIndicator := "PredictiveFailureAnalysis"
/-- Modelled from the spec: gofish constant `redfish.HotspareStatusIndicator` (declared outside src/). -/
def HotspareStatusIndicator : StatusIndicator := "Hotspare"
/-- Modelled from the spec: gofish constant `redfish.InACriticalArrayStatusIndicator` (declared outside src/). -/
def InACriticalArrayStatusIndicator : StatusIndicator := "InACriticalArray"
/-- Modelled from the spec: gofish constant `redfish.InAFailedArrayStatusIndicator` (declared outside src/). -/
def InAFailedArrayStatusIndicator : StatusIndicator := "InAFailedArray"

/-- Modelled from the spec: gofish constant `redfish.HDDMediaType` (declared outside src/). -/
def HDDMediaType : MediaType := "HDD"
/-- Modelled from the spec: gofish constant `redfish.SSDMediaType` (declared outside src/). -/
def SSDMediaType : MediaType := "SSD"
/-- Modelled from the spec: gofish constant `redfish.SMRMediaType` (declared outside src/). -/
def SMRMediaType : MediaType := "SMR"

/-- Modelled from the spec: gofish constant `redfish.RPMReadingUnits` (declared outside src/). -/
def RPMReadingUnits : ReadingUnits := "RPM"
/-- Modelled from the spec: gofish constant `redfish.PercentReadingUnits` (declared outside src/). -/
def PercentReadingUnits : ReadingUnits := "Percent"

end redfish

/-! ## The gofish resources read by the collectors

Only the fields the package reads are kept.  A numeric measurement field holds the
value of the Go expression `float64(field)`; gofish declares these fields as plain
numbers, so a field that the service does not report holds the Go zero value. -/

/-- Result pair `(val, err)` of a fallible read of the client library.  The error is `none`
for Go's `nil`; when it is `some msg` the callers never look at `val`, which then stands for
what the endpoint would have answered had the read succeeded. -/
structure Read (α : Type) where
  val : α
  err : Option String
deriving DecidableEq, Repr

namespace redfish

/-- Go struct `redfish.Fan`. -/
structure Fan where
  MemberID : String
  Name : String
  SensorNumber : Int
  PhysicalContext : String
  ReadingUnits : redfish.ReadingUnits
  Reading : ℚ
  Status : common.Status
deriving DecidableEq, Repr

/-- Go struct `redfish.Temperature`. -/
structure Temperature where
  MemberID : String
  Name : String
  SensorNumber : Int
  PhysicalContext : String
  ReadingCelsius : ℚ
  Status : common.Status
deriving DecidableEq, Repr

/-- Go struct `redfish.Thermal`. -/
structure Thermal where
  ID : String
  Name : String
  Status : common.Status
  Fans : List Fan
  Temperatures : List Temperature
deriving DecidableEq, Repr

/-- Go struct `redfish.PowerLimit`. -/
structure PowerLimit where
  LimitInWatts : ℚ
  CorrectionInMs : Int
  LimitException : String
deriving DecidableEq, Repr

/-- Go struct `redfish.PowerControl`. -/
structure PowerControl where
  MemberID : String
  Name : String
  PowerAllocatedWatts : ℚ
  PowerCapacityWatts : ℚ
  PowerConsumedWatts : ℚ
  PowerLimit : redfish.PowerLimit
  PowerRequestedWatts : ℚ
  Status : common.Status
deriving DecidableEq, Repr

/-- Go struct `redfish.PowerSupply`. -/
structure PowerSupply where
  MemberID : String
  Name : String
  PowerSupplyType : String
  EfficiencyPercent : ℚ
  LineInputVoltage : ℚ
  LineInputVoltageType : String
  PowerCapacityWatts : ℚ
  PowerInputWatts : ℚ
  PowerOutputWatts : ℚ
  Status : common.Status
deriving DecidableEq, Repr

/-- Go struct `redfish.Voltage`. -/
structure Voltage where
  MemberID : String
  Name : String
  SensorNumber : Int
  PhysicalContext : String
  ReadingVolts : ℚ
  Status : common.Status
deriving DecidableEq, Repr

/-- Go struct `redfish.Power`. -/
structure Power where
  PowerControl : List redfish.PowerControl
  PowerSupplies : List redfish.PowerSupply
  Voltages : List redfish.Voltage
deriving DecidableEq, Repr

/-- Go struct `redfish.NetworkPort`. -/
structure NetworkPort where
  ID : String
  Name : String
  ActiveLinkTechnology : String
  CurrentLinkSpeedMbps : ℚ
  LinkStatus : redfish.PortLinkStatus
  Status : common.Status
deriving DecidableEq, Repr

/-- Go struct `redfish.NetworkAdapter`. -/
structure NetworkAdapter where
  ID : String
  Name : String
  Status : common.Status
deriving DecidableEq, Repr

/-- Go struct `redfish.PhysicalSecurity`. -/
structure PhysicalSecurity where
  IntrusionSensor : redfish.IntrusionSensor
  IntrusionSensorNumber : Int
  IntrusionSensorReArm : String
deriving DecidableEq, Repr

/-- Go struct `redfish.Chassis`. -/
structure Chassis where
  ID : String
  Name : String
  ChassisType : String
  PhysicalSecurity : redfish.PhysicalSecurity
  PowerState : redfish.PowerState
  Status : common.Status
deriving DecidableEq, Repr

/-- Go struct `redfish.EthernetInterface`. -/
structure EthernetInterface where
  ID : String
  Name : String
  MACAddress : String
  EthernetInterfaceType : String
  InterfaceEnabled : Bool
  SpeedMbps : ℚ
  FullDuplex : Bool
  LinkStatus : redfish.LinkStatus
  Status : common.Status
deriving DecidableEq, Repr

/-- Go struct `redfish.Memory`. -/
structure Memory where
  ID : String
  Name : String
  MemoryType : String
  CacheSizeMiB : ℚ
  CapacityMiB : ℚ
  NonVolatileSizeMiB : ℚ
  OperatingSpeedMhz : ℚ
  VolatileSizeMiB : ℚ
  Status : common.Status
deriving DecidableEq, Repr

/-- Go struct `redfish.NetworkInterface`. -/
structure NetworkInterface where
  ID : String
  Name : String
  Status : common.Status
deriving DecidableEq, Repr

/-- Go struct `redfish.PCIeDevice`. -/
structure PCIeDevice where
  ID : String
  Name : String
  DeviceType : String
  Status : common.Status
deriving DecidableEq, Repr

/-- Go struct `redfish.Processor`. -/
structure Processor where
  ID : String
  Name : String
  ProcessorType : String
  MaxSpeedMHz : ℚ
  MaxTDPWatts : ℚ
  TDPWatts : ℚ
  TotalCores : ℚ
  TotalEnabledCores : ℚ
  TotalThreads : ℚ
  Status : common.Status
deriving DecidableEq, Repr

/-- Go struct `redfish.CacheSummary`. -/
structure CacheSummary where
  PersistentCacheSizeMiB : ℚ
  TotalCacheSizeMiB : ℚ
  Status : common.Status
deriving DecidableEq, Repr

/-- Go struct `redfish.StorageController`. -/
structure StorageController where
  MemberID : String
  Name : String
  SpeedGbps : ℚ
  CacheSummary : redfish.CacheSummary
  Status : common.Status
deriving DecidableEq, Repr

/-- Go struct `redfish.Drive`. -/
structure Drive where
  ID : String
  Name : String
  MediaType : redfish.MediaType
  CapableSpeedGbs : ℚ
  CapacityBytes : ℚ
  FailurePredicted : Bool
  NegotiatedSpeedGbs : ℚ
  WriteCacheEnabled : Bool
  RotationSpeedRPM : ℚ
  PredictedMediaLifeLeftPercent : ℚ
  EncryptionStatus : redfish.EncryptionStatus
  EncryptionAbility : String
  HotspareType : redfish.HotspareType
  HotspareReplacementMode : String
  StatusIndicator : redfish.StatusIndicator
  Status : common.Status
deriving DecidableEq, Repr

/-- Go struct `redfish.Storage`. -/
structure Storage where
  ID : String
  Name : String
  Status : common.Status
  StorageControllers : List redfish.StorageController
deriving DecidableEq, Repr

/-- Go struct `redfish.ComputerSystem`. -/
structure ComputerSystem where
  ID : String
  Name : String
  SystemType : String
  PowerState : redfish.PowerState
  Status : common.Status
deriving DecidableEq, Repr

/-- Go struct `redfish.CommandShell`. -/
structure CommandShell where
  ServiceEnabled : Bool
deriving DecidableEq, Repr

/-- Go struct `redfish.GraphicalConsole`. -/
structure GraphicalConsole where
  ServiceEnabled : Bool
deriving DecidableEq, Repr

/-- Go struct `redfish.SerialConsole`. -/
structure SerialConsole where
  ServiceEnabled : Bool
deriving DecidableEq, Repr

/-- Go struct `redfish.Manager`. -/
structure Manager where
  ID : String
  Name : String
  ManagerType : String
  CommandShell : redfish.CommandShell
  GraphicalConsole : redfish.GraphicalConsole
  SerialConsole : redfish.SerialConsole
  PowerState : redfish.PowerState
  Status : common.Status
deriving DecidableEq, Repr

end redfish

/-! ## The endpoint behind one session

The read methods of gofish (`chassis.Thermal()`, `system.Memory()`, ...) fetch a subtree
from the endpoint.  Within one scrape each of them is called at most once per object, so
the endpoint is the tree of its objects, each paired with the outcome of the reads that
start from it. -/

namespace gofish

/-- Network adapter (`self`) with the outcome of its method `NetworkPorts()`. -/
structure NetworkAdapterNode where
  self : redfish.NetworkAdapter
  NetworkPorts : Read (List redfish.NetworkPort)
deriving DecidableEq, Repr

/-- Chassis (`self`) with the outcomes of its methods `Thermal()`, `Power()` and
`NetworkAdapters()`; a thermal or power value of `none` is the Go `nil` pointer. -/
structure ChassisNode where
  self : redfish.Chassis
  Thermal : Read (Option redfish.Thermal)
  Power : Read (Option redfish.Power)
  NetworkAdapters : Read (List NetworkAdapterNode)
deriving DecidableEq, Repr

/-- Storage subsystem (`self`) with the outcome of its method `Drives()`. -/
structure StorageNode where
  self : redfish.Storage
  Drives : Read (List redfish.Drive)
deriving DecidableEq, Repr

/-- Computer system (`self`) with the outcomes of its six read methods. -/
structure SystemNode where
  self : redfish.ComputerSystem
  EthernetInterfaces : Read (List redfish.EthernetInterface)
  Memory : Read (List redfish.Memory)
  NetworkInterfaces : Read (List redfish.NetworkInterface)
  PCIeDevices : Read (List redfish.PCIeDevice)
  Processors : Read (List redfish.Processor)
  Storage : Read (List StorageNode)
deriving DecidableEq, Repr

/-- Manager (`self`) with the outcome of its method `EthernetInterfaces()`. -/
structure ManagerNode where
  self : redfish.Manager
  EthernetInterfaces : Read (List redfish.EthernetInterface)
deriving DecidableEq, Repr

/-- Go struct `gofish.Service` with the outcomes of `Chassis()`, `Systems()` and `Managers()`. -/
structure Service where
  Chassis : Read (List ChassisNode)
  Systems : Read (List SystemNode)
  Managers : Read (List ManagerNode)
deriving DecidableEq, Repr

/-- Go struct `gofish.APIClient`: the session, which gives access to the service root. -/
structure APIClient where
  Service : gofish.Service
deriving DecidableEq, Repr

end gofish

/-! ## The endpoint when every read succeeds -/

/-- Read that succeeds with the answer `f val`. -/
def Read.succeed {α : Type} (f : α → α) (r : Read α) : Read α :=
  { val := f r.val, err := none }

namespace gofish

/-- Network adapter whose read succeeds. -/
def NetworkAdapterNode.succeed (n : NetworkAdapterNode) :
    NetworkAdapterNode :=
  { self := n.self, NetworkPorts := n.NetworkPorts.succeed id }

/-- Chassis below which every read succeeds. -/
def ChassisNode.succeed (n : ChassisNode) : ChassisNode :=
  { self := n.self, Thermal := n.Thermal.succeed id, Power := n.Power.succeed id,
    NetworkAdapters := n.NetworkAdapters.succeed (List.map NetworkAdapterNode.succeed) }

/-- Storage subsystem whose read succeeds. -/
def StorageNode.succeed (n : StorageNode) : StorageNode :=
  { self := n.self, Drives := n.Drives.succeed id }

/-- System below which every read succeeds. -/
def SystemNode.succeed (n : SystemNode) : SystemNode :=
  { self := n.self, EthernetInterfaces := n.EthernetInterfaces.succeed id,
    Memory := n.Memory.succeed id, NetworkInterfaces := n.NetworkInterfaces.succeed id,
    PCIeDevices := n.PCIeDevices.succeed id, Processors := n.Processors.succeed id,
    Storage := n.Storage.succeed (List.map StorageNode.succeed) }

/-- Manager whose read succeeds. -/
def ManagerNode.succeed (n : ManagerNode) : ManagerNode :=
  { self := n.self, EthernetInterfaces := n.EthernetInterfaces.succeed id }

/-- The same endpoint when every read succeeds: each read keeps its answer and loses its
error.  Its traversal is the fully successful traversal of the endpoint. -/
def APIClient.succeed (client : APIClient) : APIClient :=
  { Service :=
    { Chassis := client.Service.Chassis.succeed (List.map ChassisNode.succeed),
      Systems := client.Service.Systems.succeed (List.map SystemNode.succeed),
      Managers := client.Service.Managers.succeed (List.map ManagerNode.succeed) } }

end gofish

/-! ## common.go: unit constants and the common codecs -/

namespace collector

open prometheus

/-- Constant `kibi` of common.go. -/
def kibi : ℚ := 1024
/-- Constant `mebi` of common.go. -/
def mebi : ℚ := 1024 * kibi
/-- Constant `gibi` of common.go. -/
def gibi : ℚ := 1024 * mebi

/-- Constant `kilo` of common.go. -/
def kilo : ℚ := 1000
/-- Constant `mega` of common.go. -/
def mega : ℚ := 1000 * kilo
/-- Constant `giga` of common.go. -/
def giga : ℚ := 1000 * mega

/-- Function `btof` of common.go. -/
def btof (b : Bool) : ℚ :=
  if b then 1 else 0

/-- Function `enumPowerState` of common.go. -/
def enumPowerState (e : redfish.PowerState) : ℚ :=
  if e = redfish.OffPowerState then 0
  else if e = redfish.OnPowerState then 1
  else if e = redfish.PoweringOnPowerState then 2
  else if e = redfish.PoweringOffPowerState then 3
  else -1

/-- Function `enumHealth` of common.go. -/
def enumHealth (e : common.Health) : ℚ :=
  if e = common.OKHealth then 0
  else if e = common.WarningHealth then 1
  else if e = common.CriticalHealth then 2
  else -1

/-- Function `enumState` of common.go. -/
def enumState (e : common.State) : ℚ :=
  if e = common.DisabledState then 0
  else if e = common.EnabledState then 1
  else if e = common.StandbyOfflineState then 2
  else if e = common.StandbySpareState then 3
  else if e = common.InTestState then 4
  else if e = common.StartingState then 5
  else if e = common.AbsentState then 6
  else if e = common.UnavailableOfflineState then 7
  else if e = common.DeferringState then 8
  else if e = common.QuiescedState then 9
  else if e = common.UpdatingState then 10
  else -1

/-- Function `enumIntrusionSensor` of chassis.go. -/
def enumIntrusionSensor (e : redfish.IntrusionSensor) : ℚ :=
  if e = redfish.NormalIntrusionSensor then 0
  else if e = redfish.HardwareIntrusionIntrusionSensor then 1
  else if e = redfish.TamperingDetectedIntrusionSensor then 2
  else -1

/-- Function `enumPortLinkStatus` of chassis.go. -/
def enumPortLinkStatus (e : redfish.PortLinkStatus) : ℚ :=
  if e = redfish.DownPortLinkStatus then 0
  else if e = redfish.UpPortLinkStatus then 1
  else -1

/-- Function `enumInterfaceLinkStatus` of system.go. -/
def enumInterfaceLinkStatus (e : redfish.LinkStatus) : ℚ :=
  if e = redfish.LinkDownLinkStatus then 0
  else if e = redfish.LinkUpLinkStatus then 1
  else if e = redfish.NoLinkLinkStatus then 2
  else -1

/-- Function `enumEncryptionStatus` of system.go; its first case lists both spellings. -/
def enumEncryptionStatus (e : redfish.EncryptionStatus) : ℚ :=
  if e = redfish.UnecryptedEncryptionStatus ∨ e = redfish.UnencryptedEncryptionStatus then 0
  else if e = redfish.UnlockedEncryptionStatus then 1
  else if e = redfish.LockedEncryptionStatus then 2
  else if e = redfish.ForeignEncryptionStatus then 3
  else -1

/-- Function `enumHotspareType` of system.go. -/
def enumHotspareType (e : redfish.HotspareType) : ℚ :=
  if e = redfish.NoneHotspareType then 0
  else if e = redfish.GlobalHotspareType then 1
  else if e = redfish.ChassisHotspareType then 2
  else if e = redfish.DedicatedHotspareType then 3
  else -1

/-- Function `enumDriveStatusIndicator` of system.go. -/
def enumDriveStatusIndicator (e : redfish.StatusIndicator) : ℚ :=
  if e = redfish.FailStatusIndicator then 0
  else if e = redfish.OKStatusIndicator then 1
  else if e = redfish.RebuildStatusIndicator then 2
  else if e = redfish.PredictiveFailureAnalysisStatusIndicator then 3
  else if e = redfish.HotspareStatusIndicator then 4
  else if e = redfish.InACriticalArrayStatusIndicator then 5
  else if e = redfish.InAFailedArrayStatusIndicator then 6
  else -1

/-- Constant `namespace` of collector.go. -/
def namespace_ : String := "redfish"

/-- Go idiom of every categorical field,
`if e := enumX(field); e >= 0 { ch <- prometheus.MustNewConstMetric(desc, prometheus.GaugeValue, e, labelValues...) }`:
the metrics it sends, given the codec result `e`. -/
def sendOrdinal (desc : Desc) (e : ℚ) (labelValues : List String) : List Metric :=
  if e ≥ 0 then [MustNewConstMetric desc e labelValues] else []

/-- Modelled from the spec: `strconv.Itoa` and `strconv.FormatInt(_, 10)` of the Go standard
library, the decimal rendering of an integer. -/
def itoa (n : Int) : String := toString n

/-! ## chassis.go: the per-resource functions

Each `process*` function is the list of metrics it sends on `ch`, in order. -/

/-- Method `ChassisCollector.processChassis`. -/
def ChassisCollector.processChassis (chassis : redfish.Chassis) : List Metric :=
  let constLabels := [("id", chassis.ID), ("name", chassis.Name), ("chassis_id", chassis.ID),
    ("chassis_type", chassis.ChassisType)]
  let intrusionSensorDesc := NewDesc
    (BuildFQName namespace_ "chassis" "intrusion_sensor")
    "Intrusion sensor reading; 0: Normal, 1: HardwareIntrusion, 2: TamperingDetected"
    ["sensor_number", "sensor_re_arm"] constLabels
  let powerStateDesc := NewDesc
    (BuildFQName namespace_ "chassis" "power_state")
    "Chassis power state; 0: Off, 1: On, 2: PoweringOn, 3: PoweringOff"
    [] constLabels
  let healthDesc := NewDesc
    (BuildFQName namespace_ "chassis" "health")
    "Chassis health; 0: OK, 1: Warning, 2: Critical"
    [] constLabels
  let stateDesc := NewDesc
    (BuildFQName namespace_ "chassis" "state")
    "Chassis state; 0: Disabled, 1: Enabled, 2: StandbyOffline, 3: StandbySpare, 4: InTest, 5: Starting, 6: Absent, 7: UnavailableOffline, 8: Deferring, 9: Quiesced, 10: Updating"
    [] constLabels
  sendOrdinal intrusionSensorDesc (enumIntrusionSensor chassis.PhysicalSecurity.IntrusionSensor)
      [itoa chassis.PhysicalSecurity.IntrusionSensorNumber,
       chassis.PhysicalSecurity.IntrusionSensorReArm]
    ++ sendOrdinal powerStateDesc (enumPowerState chassis.PowerState) []
    ++ sendOrdinal healthDesc (enumHealth chassis.Status.Health) []
    ++ sendOrdinal stateDesc (enumState chassis.Status.State) []

/-- Method `ChassisCollector.processThermal`. -/
def ChassisCollector.processThermal (thermal : redfish.Thermal) (chassisID : String) :
    List Metric :=
  let constLabels := [("id", thermal.ID), ("name", thermal.Name), ("chassis_id", chassisID)]
  let healthDesc := NewDesc
    (BuildFQName namespace_ "chassis" "thermal_health")
    "Thermal health; 0: OK, 1: Warning, 2: Critical"
    [] constLabels
  let stateDesc := NewDesc
    (BuildFQName namespace_ "chassis" "thermal_state")
    "Thermal state; 0: Disabled, 1: Enabled, 2: StandbyOffline, 3: StandbySpare, 4: InTest, 5: Starting, 6: Absent, 7: UnavailableOffline, 8: Deferring, 9: Quiesced, 10: Updating"
    [] constLabels
  sendOrdinal healthDesc (enumHealth thermal.Status.Health) []
    ++ sendOrdinal stateDesc (enumState thermal.Status.State) []

/-- Method `ChassisCollector.processFan`. -/
def ChassisCollector.processFan (fan : redfish.Fan) (chassisID : String) : List Metric :=
  let constLabels := [("id", fan.MemberID), ("name", fan.Name), ("chassis_id", chassisID),
    ("sensor_number", itoa fan.SensorNumber), ("physical_context", fan.PhysicalContext)]
  let readingRPMDesc := NewDesc
    (BuildFQName namespace_ "chassis" "fan_speed_rpm")
    "Fan speed, RPM"
    [] constLabels
  let readingPercentDesc := NewDesc
    (BuildFQName namespace_ "chassis" "fan_speed_ratio")
    "Fan speed, %"
    [] constLabels
  let healthDesc := NewDesc
    (BuildFQName namespace_ "chassis" "fan_health")
    "Fan health; 0: OK, 1: Warning, 2: Critical"
    [] constLabels
  let stateDesc := NewDesc
    (BuildFQName namespace_ "chassis" "fan_state")
    "Fan state; 0: Disabled, 1: Enabled, 2: StandbyOffline, 3: StandbySpare, 4: InTest, 5: Starting, 6: Absent, 7: UnavailableOffline, 8: Deferring, 9: Quiesced, 10: Updating"
    [] constLabels
  (if fan.ReadingUnits = redfish.RPMReadingUnits then
      [MustNewConstMetric readingRPMDesc fan.Reading []]
    else if fan.ReadingUnits = redfish.PercentReadingUnits then
      [MustNewConstMetric readingPercentDesc (fan.Reading / 100) []]
    else [])
    ++ sendOrdinal healthDesc (enumHealth fan.Status.Health) []
    ++ sendOrdinal stateDesc (enumState fan.Status.State) []

/-- Method `ChassisCollector.processTemperature`. -/
def ChassisCollector.processTemperature (t : redfish.Temperature) (chassisID : String) :
    List Metric :=
  let constLabels := [("id", t.MemberID), ("name", t.Name), ("chassis_id", chassisID),
    ("sensor_number", itoa t.SensorNumber), ("physical_context", t.PhysicalContext)]
  let readingDesc := NewDesc
    (BuildFQName namespace_ "chassis" "temperature_celsius")
    "Temperature sensor reading, °C"
    [] constLabels
  let healthDesc := NewDesc
    (BuildFQName namespace_ "chassis" "temperature_health")
    "Temperature sensor health; 0: OK, 1: Warning, 2: Critical"
    [] constLabels
  let stateDesc := NewDesc
    (BuildFQName namespace_ "chassis" "temperature_state")
    "Temperature sensor state; 0: Disabled, 1: Enabled, 2: StandbyOffline, 3: StandbySpare, 4: InTest, 5: Starting, 6: Absent, 7: UnavailableOffline, 8: Deferring, 9: Quiesced, 10: Updating"
    [] constLabels
  [MustNewConstMetric readingDesc t.ReadingCelsius []]
    ++ sendOrdinal healthDesc (enumHealth t.Status.Health) []
    ++ sendOrdinal stateDesc (enumState t.Status.State) []

/-- Method `ChassisCollector.processPowerControl`. -/
def ChassisCollector.processPowerControl (control : redfish.PowerControl) (chassisID : String) :
    List Metric :=
  let constLabels := [("id", control.MemberID), ("name", control.Name),
    ("chassis_id", chassisID)]
  let powerAllocatedDesc := NewDesc
    (BuildFQName namespace_ "chassis" "power_control_power_allocated_watts")
    "Power allocated to chassis resources, W"
    [] constLabels
  let powerCapacityDesc := NewDesc
    (BuildFQName namespace_ "chassis" "power_control_power_capacity_watts")
    "Power available for allocation to chassis resources, W"
    [] constLabels
  let powerConsumedDesc := NewDesc
    (BuildFQName namespace_ "chassis" "power_control_power_consumed_watts")
    "Power consumed by the chassis resources, W"
    [] constLabels
  let powerLimitDesc := NewDesc
    (BuildFQName namespace_ "chassis" "power_control_power_limit_watts")
    "Configured power limit for the chassis resources, W"
    ["correction_interval", "action"] constLabels
  let powerRequestedDesc := NewDesc
    (BuildFQName namespace_ "chassis" "power_control_power_requested_watts")
    "Power requested by the chassis resources, W"
    [] constLabels
  let healthDesc := NewDesc
    (BuildFQName namespace_ "chassis" "power_control_health")
    "Power control health; 0: OK, 1: Warning, 2: Critical"
    [] constLabels
  let stateDesc := NewDesc
    (BuildFQName namespace_ "chassis" "power_control_state")
    "Power control state; 0: Disabled, 1: Enabled, 2: StandbyOffline, 3: StandbySpare, 4: InTest, 5: Starting, 6: Absent, 7: UnavailableOffline, 8: Deferring, 9: Quiesced, 10: Updating"
    [] constLabels
  [MustNewConstMetric powerAllocatedDesc control.PowerAllocatedWatts [],
   MustNewConstMetric powerCapacityDesc control.PowerCapacityWatts [],
   MustNewConstMetric powerConsumedDesc control.PowerConsumedWatts [],
   MustNewConstMetric powerLimitDesc control.PowerLimit.LimitInWatts
     [itoa (Int.tdiv control.PowerLimit.CorrectionInMs 1000), control.PowerLimit.LimitException],
   MustNewConstMetric powerRequestedDesc control.PowerRequestedWatts []]
    ++ sendOrdinal healthDesc (enumHealth control.Status.Health) []
    ++ sendOrdinal stateDesc (enumState control.Status.State) []

/-- Method `ChassisCollector.processPowerSupply`. -/
def ChassisCollector.processPowerSupply (ps : redfish.PowerSupply) (chassisID : String) :
    List Metric :=
  let constLabels := [("id", ps.MemberID), ("name", ps.Name), ("chassis_id", chassisID),
    ("power_supply_type", ps.PowerSupplyType)]
  let efficiencyDesc := NewDesc
    (BuildFQName namespace_ "chassis" "power_supply_efficiency_ratio")
    "Power supply measured efficiency, %"
    [] constLabels
  let inputVoltageDesc := NewDesc
    (BuildFQName namespace_ "chassis" "power_supply_input_voltage_volts")
    "Power supply measured input voltage, V"
    ["input_voltage_type"] constLabels
  let powerCapacityDesc := NewDesc
    (BuildFQName namespace_ "chassis" "power_supply_capacity_watts")
    "Power supply maximum capacity, W"
    [] constLabels
  let powerInputDesc := NewDesc
    (BuildFQName namespace_ "chassis" "power_supply_input_power_watts")
    "Power supply measured input power, W"
    [] constLabels
  let powerOutputDesc := NewDesc
    (BuildFQName namespace_ "chassis" "power_supply_output_power_watts")
    "Power supply measured output power, W"
    [] constLabels
  let healthDesc := NewDesc
    (BuildFQName namespace_ "chassis" "power_supply_health")
    "Power supply health; 0: OK, 1: Warning, 2: Critical"
    [] constLabels
  let stateDesc := NewDesc
    (BuildFQName namespace_ "chassis" "power_supply_state")
    "Power supply state; 0: Disabled, 1: Enabled, 2: StandbyOffline, 3: StandbySpare, 4: InTest, 5: Starting, 6: Absent, 7: UnavailableOffline, 8: Deferring, 9: Quiesced, 10: Updating"
    [] constLabels
  [MustNewConstMetric efficiencyDesc (ps.EfficiencyPercent / 100) [],
   MustNewConstMetric inputVoltageDesc ps.LineInputVoltage [ps.LineInputVoltageType],
   MustNewConstMetric powerCapacityDesc ps.PowerCapacityWatts [],
   MustNewConstMetric powerInputDesc ps.PowerInputWatts [],
   MustNewConstMetric powerOutputDesc ps.PowerOutputWatts []]
    ++ sendOrdinal healthDesc (enumHealth ps.Status.Health) []
    ++ sendOrdinal stateDesc (enumState ps.Status.State) []

/-- Method `ChassisCollector.processVoltage`. -/
def ChassisCollector.processVoltage (voltage : redfish.Voltage) (chassisID : String) :
    List Metric :=
  let constLabels := [("id", voltage.MemberID), ("name", voltage.Name),
    ("chassis_id", chassisID), ("sensor_number", itoa voltage.SensorNumber),
    ("physical_context", voltage.PhysicalContext)]
  let readingDesc := NewDesc
    (BuildFQName namespace_ "chassis" "voltage_reading_volts")
    "Voltage sensor reading, V"
    [] constLabels
  let healthDesc := NewDesc
    (BuildFQName namespace_ "chassis" "voltage_health")
    "Voltage sensor health; 0: OK, 1: Warning, 2: Critical"
    [] constLabels
  let stateDesc := NewDesc
    (BuildFQName namespace_ "chassis" "voltage_state")
    "Voltage sensor state; 0: Disabled, 1: Enabled, 2: StandbyOffline, 3: StandbySpare, 4: InTest, 5: Starting, 6: Absent, 7: UnavailableOffline, 8: Deferring, 9: Quiesced, 10: Updating"
    [] constLabels
  [MustNewConstMetric readingDesc voltage.ReadingVolts []]
    ++ sendOrdinal healthDesc (enumHealth voltage.Status.Health) []
    ++ sendOrdinal stateDesc (enumState voltage.Status.State) []

/-- Method `ChassisCollector.processNetworkAdapter`. -/
def ChassisCollector.processNetworkAdapter (adapter : redfish.NetworkAdapter)
    (chassisID : String) : List Metric :=
  let constLabels := [("id", adapter.ID), ("name", adapter.Name), ("chassis_id", chassisID)]
  let healthDesc := NewDesc
    (BuildFQName namespace_ "chassis" "network_adapter_health")
    "Network adapter health; 0: OK, 1: Warning, 2: Critical"
    [] constLabels
  let stateDesc := NewDesc
    (BuildFQName namespace_ "chassis" "network_adapter_state")
    "Network adapter state; 0: Disabled, 1: Enabled, 2: StandbyOffline, 3: StandbySpare, 4: InTest, 5: Starting, 6: Absent, 7: UnavailableOffline, 8: Deferring, 9: Quiesced, 10: Updating"
    [] constLabels
  sendOrdinal healthDesc (enumHealth adapter.Status.Health) []
    ++ sendOrdinal stateDesc (enumState adapter.Status.State) []

/-- Method `ChassisCollector.processNetworkPort`. -/
def ChassisCollector.processNetworkPort (port : redfish.NetworkPort) (chassisID : String) :
    List Metric :=
  let constLabels := [("id", port.ID), ("name", port.Name), ("chassis_id", chassisID),
    ("link_type", port.ActiveLinkTechnology)]
  let speedDesc := NewDesc
    (BuildFQName namespace_ "chassis" "network_port_speed_bytes")
    "Network port speed, bytes/s"
    [] constLabels
  let statusDesc := NewDesc
    (BuildFQName namespace_ "chassis" "network_port_status")
    "Network port status; 0: Down, 1: Up"
    [] constLabels
  let healthDesc := NewDesc
    (BuildFQName namespace_ "chassis" "network_port_health")
    "Network port health; 0: OK, 1: Warning, 2: Critical"
    [] constLabels
  let stateDesc := NewDesc
    (BuildFQName namespace_ "chassis" "network_port_state")
    "Network port state; 0: Disabled, 1: Enabled, 2: StandbyOffline, 3: StandbySpare, 4: InTest, 5: Starting, 6: Absent, 7: UnavailableOffline, 8: Deferring, 9: Quiesced, 10: Updating"
    [] constLabels
  [MustNewConstMetric speedDesc (port.CurrentLinkSpeedMbps * mega / 8) []]
    ++ sendOrdinal statusDesc (enumPortLinkStatus port.LinkStatus) []
    ++ sendOrdinal healthDesc (enumHealth port.Status.Health) []
    ++ sendOrdinal stateDesc (enumState port.Status.State) []



/-! ## system.go: the per-resource functions

The parameter `macString` of the two ethernet-interface functions stands for the Go standard
library: it is `net.ParseMAC` followed by `HardwareAddr.String`, applied to the MAC address
of the interface (the parse error is discarded by the source). -/

/-- Method `SystemCollector.processSystem`. -/
def SystemCollector.processSystem (system : redfish.ComputerSystem) : List Metric :=
  let constLabels := [("id", system.ID), ("name", system.Name), ("system_id", system.ID),
    ("system_type", system.SystemType)]
  let powerStateDesc := NewDesc
    (BuildFQName namespace_ "system" "power_state")
    "System power state; 0: Off, 1: On, 2: PoweringOn, 3: PoweringOff"
    [] constLabels
  let healthDesc := NewDesc
    (BuildFQName namespace_ "system" "health")
    "System health; 0: OK, 1: Warning, 2: Critical"
    [] constLabels
  let stateDesc := NewDesc
    (BuildFQName namespace_ "system" "state")
    "System state; 0: Disabled, 1: Enabled, 2: StandbyOffline, 3: StandbySpare, 4: InTest, 5: Starting, 6: Absent, 7: UnavailableOffline, 8: Deferring, 9: Quiesced, 10: Updating"
    [] constLabels
  sendOrdinal powerStateDesc (enumPowerState system.PowerState) []
    ++ sendOrdinal healthDesc (enumHealth system.Status.Health) []
    ++ sendOrdinal stateDesc (enumState system.Status.State) []

/-- Method `SystemCollector.processEthernetInterface`. -/
def SystemCollector.processEthernetInterface (macString : String → String)
    (intf : redfish.EthernetInterface) (systemID : String) : List Metric :=
  let address := macString intf.MACAddress
  let constLabels := [("id", intf.ID), ("name", intf.Name), ("system_id", systemID),
    ("interface_type", intf.EthernetInterfaceType), ("address", address)]
  let enabledDesc := NewDesc
    (BuildFQName namespace_ "system" "ethernet_interface_status")
    "Ethernet interface status; 0: Disabled, 1: Enabled"
    [] constLabels
  let speedDesc := NewDesc
    (BuildFQName namespace_ "system" "ethernet_interface_speed_bytes")
    "Ethernet interface speed, bytes/s"
    ["duplex"] constLabels
  let linkStatusDesc := NewDesc
    (BuildFQName namespace_ "system" "ethernet_interface_link_status")
    "Ethernet interface link status; 0: LinkDown, 1: LinkUp, 2: NoLink"
    [] constLabels
  let healthDesc := NewDesc
    (BuildFQName namespace_ "system" "ethernet_interface_health")
    "Ethernet interface health; 0: OK, 1: Warning, 2: Critical"
    [] constLabels
  let stateDesc := NewDesc
    (BuildFQName namespace_ "system" "ethernet_interface_state")
    "Ethernet interface state; 0: Disabled, 1: Enabled, 2: StandbyOffline, 3: StandbySpare, 4: InTest, 5: Starting, 6: Absent, 7: UnavailableOffline, 8: Deferring, 9: Quiesced, 10: Updating"
    [] constLabels
  [MustNewConstMetric enabledDesc (btof intf.InterfaceEnabled) [],
   MustNewConstMetric speedDesc (intf.SpeedMbps * mebi / 8)
     [if intf.FullDuplex then "full" else "half"]]
    ++ sendOrdinal linkStatusDesc (enumInterfaceLinkStatus intf.LinkStatus) []
    ++ sendOrdinal healthDesc (enumHealth intf.Status.Health) []
    ++ sendOrdinal stateDesc (enumState intf.Status.State) []

/-- Method `SystemCollector.processMemory`. -/
def SystemCollector.processMemory (memory : redfish.Memory) (systemID : String) : List Metric :=
  let constLabels := [("id", memory.ID), ("name", memory.Name), ("system_id", systemID),
    ("memory_type", memory.MemoryType)]
  let cacheSizeDesc := NewDesc
    (BuildFQName namespace_ "system" "memory_cache_size_bytes")
    "Memory cache size, bytes"
    [] constLabels
  let capacityDesc := NewDesc
    (BuildFQName namespace_ "system" "memory_capacity_bytes")
    "Memory capacity, bytes"
    [] constLabels
  let nonVolatileSizeDesc := NewDesc
    (BuildFQName namespace_ "system" "memory_non_volatile_size_desc")
    "Memory non-volatile size, bytes"
    [] constLabels
  let operatingSpeedDesc := NewDesc
    (BuildFQName namespace_ "system" "memory_operating_speed_hertz")
    "Memory operating speed, Hz"
    [] constLabels
  let volatileSizeDesc := NewDesc
    (BuildFQName namespace_ "system" "memory_volatile_size_desc")
    "Memory volatile size, bytes"
    [] constLabels
  let healthDesc := NewDesc
    (BuildFQName namespace_ "system" "memory_health")
    "Memory health; 0: OK, 1: Warning, 2: Critical"
    [] constLabels
  let stateDesc := NewDesc
    (BuildFQName namespace_ "system" "memory_state")
    "Memory state; 0: Disabled, 1: Enabled, 2: StandbyOffline, 3: StandbySpare, 4: InTest, 5: Starting, 6: Absent, 7: UnavailableOffline, 8: Deferring, 9: Quiesced, 10: Updating"
    [] constLabels
  [MustNewConstMetric cacheSizeDesc (memory.CacheSizeMiB * mebi) [],
   MustNewConstMetric capacityDesc (memory.CapacityMiB * mebi) [],
   MustNewConstMetric nonVolatileSizeDesc (memory.NonVolatileSizeMiB * mebi) [],
   MustNewConstMetric operatingSpeedDesc (memory.OperatingSpeedMhz * mega) [],
   MustNewConstMetric volatileSizeDesc (memory.VolatileSizeMiB * mebi) []]
    ++ sendOrdinal healthDesc (enumHealth memory.Status.Health) []
    ++ sendOrdinal stateDesc (enumState memory.Status.State) []

/-- Method `SystemCollector.processNetworkInterface`. -/
def SystemCollector.processNetworkInterface (intf : redfish.NetworkInterface)
    (systemID : String) : List Metric :=
  let constLabels := [("id", intf.ID), ("name", intf.Name), ("system_id", systemID)]
  let healthDesc := NewDesc
    (BuildFQName namespace_ "system" "network_interface_health")
    "Network interface health; 0: OK, 1: Warning, 2: Critical"
    [] constLabels
  let stateDesc := NewDesc
    (BuildFQName namespace_ "system" "network_interface_state")
    "Network interface state; 0: Disabled, 1: Enabled, 2: StandbyOffline, 3: StandbySpare, 4: InTest, 5: Starting, 6: Absent, 7: UnavailableOffline, 8: Deferring, 9: Quiesced, 10: Updating"
    [] constLabels
  sendOrdinal healthDesc (enumHealth intf.Status.Health) []
    ++ sendOrdinal stateDesc (enumState intf.Status.State) []

/-- Method `SystemCollector.processPCIeDevice`. -/
def SystemCollector.processPCIeDevice (device : redfish.PCIeDevice) (systemID : String) :
    List Metric :=
  let constLabels := [("id", device.ID), ("name", device.Name), ("system_id", systemID),
    ("device_type", device.DeviceType)]
  let healthDesc := NewDesc
    (BuildFQName namespace_ "system" "pcie_device_health")
    "PCIe device health; 0: OK, 1: Warning, 2: Critical"
    [] constLabels
  let stateDesc := NewDesc
    (BuildFQName namespace_ "system" "pcie_device_state")
    "PCIe device state; 0: Disabled, 1: Enabled, 2: StandbyOffline, 3: StandbySpare, 4: InTest, 5: Starting, 6: Absent, 7: UnavailableOffline, 8: Deferring, 9: Quiesced, 10: Updating"
    [] constLabels
  sendOrdinal healthDesc (enumHealth device.Status.Health) []
    ++ sendOrdinal stateDesc (enumState device.Status.State) []

/-- Method `SystemCollector.processProcessor`. -/
def SystemCollector.processProcessor (processor : redfish.Processor) (systemID : String) :
    List Metric :=
  let constLabels := [("id", processor.ID), ("name", processor.Name), ("system_id", systemID),
    ("processor_type", processor.ProcessorType)]
  let maxSpeedDesc := NewDesc
    (BuildFQName namespace_ "system" "processor_speed_max_hertz")
    "Maximum processor speed, Hz"
    [] constLabels
  let maxTDPDesc := NewDesc
    (BuildFQName namespace_ "system" "processor_tdp_max_watts")
    "Maximum processor TDP, W"
    [] constLabels
  let tdpDesc := NewDesc
    (BuildFQName namespace_ "system" "processor_tdp_current_wats")
    "Current processor TDP, W"
    [] constLabels
  let coresDesc := NewDesc
    (BuildFQName namespace_ "system" "processor_cores")
    "Total processor cores"
    [] constLabels
  let enabledCoresDesc := NewDesc
    (BuildFQName namespace_ "system" "processor_cores_enabled")
    "Enabled processor cores"
    [] constLabels
  let threadsDesc := NewDesc
    (BuildFQName namespace_ "system" "processor_threads")
    "Processor threads"
    [] constLabels
  let healthDesc := NewDesc
    (BuildFQName namespace_ "system" "processor_health")
    "Processor health; 0: OK, 1: Warning, 2: Critical"
    [] constLabels
  let stateDesc := NewDesc
    (BuildFQName namespace_ "system" "processor_state")
    "Processor state; 0: Disabled, 1: Enabled, 2: StandbyOffline, 3: StandbySpare, 4: InTest, 5: Starting, 6: Absent, 7: UnavailableOffline, 8: Deferring, 9: Quiesced, 10: Updating"
    [] constLabels
  [MustNewConstMetric maxSpeedDesc (processor.MaxSpeedMHz * mega) [],
   MustNewConstMetric maxTDPDesc processor.MaxTDPWatts [],
   MustNewConstMetric tdpDesc processor.TDPWatts [],
   MustNewConstMetric coresDesc processor.TotalCores [],
   MustNewConstMetric enabledCoresDesc processor.TotalEnabledCores [],
   MustNewConstMetric threadsDesc processor.TotalThreads []]
    ++ sendOrdinal healthDesc (enumHealth processor.Status.Health) []
    ++ sendOrdinal stateDesc (enumState processor.Status.State) []

/-- Method `SystemCollector.processStorage`. -/
def SystemCollector.processStorage (storage : redfish.Storage) (systemID : String) :
    List Metric :=
  let constLabels := [("id", storage.ID), ("name", storage.Name), ("system_id", systemID),
    ("storage_id", storage.ID)]
  let healthDesc := NewDesc
    (BuildFQName namespace_ "system" "storage_health")
    "Storage health; 0: OK, 1: Warning, 2: Critical"
    [] constLabels
  let stateDesc := NewDesc
    (BuildFQName namespace_ "system" "storage_state")
    "Storage state; 0: Disabled, 1: Enabled, 2: StandbyOffline, 3: StandbySpare, 4: InTest, 5: Starting, 6: Absent, 7: UnavailableOffline, 8: Deferring, 9: Quiesced, 10: Updating"
    [] constLabels
  sendOrdinal healthDesc (enumHealth storage.Status.Health) []
    ++ sendOrdinal stateDesc (enumState storage.Status.State) []

/-- Method `SystemCollector.processStorageController`. -/
def SystemCollector.processStorageController (controller : redfish.StorageController)
    (systemID : String) (storageID : String) : List Metric :=
  let constLabels := [("id", controller.MemberID), ("name", controller.Name),
    ("system_id", systemID), ("storage_id", storageID)]
  let speedDesc := NewDesc
    (BuildFQName namespace_ "system" "storage_controller_speed_bytes")
    "Storage controller speed, bytes/s"
    [] constLabels
  let persistentCacheSizeDesc := NewDesc
    (BuildFQName namespace_ "system" "storage_controller_cache_size_persistent_bytes")
    "Persistent cache size, bytes"
    [] constLabels
  let cacheSizeDesc := NewDesc
    (BuildFQName namespace_ "system" "storage_controller_cache_size_bytes")
    "Total cache size, bytes"
    [] constLabels
  let cacheHealthDesc := NewDesc
    (BuildFQName namespace_ "system" "storage_controller_health")
    "Storage controller cache health; 0: OK, 1: Warning, 2: Critical"
    [] constLabels
  let cacheStateDesc := NewDesc
    (BuildFQName namespace_ "system" "storage_controller_state")
    "Storage controller cache state; 0: Disabled, 1: Enabled, 2: StandbyOffline, 3: StandbySpare, 4: InTest, 5: Starting, 6: Absent, 7: UnavailableOffline, 8: Deferring, 9: Quiesced, 10: Updating"
    [] constLabels
  let healthDesc := NewDesc
    (BuildFQName namespace_ "system" "storage_controller_health")
    "Storage controller health; 0: OK, 1: Warning, 2: Critical"
    [] constLabels
  let stateDesc := NewDesc
    (BuildFQName namespace_ "system" "storage_controller_state")
    "Storage controller state; 0: Disabled, 1: Enabled, 2: StandbyOffline, 3: StandbySpare, 4: InTest, 5: Starting, 6: Absent, 7: UnavailableOffline, 8: Deferring, 9: Quiesced, 10: Updating"
    [] constLabels
  [MustNewConstMetric speedDesc (controller.SpeedGbps * giga / 8) [],
   MustNewConstMetric persistentCacheSizeDesc
     (controller.CacheSummary.PersistentCacheSizeMiB * mebi) [],
   MustNewConstMetric cacheSizeDesc (controller.CacheSummary.TotalCacheSizeMiB * mebi) []]
    ++ sendOrdinal cacheHealthDesc (enumHealth controller.CacheSummary.Status.Health) []
    ++ sendOrdinal cacheStateDesc (enumState controller.CacheSummary.Status.State) []
    ++ sendOrdinal healthDesc (enumHealth controller.Status.Health) []
    ++ sendOrdinal stateDesc (enumState controller.Status.State) []

/-- Method `SystemCollector.processDrive`. -/
def SystemCollector.processDrive (drive : redfish.Drive) (systemID : String) : List Metric :=
  let constLabels := [("id", drive.ID), ("name", drive.Name), ("system_id", systemID),
    ("drive_type", drive.MediaType)]
  let capableSpeedDesc := NewDesc
    (BuildFQName namespace_ "system" "drive_speed_capable_bytes")
    "Fastest capable drive speed, bytes/s"
    [] constLabels
  let capacityDesc := NewDesc
    (BuildFQName namespace_ "system" "drive_capacity_bytes")
    "Drive raw capacity, bytes"
    [] constLabels
  let failurePredictedDesc := NewDesc
    (BuildFQName namespace_ "system" "drive_predicted_failure")
    "Drive failure predicted; 0: NoFailure, 1: Failure"
    [] constLabels
  let negotiatedSpeedDesc := NewDesc
    (BuildFQName namespace_ "system" "drive_speed_negotiated_bytes")
    "Actual drive speed, bytes/s"
    [] constLabels
  let writeCacheDesc := NewDesc
    (BuildFQName namespace_ "system" "drive_write_cache_status")
    "Drive write cache status; 0: Disabled, 1: Enabled"
    [] constLabels
  let encryptionDesc := NewDesc
    (BuildFQName namespace_ "system" "drive_encryption_status")
    "Drive encryption status; 0: Unencrypted, 1: Unlocked, 2: Locked, 3: Foreign"
    ["encryption_ability"] constLabels
  let hotspareDesc := NewDesc
    (BuildFQName namespace_ "system" "drive_hotspare_type")
    "Drive hotspare type; 0: None, 1: Global, 2: Chassis, 3: Dedicated"
    ["hotspare_replacement_mode"] constLabels
  let rotationSpeedDesc := NewDesc
    (BuildFQName namespace_ "system" "drive_rotation_speed_rpm")
    "Drive rotation speed, RPM"
    [] constLabels
  let lifeLeftDesc := NewDesc
    (BuildFQName namespace_ "system" "drive_predicted_media_life_left_ratio")
    "Drive media life left, %"
    [] constLabels
  let statusDesc := NewDesc
    (BuildFQName namespace_ "system" "drive_status")
    "Drive status; 0: Fail, 1: OK, 2: Rebuild, 3: PredictiveFailureAnalysis, 4: Hotspare, 5: InACriticalArray, 6: InAFailedArray"
    [] constLabels
  let healthDesc := NewDesc
    (BuildFQName namespace_ "system" "drive_health")
    " health; 0: OK, 1: Warning, 2: Critical"
    [] constLabels
  let stateDesc := NewDesc
    (BuildFQName namespace_ "system" "drive_state")
    " state; 0: Disabled, 1: Enabled, 2: StandbyOffline, 3: StandbySpare, 4: InTest, 5: Starting, 6: Absent, 7: UnavailableOffline, 8: Deferring, 9: Quiesced, 10: Updating"
    [] constLabels
  [MustNewConstMetric capableSpeedDesc (drive.CapableSpeedGbs * giga / 8) [],
   MustNewConstMetric capacityDesc drive.CapacityBytes [],
   MustNewConstMetric failurePredictedDesc (btof drive.FailurePredicted) [],
   MustNewConstMetric negotiatedSpeedDesc (drive.NegotiatedSpeedGbs * giga / 8) [],
   MustNewConstMetric writeCacheDesc (btof drive.WriteCacheEnabled) []]
    ++ (if drive.MediaType = redfish.HDDMediaType ∨ drive.MediaType = redfish.SMRMediaType then
          [MustNewConstMetric rotationSpeedDesc drive.RotationSpeedRPM []]
        else if drive.MediaType = redfish.SSDMediaType then
          [MustNewConstMetric lifeLeftDesc (drive.PredictedMediaLifeLeftPercent / 100) []]
        else [])
    ++ sendOrdinal encryptionDesc (enumEncryptionStatus drive.EncryptionStatus)
        [drive.EncryptionAbility]
    ++ sendOrdinal hotspareDesc (enumHotspareType drive.HotspareType)
        [drive.HotspareReplacementMode]
    ++ sendOrdinal statusDesc (enumDriveStatusIndicator drive.StatusIndicator) []
    ++ sendOrdinal healthDesc (enumHealth drive.Status.Health) []
    ++ sendOrdinal stateDesc (enumState drive.Status.State) []

/-! ## manager.go: the per-resource functions -/

/-- Method `ManagerCollector.processManager`. -/
def ManagerCollector.processManager (manager : redfish.Manager) : List Metric :=
  let constLabels := [("id", manager.ID), ("name", manager.Name), ("manager_id", manager.ID),
    ("manager_type", manager.ManagerType)]
  let commandShellDesc := NewDesc
    (BuildFQName namespace_ "manager" "command_shell_status")
    "Command shell status; 0: Disabled, 1: Enabled"
    [] constLabels
  let graphicalConsoleDesc := NewDesc
    (BuildFQName namespace_ "manager" "console_graphical_status")
    "Graphical console status; 0: Disabled, 1: Enabled"
    [] constLabels
  let serialConsoleDesc := NewDesc
    (BuildFQName namespace_ "manager" "console_serial_status")
    "Serial console status; 0: Disabled, 1: Enabled"
    [] constLabels
  let powerStateDesc := NewDesc
    (BuildFQName namespace_ "manager" "power_state")
    "Manager power state; 0: Off, 1: On, 2: PoweringOn, 3: PoweringOff"
    [] constLabels
  let healthDesc := NewDesc
    (BuildFQName namespace_ "manager" "health")
    "Manager health; 0: OK, 1: Warning, 2: Critical"
    [] constLabels
  let stateDesc := NewDesc
    (BuildFQName namespace_ "manager" "state")
    "Manager state; 0: Disabled, 1: Enabled, 2: StandbyOffline, 3: StandbySpare, 4: InTest, 5: Starting, 6: Absent, 7: UnavailableOffline, 8: Deferring, 9: Quiesced, 10: Updating"
    [] constLabels
  [MustNewConstMetric commandShellDesc (btof manager.CommandShell.ServiceEnabled) [],
   MustNewConstMetric graphicalConsoleDesc (btof manager.GraphicalConsole.ServiceEnabled) [],
   MustNewConstMetric serialConsoleDesc (btof manager.SerialConsole.ServiceEnabled) []]
    ++ sendOrdinal powerStateDesc (enumPowerState manager.PowerState) []
    ++ sendOrdinal healthDesc (enumHealth manager.Status.Health) []
    ++ sendOrdinal stateDesc (enumState manager.Status.State) []

/-- Method `ManagerCollector.processEthernetInterface`; its health and state descriptors are
built with the subsystem `"system"`, as in the source. -/
def ManagerCollector.processEthernetInterface (macString : String → String)
    (intf : redfish.EthernetInterface) (managerID : String) : List Metric :=
  let address := macString intf.MACAddress
  let constLabels := [("id", intf.ID), ("name", intf.Name), ("manager_id", managerID),
    ("interface_type", intf.EthernetInterfaceType), ("address", address)]
  let enabledDesc := NewDesc
    (BuildFQName namespace_ "manager" "ethernet_interface_status")
    "Ethernet interface status; 0: Disabled, 1: Enabled"
    [] constLabels
  let speedDesc := NewDesc
    (BuildFQName namespace_ "manager" "ethernet_interface_speed_bytes")
    "Ethernet interface speed, bytes/s"
    ["duplex"] constLabels
  let healthDesc := NewDesc
    (BuildFQName namespace_ "system" "ethernet_interface_health")
    "Ethernet interface health; 0: OK, 1: Warning, 2: Critical"
    [] constLabels
  let stateDesc := NewDesc
    (BuildFQName namespace_ "system" "ethernet_interface_state")
    "Ethernet interface state; 0: Disabled, 1: Enabled, 2: StandbyOffline, 3: StandbySpare, 4: InTest, 5: Starting, 6: Absent, 7: UnavailableOffline, 8: Deferring, 9: Quiesced, 10: Updating"
    [] constLabels
  [MustNewConstMetric enabledDesc (btof intf.InterfaceEnabled) [],
   MustNewConstMetric speedDesc (intf.SpeedMbps * mebi / 8)
     [if intf.FullDuplex then "full" else "half"]]
    ++ sendOrdinal healthDesc (enumHealth intf.Status.Health) []
    ++ sendOrdinal stateDesc (enumState intf.Status.State) []

/-! ## The traversals: calls, reads and runs

A run of a `Collect` method is recorded as the sequence of its observable steps: the reads
it performs against the endpoint and the `process*` calls it makes.  The metrics on the
channel are those of the calls, in order. -/

/-- One call of a `process*` method, with its arguments. -/
inductive Call where
  | processChassis (chassis : redfish.Chassis)
  | processThermal (thermal : redfish.Thermal) (chassisID : String)
  | processFan (fan : redfish.Fan) (chassisID : String)
  | processTemperature (t : redfish.Temperature) (chassisID : String)
  | processPowerControl (control : redfish.PowerControl) (chassisID : String)
  | processPowerSupply (ps : redfish.PowerSupply) (chassisID : String)
  | processVoltage (voltage : redfish.Voltage) (chassisID : String)
  | processNetworkAdapter (adapter : redfish.NetworkAdapter) (chassisID : String)
  | processNetworkPort (port : redfish.NetworkPort) (chassisID : String)
  | processSystem (system : redfish.ComputerSystem)
  | processSystemEthernetInterface (intf : redfish.EthernetInterface) (systemID : String)
  | processMemory (memory : redfish.Memory) (systemID : String)
  | processNetworkInterface (intf : redfish.NetworkInterface) (systemID : String)
  | processPCIeDevice (device : redfish.PCIeDevice) (systemID : String)
  | processProcessor (processor : redfish.Processor) (systemID : String)
  | processStorage (storage : redfish.Storage) (systemID : String)
  | processStorageController (controller : redfish.StorageController) (systemID : String)
      (storageID : String)
  | processDrive (drive : redfish.Drive) (systemID : String)
  | processManager (manager : redfish.Manager)
  | processManagerEthernetInterface (intf : redfish.EthernetInterface) (managerID : String)
deriving DecidableEq, Repr

/-- Metrics a call sends on the channel. -/
def Call.metrics (macString : String → String) : Call → List Metric
  | .processChassis chassis => ChassisCollector.processChassis chassis
  | .processThermal thermal chassisID => ChassisCollector.processThermal thermal chassisID
  | .processFan fan chassisID => ChassisCollector.processFan fan chassisID
  | .processTemperature t chassisID => ChassisCollector.processTemperature t chassisID
  | .processPowerControl control chassisID =>
      ChassisCollector.processPowerControl control chassisID
  | .processPowerSupply ps chassisID => ChassisCollector.processPowerSupply ps chassisID
  | .processVoltage voltage chassisID => ChassisCollector.processVoltage voltage chassisID
  | .processNetworkAdapter adapter chassisID =>
      ChassisCollector.processNetworkAdapter adapter chassisID
  | .processNetworkPort port chassisID => ChassisCollector.processNetworkPort port chassisID
  | .processSystem system => SystemCollector.processSystem system
  | .processSystemEthernetInterface intf systemID =>
      SystemCollector.processEthernetInterface macString intf systemID
  | .processMemory memory systemID => SystemCollector.processMemory memory systemID
  | .processNetworkInterface intf systemID =>
      SystemCollector.processNetworkInterface intf systemID
  | .processPCIeDevice device systemID => SystemCollector.processPCIeDevice device systemID
  | .processProcessor processor systemID => SystemCollector.processProcessor processor systemID
  | .processStorage storage systemID => SystemCollector.processStorage storage systemID
  | .processStorageController controller systemID storageID =>
      SystemCollector.processStorageController controller systemID storageID
  | .processDrive drive systemID => SystemCollector.processDrive drive systemID
  | .processManager manager => ManagerCollector.processManager manager
  | .processManagerEthernetInterface intf managerID =>
      ManagerCollector.processEthernetInterface macString intf managerID

/-- One read of a subtree, named by the method called and the ids of the objects in scope. -/
inductive ReadOp where
  | Chassis
  | ChassisThermal (chassisID : String)
  | ChassisPower (chassisID : String)
  | ChassisNetworkAdapters (chassisID : String)
  | AdapterNetworkPorts (chassisID : String) (adapterID : String)
  | Systems
  | SystemEthernetInterfaces (systemID : String)
  | SystemMemory (systemID : String)
  | SystemNetworkInterfaces (systemID : String)
  | SystemPCIeDevices (systemID : String)
  | SystemProcessors (systemID : String)
  | SystemStorage (systemID : String)
  | StorageDrives (systemID : String) (storageID : String)
  | Managers
  | ManagerEthernetInterfaces (managerID : String)
deriving DecidableEq, Repr

/-- Observable step of a traversal. -/
inductive Event where
  | read (op : ReadOp) (err : Option String)
  | call (c : Call)
deriving DecidableEq, Repr

/-- Metrics an event puts on the channel: those of a call, none for a read. -/
def Event.metrics (macString : String → String) : Event → List Metric
  | .read _ _ => []
  | .call c => c.metrics macString

/-- Run of (a part of) a `Collect` method: its events, and the error it returned, `none`
when it ran to its end. -/
structure Run where
  events : List Event
  err : Option String
deriving DecidableEq, Repr

/-- Metrics a run has put on the channel. -/
def Run.sink (macString : String → String) (r : Run) : List Metric :=
  r.events.flatMap (Event.metrics macString)

/-- Straight-line code that cannot fail. -/
def Run.ok (events : List Event) : Run :=
  { events := events, err := none }

/-- Sequencing `a; b`: when `a` returned an error, `b` is not run. -/
def Run.andThen (a b : Run) : Run :=
  match a.err with
  | some e => { events := a.events, err := some e }
  | none => { events := a.events ++ b.events, err := b.err }

/-- Loop `for _, x := range xs { body }` whose body may return from the method. -/
def Run.forEach {α : Type} (body : α → Run) : List α → Run
  | [] => Run.ok []
  | x :: xs => (body x).andThen (Run.forEach body xs)

/-- Read `val, err := read(); if err != nil { return fmt.Errorf(...) }` followed by the rest
of the code `k val`; `wrap` builds the message of the returned error. -/
def Run.read {α : Type} (op : ReadOp) (r : Read α) (wrap : String → String) (k : α → Run) :
    Run :=
  match r.err with
  | some err => { events := [Event.read op (some err)], err := some (wrap err) }
  | none => (Run.ok [Event.read op none]).andThen (k r.val)

/-- Body of the loop over the network adapters of a chassis in `ChassisCollector.Collect`. -/
def ChassisCollector.collectNetworkAdapter (chassisID : String)
    (adapter : gofish.NetworkAdapterNode) : Run :=
  (Run.ok [.call (.processNetworkAdapter adapter.self chassisID)]).andThen <|
  Run.read (.AdapterNetworkPorts chassisID adapter.self.ID) adapter.NetworkPorts
    (fun err => "error collecting /Chassis/" ++ chassisID ++ "/NetworkAdapters/"
      ++ adapter.self.ID ++ "/NetworkPorts: " ++ err)
    fun ports =>
  Run.ok (ports.map (fun port => .call (.processNetworkPort port chassisID)))

/-- Part of the body of the loop over the chassis that follows the power subtree: the
network adapters and their ports. -/
def ChassisCollector.collectNetworkAdapters (chassis : gofish.ChassisNode) : Run :=
  Run.read (.ChassisNetworkAdapters chassis.self.ID) chassis.NetworkAdapters
    (fun err => "error collecting /Chassis/" ++ chassis.self.ID ++ "/NetworkAdapters: " ++ err)
    fun adapters =>
  Run.forEach (ChassisCollector.collectNetworkAdapter chassis.self.ID) adapters

/-- Part of the body of the loop over the chassis that follows the thermal subtree: the
power subtree, then the network adapters. -/
def ChassisCollector.collectPower (chassis : gofish.ChassisNode) : Run :=
  Run.read (.ChassisPower chassis.self.ID) chassis.Power
    (fun err => "error collecting /Chassis/" ++ chassis.self.ID ++ "/Power: " ++ err)
    fun power =>
  (Run.ok (match power with
    | none => []
    | some power =>
      power.PowerControl.map (fun control =>
          .call (.processPowerControl control chassis.self.ID))
        ++ power.PowerSupplies.map (fun ps => .call (.processPowerSupply ps chassis.self.ID))
        ++ power.Voltages.map (fun voltage => .call (.processVoltage voltage chassis.self.ID)))
    ).andThen <|
  ChassisCollector.collectNetworkAdapters chassis

/-- Body of the loop over the chassis in `ChassisCollector.Collect`. -/
def ChassisCollector.collectChassis (chassis : gofish.ChassisNode) : Run :=
  (Run.ok [.call (.processChassis chassis.self)]).andThen <|
  Run.read (.ChassisThermal chassis.self.ID) chassis.Thermal
    (fun err => "error collecting /Chassis/" ++ chassis.self.ID ++ "/Thermal: " ++ err)
    fun thermal =>
  (Run.ok (match thermal with
    | none => []
    | some thermal =>
      [.call (.processThermal thermal chassis.self.ID)]
        ++ thermal.Fans.map (fun fan => .call (.processFan fan chassis.self.ID))
        ++ thermal.Temperatures.map (fun t => .call (.processTemperature t chassis.self.ID)))
    ).andThen <|
  ChassisCollector.collectPower chassis

/-- Method `ChassisCollector.Collect` of chassis.go. -/
def ChassisCollector.Collect (client : gofish.APIClient) : Run :=
  Run.read .Chassis client.Service.Chassis (fun err => "error collecting /Chassis: " ++ err)
    fun chassiss =>
  Run.forEach ChassisCollector.collectChassis chassiss

/-- Loop over the PCIe devices of one system in `SystemCollector.Collect`; `devices` holds the
keys of the Go map `devices`, which the source creates anew for every system. -/
def SystemCollector.pcieDevicesLoop (systemID : String) :
    List redfish.PCIeDevice → List String → List Event
  | [], _ => []
  | device :: rest, devices =>
    if device.ID ∈ devices then SystemCollector.pcieDevicesLoop systemID rest devices
    else .call (.processPCIeDevice device systemID)
      :: SystemCollector.pcieDevicesLoop systemID rest (device.ID :: devices)

/-- Body of the loop over the storage subsystems of a system in `SystemCollector.Collect`. -/
def SystemCollector.collectStorage (systemID : String) (storage : gofish.StorageNode) : Run :=
  (Run.ok ([.call (.processStorage storage.self systemID)]
    ++ storage.self.StorageControllers.map (fun controller =>
        .call (.processStorageController controller systemID storage.self.ID)))).andThen <|
  Run.read (.StorageDrives systemID storage.self.ID) storage.Drives
    (fun err => "error collecting /Systems/" ++ systemID ++ "/Storage/"
      ++ storage.self.ID ++ "/Drives: " ++ err)
    fun drives =>
  Run.ok (drives.map (fun drive => .call (.processDrive drive systemID)))

/-- Part of the body of the loop over the systems that follows the PCIe devices: the
processors and the storage subsystems. -/
def SystemCollector.collectProcessorsAndStorage (system : gofish.SystemNode) : Run :=
  Run.read (.SystemProcessors system.self.ID) system.Processors
    (fun err => "error collecting /Systems/" ++ system.self.ID ++ "/Processors: " ++ err)
    fun processors =>
  (Run.ok (processors.map (fun processor =>
    .call (.processProcessor processor system.self.ID)))).andThen <|
  Run.read (.SystemStorage system.self.ID) system.Storage
    (fun err => "error collecting /Systems/" ++ system.self.ID ++ "/Storage: " ++ err)
    fun storages =>
  Run.forEach (SystemCollector.collectStorage system.self.ID) storages

/-- Body of the loop over the systems in `SystemCollector.Collect`. -/
def SystemCollector.collectSystem (system : gofish.SystemNode) : Run :=
  (Run.ok [.call (.processSystem system.self)]).andThen <|
  Run.read (.SystemEthernetInterfaces system.self.ID) system.EthernetInterfaces
    (fun err => "error collecting /Systems/" ++ system.self.ID ++ "/EthernetInterfaces: " ++ err)
    fun ethernetInterfaces =>
  (Run.ok (ethernetInterfaces.map (fun intf =>
    .call (.processSystemEthernetInterface intf system.self.ID)))).andThen <|
  Run.read (.SystemMemory system.self.ID) system.Memory
    (fun err => "error collecting /Systems/" ++ system.self.ID ++ "/Memory: " ++ err)
    fun memories =>
  (Run.ok (memories.map (fun memory => .call (.processMemory memory system.self.ID)))).andThen <|
  Run.read (.SystemNetworkInterfaces system.self.ID) system.NetworkInterfaces
    (fun err => "error collecting /Systems/" ++ system.self.ID ++ "/NetworkInterfaces: " ++ err)
    fun networkInterfaces =>
  (Run.ok (networkInterfaces.map (fun intf =>
    .call (.processNetworkInterface intf system.self.ID)))).andThen <|
  Run.read (.SystemPCIeDevices system.self.ID) system.PCIeDevices
    (fun err => "error collecting /Systems/" ++ system.self.ID ++ "/PCIeDevices: " ++ err)
    fun pcieDevices =>
  (Run.ok (SystemCollector.pcieDevicesLoop system.self.ID pcieDevices [])).andThen <|
  SystemCollector.collectProcessorsAndStorage system

/-- Method `SystemCollector.Collect` of system.go. -/
def SystemCollector.Collect (client : gofish.APIClient) : Run :=
  Run.read .Systems client.Service.Systems (fun err => "error collecting /Systems: " ++ err)
    fun systems =>
  Run.forEach SystemCollector.collectSystem systems

/-- Body of the loop over the managers in `ManagerCollector.Collect`. -/
def ManagerCollector.collectManager (manager : gofish.ManagerNode) : Run :=
  (Run.ok [.call (.processManager manager.self)]).andThen <|
  Run.read (.ManagerEthernetInterfaces manager.self.ID) manager.EthernetInterfaces
    (fun err => "error collecting /Managers/" ++ manager.self.ID
      ++ "/EthernetInterfaces: " ++ err)
    fun ethernetInterfaces =>
  Run.ok (ethernetInterfaces.map (fun intf =>
    .call (.processManagerEthernetInterface intf manager.self.ID)))

/-- Method `ManagerCollector.Collect` of manager.go. -/
def ManagerCollector.Collect (client : gofish.APIClient) : Run :=
  Run.read .Managers client.Service.Managers (fun err => "error collecting /Managers: " ++ err)
    fun managers =>
  Run.forEach ManagerCollector.collectManager managers

/-! ## collector.go: `execute` and the orchestrator -/

/-- Go interface `Collector`, seen from `execute`: a collector is the outcome of its method
`Collect(ch)`, the metrics it sent on `ch` and the error it returned (`none` for `nil`). -/
structure Collector where
  sent : List Metric
  err : Option String
deriving DecidableEq, Repr

/-- Collector whose `Collect` method made the run `r`. -/
def Run.toCollector (macString : String → String) (r : Run) : Collector :=
  { sent := r.sink macString, err := r.err }

/-- Function `execute` of collector.go: the metrics on the channel after the call.  The
parameter `duration` is the value of `time.Since(start).Seconds()`, read from the clock. -/
def execute (name : String) (collector : Collector) (duration : ℚ) : List Metric :=
  let durationDesc := NewDesc
    (BuildFQName namespace_ "scrape" "duration_seconds")
    "Scrape duration, s"
    [] [("collector", name)]
  let successDesc := NewDesc
    (BuildFQName namespace_ "scrape" "success")
    "Scrape success; 0: Fail, 1: Success"
    [] [("collector", name)]
  let success : ℚ := if collector.err ≠ none then 0 else 1
  collector.sent
    ++ [MustNewConstMetric durationDesc duration [],
        MustNewConstMetric successDesc success []]

/-- Descriptor `upDesc` built by `NewRedfishCollector`. -/
def upDesc : Desc :=
  NewDesc (BuildFQName namespace_ "" "up") "Redfish service status; 0: Down, 1: Up" [] []

/-- Observable step of one scrape: a metric sent on the channel, the `wg.Done()` of the
goroutine of a collector, or the deferred `client.Logout()`. -/
inductive ScrapeEvent where
  | send (m : Metric)
  | done (name : String)
  | logout
deriving DecidableEq, Repr

/-- Goroutine started by `RedfishCollector.Collect` for one collector:
`execute(name, collector, ch); wg.Done()`. -/
def goroutine (name : String) (collector : Collector) (duration : ℚ) : List ScrapeEvent :=
  (execute name collector duration).map ScrapeEvent.send ++ [ScrapeEvent.done name]

/-- Interleaving of the steps of three goroutines.  The schedule names, step by step, the
goroutine that moves next; a goroutine that has finished is skipped, and when the schedule
is used up the goroutines run to their end one after the other.  Every interleaving of the
three sequences is the result of some schedule. -/
def interleave {α : Type} : List (Fin 3) → List α → List α → List α → List α
  | [], a, b, c => a ++ b ++ c
  | 0 :: rest, x :: a, b, c => x :: interleave rest a b c
  | 1 :: rest, a, y :: b, c => y :: interleave rest a b c
  | 2 :: rest, a, b, z :: c => z :: interleave rest a b c
  | _ :: rest, a, b, c => interleave rest a b c

/-- Method `RedfishCollector.Collect` of collector.go: the steps of one scrape, in order.
`connect` is the outcome of `gofish.Connect(c.config)`, `durations` gives the clock reading of
each collector and `schedule` the interleaving of the three goroutines; `wg.Wait()` lets the
method go on only when the three goroutines are done. -/
def RedfishCollector.Collect (connect : Except String gofish.APIClient)
    (macString : String → String) (durations : String → ℚ) (schedule : List (Fin 3)) :
    List ScrapeEvent :=
  match connect with
  | .error _ => [ScrapeEvent.send (MustNewConstMetric upDesc 0 [])]
  | .ok client =>
    interleave schedule
        (goroutine "chassis" ((ChassisCollector.Collect client).toCollector macString)
          (durations "chassis"))
        (goroutine "system" ((SystemCollector.Collect client).toCollector macString)
          (durations "system"))
        (goroutine "manager" ((ManagerCollector.Collect client).toCollector macString)
          (durations "manager"))
      ++ [ScrapeEvent.send (MustNewConstMetric upDesc 1 [])]
      ++ [ScrapeEvent.logout]

/-- Metrics on the channel after a scrape, oldest first. -/
def channel : List ScrapeEvent → List Metric
  | [] => []
  | .send m :: rest => m :: channel rest
  | _ :: rest => channel rest

/-! ## Vocabulary of the specification

The definitions below follow the words of the specification; the theorems compare them
with the code above. -/

/-- Closed value set of the health codec. -/
def healthValues : List String := ["OK", "Warning", "Critical"]

/-- Closed value set of the operational-state codec. -/
def stateValues : List String :=
  ["Disabled", "Enabled", "StandbyOffline", "StandbySpare", "InTest", "Starting", "Absent",
   "UnavailableOffline", "Deferring", "Quiesced", "Updating"]

/-- Closed value set of the power-state codec. -/
def powerStateValues : List String := ["Off", "On", "PoweringOn", "PoweringOff"]

/-- Closed value set of the intrusion-sensor codec. -/
def intrusionSensorValues : List String := ["Normal", "HardwareIntrusion", "TamperingDetected"]

/-- Closed value set of the port link-status codec. -/
def portLinkStatusValues : List String := ["Down", "Up"]

/-- Closed value set of the interface link-status codec. -/
def interfaceLinkStatusValues : List String := ["LinkDown", "LinkUp", "NoLink"]

/-- Closed value set of the encryption-status codec, with both spellings of unencrypted. -/
def encryptionStatusValues : List String :=
  ["Unecrypted", "Unencrypted", "Unlocked", "Locked", "Foreign"]

/-- Closed value set of the hotspare-type codec. -/
def hotspareTypeValues : List String := ["None", "Global", "Chassis", "Dedicated"]

/-- Closed value set of the drive status-indicator codec. -/
def driveStatusIndicatorValues : List String :=
  ["Fail", "OK", "Rebuild", "PredictiveFailureAnalysis", "Hotspare", "InACriticalArray",
   "InAFailedArray"]

/-- Sentinel correctness of a codec with respect to its closed value set: the result is the
absent sentinel `-1` exactly outside the set, a non-negative ordinal inside it and never
non-negative outside it; the empty string is outside. -/
def SentinelCorrect (encode : String → ℚ) (values : List String) : Prop :=
  (∀ e : String, (encode e = -1 ↔ e ∉ values) ∧ (e ∈ values → 0 ≤ encode e) ∧
    (e ∉ values → ¬ 0 ≤ encode e)) ∧ encode "" = -1

/-! ## Tables of the samples of the per-resource functions

For every call, the categorical fields of its resource with the metric each one feeds, and
the measurement samples as the code computes them.  The theorems show that the metrics of a
call are exactly these, so the tables can be read in place of the twenty functions. -/

/-- Name and value of a sample. -/
def nameValue (m : Metric) : String × ℚ := (m.name, m.value)

/-- Name endings of the categorical metrics: health, state (power state included), intrusion
sensor, port and interface link status, encryption status, hotspare type and drive status. -/
def categoricalSuffixes : List String :=
  ["_health", "_state", "_intrusion_sensor", "_network_port_status", "_link_status",
   "_drive_encryption_status", "_drive_hotspare_type", "_drive_status"]

/-- Test that a metric name is that of a categorical metric. -/
def isCategoricalName (n : String) : Bool :=
  categoricalSuffixes.any (fun s => s.data.isSuffixOf n.data)

/-- Categorical field of a resource: the metric it feeds, its codec and its raw value. -/
structure CategoricalField where
  metric : String
  encode : String → ℚ
  field : String

/-- Name and value of the sample of a codec result: none for the absent sentinel, else one
sample carrying the ordinal. -/
def ordinalSample (n : String) (e : ℚ) : List (String × ℚ) :=
  if e = -1 then [] else [(n, e)]

/-- Sample of a categorical field, passed through its codec. -/
def CategoricalField.samples (f : CategoricalField) : List (String × ℚ) :=
  ordinalSample f.metric (f.encode f.field)

/-- Categorical fields of the resource of a call, with the metric each one feeds, in the
order the metrics are documented. -/
def Call.categoricalFields : Call → List CategoricalField
  | .processChassis chassis =>
    [⟨"redfish_chassis_intrusion_sensor", enumIntrusionSensor,
        chassis.PhysicalSecurity.IntrusionSensor⟩,
     ⟨"redfish_chassis_power_state", enumPowerState, chassis.PowerState⟩,
     ⟨"redfish_chassis_health", enumHealth, chassis.Status.Health⟩,
     ⟨"redfish_chassis_state", enumState, chassis.Status.State⟩]
  | .processThermal thermal _ =>
    [⟨"redfish_chassis_thermal_health", enumHealth, thermal.Status.Health⟩,
     ⟨"redfish_chassis_thermal_state", enumState, thermal.Status.State⟩]
  | .processFan fan _ =>
    [⟨"redfish_chassis_fan_health", enumHealth, fan.Status.Health⟩,
     ⟨"redfish_chassis_fan_state", enumState, fan.Status.State⟩]
  | .processTemperature t _ =>
    [⟨"redfish_chassis_temperature_health", enumHealth, t.Status.Health⟩,
     ⟨"redfish_chassis_temperature_state", enumState, t.Status.State⟩]
  | .processPowerControl control _ =>
    [⟨"redfish_chassis_power_control_health", enumHealth, control.Status.Health⟩,
     ⟨"redfish_chassis_power_control_state", enumState, control.Status.State⟩]
  | .processPowerSupply ps _ =>
    [⟨"redfish_chassis_power_supply_health", enumHealth, ps.Status.Health⟩,
     ⟨"redfish_chassis_power_supply_state", enumState, ps.Status.State⟩]
  | .processVoltage voltage _ =>
    [⟨"redfish_chassis_voltage_health", enumHealth, voltage.Status.Health⟩,
     ⟨"redfish_chassis_voltage_state", enumState, voltage.Status.State⟩]
  | .processNetworkAdapter adapter _ =>
    [⟨"redfish_chassis_network_adapter_health", enumHealth, adapter.Status.Health⟩,
     ⟨"redfish_chassis_network_adapter_state", enumState, adapter.Status.State⟩]
  | .processNetworkPort port _ =>
    [⟨"redfish_chassis_network_port_status", enumPortLinkStatus, port.LinkStatus⟩,
     ⟨"redfish_chassis_network_port_health", enumHealth, port.Status.Health⟩,
     ⟨"redfish_chassis_network_port_state", enumState, port.Status.State⟩]
  | .processSystem system =>
    [⟨"redfish_system_power_state", enumPowerState, system.PowerState⟩,
     ⟨"redfish_system_health", enumHealth, system.Status.Health⟩,
     ⟨"redfish_system_state", enumState, system.Status.State⟩]
  | .processSystemEthernetInterface intf _ =>
    [⟨"redfish_system_ethernet_interface_link_status", enumInterfaceLinkStatus,
        intf.LinkStatus⟩,
     ⟨"redfish_system_ethernet_interface_health", enumHealth, intf.Status.Health⟩,
     ⟨"redfish_system_ethernet_interface_state", enumState, intf.Status.State⟩]
  | .processMemory memory _ =>
    [⟨"redfish_system_memory_health", enumHealth, memory.Status.Health⟩,
     ⟨"redfish_system_memory_state", enumState, memory.Status.State⟩]
  | .processNetworkInterface intf _ =>
    [⟨"redfish_system_network_interface_health", enumHealth, intf.Status.Health⟩,
     ⟨"redfish_system_network_interface_state", enumState, intf.Status.State⟩]
  | .processPCIeDevice device _ =>
    [⟨"redfish_system_pcie_device_health", enumHealth, device.Status.Health⟩,
     ⟨"redfish_system_pcie_device_state", enumState, device.Status.State⟩]
  | .processProcessor processor _ =>
    [⟨"redfish_system_processor_health", enumHealth, processor.Status.Health⟩,
     ⟨"redfish_system_processor_state", enumState, processor.Status.State⟩]
  | .processStorage storage _ =>
    [⟨"redfish_system_storage_health", enumHealth, storage.Status.Health⟩,
     ⟨"redfish_system_storage_state", enumState, storage.Status.State⟩]
  | .processStorageController controller _ _ =>
    [⟨"redfish_system_storage_controller_health", enumHealth,
        controller.CacheSummary.Status.Health⟩,
     ⟨"redfish_system_storage_controller_state", enumState,
        controller.CacheSummary.Status.State⟩,
     ⟨"redfish_system_storage_controller_health", enumHealth, controller.Status.Health⟩,
     ⟨"redfish_system_storage_controller_state", enumState, controller.Status.State⟩]
  | .processDrive drive _ =>
    [⟨"redfish_system_drive_encryption_status", enumEncryptionStatus, drive.EncryptionStatus⟩,
     ⟨"redfish_system_drive_hotspare_type", enumHotspareType, drive.HotspareType⟩,
     ⟨"redfish_system_drive_status", enumDriveStatusIndicator, drive.StatusIndicator⟩,
     ⟨"redfish_system_drive_health", enumHealth, drive.Status.Health⟩,
     ⟨"redfish_system_drive_state", enumState, drive.Status.State⟩]
  | .processManager manager =>
    [⟨"redfish_manager_power_state", enumPowerState, manager.PowerState⟩,
     ⟨"redfish_manager_health", enumHealth, manager.Status.Health⟩,
     ⟨"redfish_manager_state", enumState, manager.Status.State⟩]
  | .processManagerEthernetInterface intf _ =>
    [⟨"redfish_system_ethernet_interface_health", enumHealth, intf.Status.Health⟩,
     ⟨"redfish_system_ethernet_interface_state", enumState, intf.Status.State⟩]

/-- Measurement samples (name and value) of the resource of a call: every numeric or boolean
field with the unit conversion of the code, the constants written out (`mebi` is 1048576,
`mega` 1000000, `giga` 1000000000; the speed of an ethernet interface is multiplied by
1048576).  All of them are unconditional but the fan reading, which depends on the reading
units, and the rotation speed and media life of a drive, which depend on the media type. -/
def Call.measurements : Call → List (String × ℚ)
  | .processChassis _ => []
  | .processThermal _ _ => []
  | .processFan fan _ =>
    if fan.ReadingUnits = "RPM" then [("redfish_chassis_fan_speed_rpm", fan.Reading)]
    else if fan.ReadingUnits = "Percent" then
      [("redfish_chassis_fan_speed_ratio", fan.Reading / 100)]
    else []
  | .processTemperature t _ => [("redfish_chassis_temperature_celsius", t.ReadingCelsius)]
  | .processPowerControl control _ =>
    [("redfish_chassis_power_control_power_allocated_watts", control.PowerAllocatedWatts),
     ("redfish_chassis_power_control_power_capacity_watts", control.PowerCapacityWatts),
     ("redfish_chassis_power_control_power_consumed_watts", control.PowerConsumedWatts),
     ("redfish_chassis_power_control_power_limit_watts", control.PowerLimit.LimitInWatts),
     ("redfish_chassis_power_control_power_requested_watts", control.PowerRequestedWatts)]
  | .processPowerSupply ps _ =>
    [("redfish_chassis_power_supply_efficiency_ratio", ps.EfficiencyPercent / 100),
     ("redfish_chassis_power_supply_input_voltage_volts", ps.LineInputVoltage),
     ("redfish_chassis_power_supply_capacity_watts", ps.PowerCapacityWatts),
     ("redfish_chassis_power_supply_input_power_watts", ps.PowerInputWatts),
     ("redfish_chassis_power_supply_output_power_watts", ps.PowerOutputWatts)]
  | .processVoltage voltage _ => [("redfish_chassis_voltage_reading_volts", voltage.ReadingVolts)]
  | .processNetworkAdapter _ _ => []
  | .processNetworkPort port _ =>
    [("redfish_chassis_network_port_speed_bytes", port.CurrentLinkSpeedMbps * 1000000 / 8)]
  | .processSystem _ => []
  | .processSystemEthernetInterface intf _ =>
    [("redfish_system_ethernet_interface_status", if intf.InterfaceEnabled then 1 else 0),
     ("redfish_system_ethernet_interface_speed_bytes", intf.SpeedMbps * 1048576 / 8)]
  | .processMemory memory _ =>
    [("redfish_system_memory_cache_size_bytes", memory.CacheSizeMiB * 1048576),
     ("redfish_system_memory_capacity_bytes", memory.CapacityMiB * 1048576),
     ("redfish_system_memory_non_volatile_size_desc", memory.NonVolatileSizeMiB * 1048576),
     ("redfish_system_memory_operating_speed_hertz", memory.OperatingSpeedMhz * 1000000),
     ("redfish_system_memory_volatile_size_desc", memory.VolatileSizeMiB * 1048576)]
  | .processNetworkInterface _ _ => []
  | .processPCIeDevice _ _ => []
  | .processProcessor processor _ =>
    [("redfish_system_processor_speed_max_hertz", processor.MaxSpeedMHz * 1000000),
     ("redfish_system_processor_tdp_max_watts", processor.MaxTDPWatts),
     ("redfish_system_processor_tdp_current_wats", processor.TDPWatts),
     ("redfish_system_processor_cores", processor.TotalCores),
     ("redfish_system_processor_cores_enabled", processor.TotalEnabledCores),
     ("redfish_system_processor_threads", processor.TotalThreads)]
  | .processStorage _ _ => []
  | .processStorageController controller _ _ =>
    [("redfish_system_storage_controller_speed_bytes", controller.SpeedGbps * 1000000000 / 8),
     ("redfish_system_storage_controller_cache_size_persistent_bytes",
        controller.CacheSummary.PersistentCacheSizeMiB * 1048576),
     ("redfish_system_storage_controller_cache_size_bytes",
        controller.CacheSummary.TotalCacheSizeMiB * 1048576)]
  | .processDrive drive _ =>
    [("redfish_system_drive_speed_capable_bytes", drive.CapableSpeedGbs * 1000000000 / 8),
     ("redfish_system_drive_capacity_bytes", drive.CapacityBytes),
     ("redfish_system_drive_predicted_failure", if drive.FailurePredicted then 1 else 0),
     ("redfish_system_drive_speed_negotiated_bytes", drive.NegotiatedSpeedGbs * 1000000000 / 8),
     ("redfish_system_drive_write_cache_status", if drive.WriteCacheEnabled then 1 else 0)]
    ++ (if drive.MediaType = "HDD" ∨ drive.MediaType = "SMR" then
          [("redfish_system_drive_rotation_speed_rpm", drive.RotationSpeedRPM)]
        else if drive.MediaType = "SSD" then
          [("redfish_system_drive_predicted_media_life_left_ratio",
            drive.PredictedMediaLifeLeftPercent / 100)]
        else [])
  | .processManager manager =>
    [("redfish_manager_command_shell_status",
        if manager.CommandShell.ServiceEnabled then 1 else 0),
     ("redfish_manager_console_graphical_status",
        if manager.GraphicalConsole.ServiceEnabled then 1 else 0),
     ("redfish_manager_console_serial_status",
        if manager.SerialConsole.ServiceEnabled then 1 else 0)]
  | .processManagerEthernetInterface intf _ =>
    [("redfish_manager_ethernet_interface_status", if intf.InterfaceEnabled then 1 else 0),
     ("redfish_manager_ethernet_interface_speed_bytes", intf.SpeedMbps * 1048576 / 8)]

/-- Modelled from the spec: value that reaches the collector for a numeric field the service
does not report.  The source converts every such field with `float64(field)`, so gofish
(outside src/) declares it as a plain Go number, which keeps the zero value when the
document of the resource has no such member. -/
def notReported : ℚ := 0

/-! ## Concrete resources used by the witnesses and the counterexamples -/

/-- Status with neither health nor state reported. -/
def noStatus : common.Status := { Health := "", State := "" }

/-- Temperature sensor that reports no reading. -/
def silentTemperature : redfish.Temperature :=
  { MemberID := "0", Name := "CPU1 Temp", SensorNumber := 1, PhysicalContext := "CPU",
    ReadingCelsius := notReported, Status := noStatus }

/-- Memory module that reports no capacity. -/
def silentMemory : redfish.Memory :=
  { ID := "DIMM1", Name := "DIMM 1", MemoryType := "DRAM", CacheSizeMiB := notReported,
    CapacityMiB := notReported, NonVolatileSizeMiB := notReported,
    OperatingSpeedMhz := notReported, VolatileSizeMiB := notReported, Status := noStatus }

/-- Fan at 3000 RPM with health OK. -/
def fan3000 : redfish.Fan :=
  { MemberID := "0", Name := "Fan 1", SensorNumber := 7, PhysicalContext := "Backplane",
    ReadingUnits := "RPM", Reading := 3000, Status := { Health := "OK", State := "" } }

/-- Ethernet interface at 1000 Mbps, full duplex. -/
def ethernet1000 : redfish.EthernetInterface :=
  { ID := "eth0", Name := "eth0", MACAddress := "00:11:22:33:44:55",
    EthernetInterfaceType := "Physical", InterfaceEnabled := true, SpeedMbps := 1000,
    FullDuplex := true, LinkStatus := "LinkUp", Status := { Health := "OK", State := "Enabled" } }

/-- Rotating drive at 7200 RPM that also carries a media-life figure. -/
def hddDrive : redfish.Drive :=
  { ID := "disk0", Name := "Disk 0", MediaType := "HDD", CapableSpeedGbs := 12,
    CapacityBytes := 4000787030016, FailurePredicted := false, NegotiatedSpeedGbs := 6,
    WriteCacheEnabled := true, RotationSpeedRPM := 7200, PredictedMediaLifeLeftPercent := 80,
    EncryptionStatus := "Unencrypted", EncryptionAbility := "None", HotspareType := "None",
    HotspareReplacementMode := "Revertible", StatusIndicator := "OK",
    Status := { Health := "OK", State := "Enabled" } }

/-- Test that an event is a call of `processPCIeDevice` for a device with the given id. -/
def isPCIeCall (id : String) : Event → Bool
  | .call (.processPCIeDevice device _) => decide (device.ID = id)
  | _ => false

/-- Number of calls of `processPCIeDevice` for a device id among the events of a run. -/
def pcieCalls (id : String) (events : List Event) : Nat :=
  events.countP (isPCIeCall id)

/-- PCIe device `dev0`, with health OK. -/
def pcieDevice0 : redfish.PCIeDevice :=
  { ID := "dev0", Name := "NIC", DeviceType := "SingleFunction",
    Status := { Health := "OK", State := "" } }

/-- System whose reads all succeed and return nothing but the given PCIe devices. -/
def systemWithDevices (id : String) (devices : List redfish.PCIeDevice) : gofish.SystemNode :=
  { self :=
      { ID := id, Name := id, SystemType := "Physical", PowerState := "", Status := noStatus },
    EthernetInterfaces := { val := [], err := none },
    Memory := { val := [], err := none },
    NetworkInterfaces := { val := [], err := none },
    PCIeDevices := { val := devices, err := none },
    Processors := { val := [], err := none },
    Storage := { val := [], err := none } }

/-- Endpoint with two systems that both list the PCIe device `dev0`, the first one twice. -/
def twoSystemsClient : gofish.APIClient :=
  { Service :=
    { Chassis := { val := [], err := none },
      Systems := { val := [systemWithDevices "system0" [pcieDevice0, pcieDevice0],
                           systemWithDevices "system1" [pcieDevice0]], err := none },
      Managers := { val := [], err := none } } }

/-! ## Vocabulary of the failure semantics -/

/-- Path of the subtree a read fetches, with the ids of its ancestors. -/
def ReadOp.path : ReadOp → String
  | .Chassis => "/Chassis"
  | .ChassisThermal chassisID => "/Chassis/" ++ chassisID ++ "/Thermal"
  | .ChassisPower chassisID => "/Chassis/" ++ chassisID ++ "/Power"
  | .ChassisNetworkAdapters chassisID => "/Chassis/" ++ chassisID ++ "/NetworkAdapters"
  | .AdapterNetworkPorts chassisID adapterID =>
    "/Chassis/" ++ chassisID ++ "/NetworkAdapters/" ++ adapterID ++ "/NetworkPorts"
  | .Systems => "/Systems"
  | .SystemEthernetInterfaces systemID => "/Systems/" ++ systemID ++ "/EthernetInterfaces"
  | .SystemMemory systemID => "/Systems/" ++ systemID ++ "/Memory"
  | .SystemNetworkInterfaces systemID => "/Systems/" ++ systemID ++ "/NetworkInterfaces"
  | .SystemPCIeDevices systemID => "/Systems/" ++ systemID ++ "/PCIeDevices"
  | .SystemProcessors systemID => "/Systems/" ++ systemID ++ "/Processors"
  | .SystemStorage systemID => "/Systems/" ++ systemID ++ "/Storage"
  | .StorageDrives systemID storageID =>
    "/Systems/" ++ systemID ++ "/Storage/" ++ storageID ++ "/Drives"
  | .Managers => "/Managers"
  | .ManagerEthernetInterfaces managerID => "/Managers/" ++ managerID ++ "/EthernetInterfaces"

/-- Test that an event is a read that failed. -/
def Event.isFailedRead : Event → Bool
  | .read _ (some _) => true
  | _ => false

/-- Failure semantics of a run `a` with respect to the run `b` of the same code on the
endpoint whose reads all succeed: `b` returns no error and has no failed read, and either
`a` is the same run, or `a` stops at its first failed read, returns the error that names the
path of that read, and `b` goes through the same events up to that read, which succeeds in
`b`. -/
def Run.FailsFirst (a b : Run) : Prop :=
  b.err = none ∧ (∀ ev ∈ b.events, ev.isFailedRead = false) ∧
  ((a.err = none ∧ a.events = b.events) ∨
   ∃ pre op msg rest,
     a.events = pre ++ [Event.read op (some msg)] ∧
     a.err = some ("error collecting " ++ op.path ++ ": " ++ msg) ∧
     b.events = pre ++ Event.read op none :: rest)

/-- Claim of the failure semantics for the run `a` of a collector and the run `b` of the
same collector on the endpoint whose reads all succeed, a fully successful traversal: `b`
returns no error and no read of it fails; and either `a` returns no error and is the same
run, or `a` ends with its first failed read, returns the error that names the path of that
read, and `b` makes the same events before that read, so that the channel of `a` holds
exactly the metrics that `b` has sent when it comes to that read. -/
def Run.StopsAtFirstFailure (macString : String → String) (a b : Run) : Prop :=
  b.err = none ∧ (∀ ev ∈ b.events, ev.isFailedRead = false) ∧
  ((a.err = none ∧ a.events = b.events) ∨
   ∃ pre op msg rest,
     a.events = pre ++ [Event.read op (some msg)] ∧
     (∀ ev ∈ pre, ev.isFailedRead = false) ∧
     a.err = some ("error collecting " ++ op.path ++ ": " ++ msg) ∧
     b.events = pre ++ Event.read op none :: rest ∧
     a.sink macString = pre.flatMap (Event.metrics macString) ∧
     b.sink macString
       = pre.flatMap (Event.metrics macString) ++ rest.flatMap (Event.metrics macString))

/-- Storage subsystem `raid0` whose drives cannot be read. -/
def failingStorage : gofish.StorageNode :=
  { self := { ID := "raid0", Name := "RAID", Status := { Health := "OK", State := "" },
              StorageControllers := [] },
    Drives := { val := [hddDrive], err := some "timeout" } }

/-- System `system0` with one memory module and the storage subsystem `raid0`. -/
def failingSystem : gofish.SystemNode :=
  { self :=
      { ID := "system0", Name := "Server", SystemType := "Physical", PowerState := "On",
        Status := noStatus },
    EthernetInterfaces := { val := [], err := none },
    Memory := { val := [silentMemory], err := none },
    NetworkInterfaces := { val := [], err := none },
    PCIeDevices := { val := [], err := none },
    Processors := { val := [], err := none },
    Storage := { val := [failingStorage], err := none } }

/-- Endpoint whose read of the drives of `raid0` fails, followed by a second system. -/
def failingDrivesClient : gofish.APIClient :=
  { Service :=
    { Chassis := { val := [], err := none },
      Systems := { val := [failingSystem, systemWithDevices "system1" [pcieDevice0]],
                   err := none },
      Managers := { val := [], err := none } } }

/-! ## Vocabulary of the naming convention -/

/-- Test that the name `n` starts with `p`. -/
def startsWith (p n : String) : Bool := p.data.isPrefixOf n.data

/-- Test that the name `n` ends with `s`. -/
def endsWith (s n : String) : Bool := s.data.isSuffixOf n.data

/-- Domain of the collector that makes a call: `chassis`, `system` or `manager`. -/
def Call.domain : Call → String
  | .processChassis _ => "chassis"
  | .processThermal _ _ => "chassis"
  | .processFan _ _ => "chassis"
  | .processTemperature _ _ => "chassis"
  | .processPowerControl _ _ => "chassis"
  | .processPowerSupply _ _ => "chassis"
  | .processVoltage _ _ => "chassis"
  | .processNetworkAdapter _ _ => "chassis"
  | .processNetworkPort _ _ => "chassis"
  | .processSystem _ => "system"
  | .processSystemEthernetInterface _ _ => "system"
  | .processMemory _ _ => "system"
  | .processNetworkInterface _ _ => "system"
  | .processPCIeDevice _ _ => "system"
  | .processProcessor _ _ => "system"
  | .processStorage _ _ => "system"
  | .processStorageController _ _ _ => "system"
  | .processDrive _ _ => "system"
  | .processManager _ => "manager"
  | .processManagerEthernetInterface _ _ => "manager"

/-- Test that a name is one a call of the manager's `processEthernetInterface` gives: a name
of the manager domain or one of its two names of the system domain. -/
def managerEthernetName (n : String) : Bool :=
  startsWith "redfish_manager_" n || n == "redfish_system_ethernet_interface_health"
    || n == "redfish_system_ethernet_interface_state"

/-- Test that a name is that of a sample of a Domain Collector: it starts with the namespace
and one of the three domains. -/
def isDomainName (n : String) : Bool :=
  startsWith "redfish_chassis_" n || startsWith "redfish_system_" n
    || startsWith "redfish_manager_" n

/-- Test the code passes for the name `n` of a sample of the call `c`: the name starts with
the namespace and the domain of the collector, but for the manager's
`processEthernetInterface`, whose health and state samples are named in the system domain. -/
def Call.nameCheck : Call → String → Bool
  | .processManagerEthernetInterface _ _, n => managerEthernetName n
  | c, n => startsWith ("redfish_" ++ c.domain ++ "_") n

/-- Duration sample of the collector `name`. -/
def durationSample (name : String) (duration : ℚ) : Metric :=
  MustNewConstMetric
    (NewDesc "redfish_scrape_duration_seconds" "Scrape duration, s" [] [("collector", name)])
    duration []

/-- Success sample of the collector `name`. -/
def successSample (name : String) (success : ℚ) : Metric :=
  MustNewConstMetric
    (NewDesc "redfish_scrape_success" "Scrape success; 0: Fail, 1: Success" []
      [("collector", name)])
    success []

/-- Availability sample. -/
def upSample (value : ℚ) : Metric :=
  MustNewConstMetric (NewDesc "redfish_up" "Redfish service status; 0: Down, 1: Up" [] []) value []

/-- Accounting of the collector `name` on a channel: among the metrics of the channel there
is exactly one duration sample labelled collector=name, with the given value, and exactly
one success sample labelled collector=name, with the given value. -/
def HasAccounting (out : List Metric) (name : String) (duration success : ℚ) : Prop :=
  out.filter (fun m => decide (m.name = "redfish_scrape_duration_seconds"
      ∧ ("collector", name) ∈ m.labels)) = [durationSample name duration] ∧
  out.filter (fun m => decide (m.name = "redfish_scrape_success"
      ∧ ("collector", name) ∈ m.labels)) = [successSample name success]

/-! ## Vocabulary of the labels -/

/-- Property of the descriptors of all the metrics of a list. -/
def AllDescs (P : Desc → Prop) (l : List Metric) : Prop :=
  ∀ m ∈ l, P m.desc

/-- Id of the resource a call processes: its `ID`, or its `MemberID` for a member of an array
of its parent. -/
def Call.resourceID : Call → String
  | .processChassis chassis => chassis.ID
  | .processThermal thermal _ => thermal.ID
  | .processFan fan _ => fan.MemberID
  | .processTemperature t _ => t.MemberID
  | .processPowerControl control _ => control.MemberID
  | .processPowerSupply ps _ => ps.MemberID
  | .processVoltage voltage _ => voltage.MemberID
  | .processNetworkAdapter adapter _ => adapter.ID
  | .processNetworkPort port _ => port.ID
  | .processSystem system => system.ID
  | .processSystemEthernetInterface intf _ => intf.ID
  | .processMemory memory _ => memory.ID
  | .processNetworkInterface intf _ => intf.ID
  | .processPCIeDevice device _ => device.ID
  | .processProcessor processor _ => processor.ID
  | .processStorage storage _ => storage.ID
  | .processStorageController controller _ _ => controller.MemberID
  | .processDrive drive _ => drive.ID
  | .processManager manager => manager.ID
  | .processManagerEthernetInterface intf _ => intf.ID

/-- Name of the resource a call processes. -/
def Call.resourceName : Call → String
  | .processChassis chassis => chassis.Name
  | .processThermal thermal _ => thermal.Name
  | .processFan fan _ => fan.Name
  | .processTemperature t _ => t.Name
  | .processPowerControl control _ => control.Name
  | .processPowerSupply ps _ => ps.Name
  | .processVoltage voltage _ => voltage.Name
  | .processNetworkAdapter adapter _ => adapter.Name
  | .processNetworkPort port _ => port.Name
  | .processSystem system => system.Name
  | .processSystemEthernetInterface intf _ => intf.Name
  | .processMemory memory _ => memory.Name
  | .processNetworkInterface intf _ => intf.Name
  | .processPCIeDevice device _ => device.Name
  | .processProcessor processor _ => processor.Name
  | .processStorage storage _ => storage.Name
  | .processStorageController controller _ _ => controller.Name
  | .processDrive drive _ => drive.Name
  | .processManager manager => manager.Name
  | .processManagerEthernetInterface intf _ => intf.Name

/-- Id of the chassis, system or manager under which a call is made: the id argument of the
call, or the id of the resource itself for a chassis, a system or a manager. -/
def Call.rootID : Call → String
  | .processChassis chassis => chassis.ID
  | .processThermal _ chassisID => chassisID
  | .processFan _ chassisID => chassisID
  | .processTemperature _ chassisID => chassisID
  | .processPowerControl _ chassisID => chassisID
  | .processPowerSupply _ chassisID => chassisID
  | .processVoltage _ chassisID => chassisID
  | .processNetworkAdapter _ chassisID => chassisID
  | .processNetworkPort _ chassisID => chassisID
  | .processSystem system => system.ID
  | .processSystemEthernetInterface _ systemID => systemID
  | .processMemory _ systemID => systemID
  | .processNetworkInterface _ systemID => systemID
  | .processPCIeDevice _ systemID => systemID
  | .processProcessor _ systemID => systemID
  | .processStorage _ systemID => systemID
  | .processStorageController _ systemID _ => systemID
  | .processDrive _ systemID => systemID
  | .processManager manager => manager.ID
  | .processManagerEthernetInterface _ managerID => managerID

/-- Memory module of 16384 MiB. -/
def memory16GiB : redfish.Memory :=
  { ID := "DIMM1", Name := "DIMM 1", MemoryType := "DRAM", CacheSizeMiB := 0,
    CapacityMiB := 16384, NonVolatileSizeMiB := 0, OperatingSpeedMhz := 3200,
    VolatileSizeMiB := 16384, Status := { Health := "OK", State := "Enabled" } }

/-- Processor with a current and a maximum TDP. -/
def processor0 : redfish.Processor :=
  { ID := "CPU1", Name := "CPU 1", ProcessorType := "CPU", MaxSpeedMHz := 4000,
    MaxTDPWatts := 205, TDPWatts := 150, TotalCores := 16, TotalEnabledCores := 16,
    TotalThreads := 32, Status := { Health := "OK", State := "Enabled" } }

/-- Network port `port1`. -/
def port1 : redfish.NetworkPort :=
  { ID := "port1", Name := "Port 1", ActiveLinkTechnology := "Ethernet",
    CurrentLinkSpeedMbps := 10000, LinkStatus := "Up", Status := noStatus }

/-- Network adapter `nic0` with the port `port1`. -/
def adapter0 : gofish.NetworkAdapterNode :=
  { self := { ID := "nic0", Name := "NIC", Status := { Health := "OK", State := "" } },
    NetworkPorts := { val := [port1], err := none } }

/-- Chassis `chassis0` with one fan, one temperature sensor, no power block and the adapter
`nic0`. -/
def chassis0 : gofish.ChassisNode :=
  { self :=
      { ID := "chassis0", Name := "Chassis", ChassisType := "RackMount",
        PhysicalSecurity :=
          { IntrusionSensor := "", IntrusionSensorNumber := 0, IntrusionSensorReArm := "" },
        PowerState := "On", Status := { Health := "OK", State := "Enabled" } },
    Thermal :=
      { val := some { ID := "Thermal", Name := "Thermal", Status := noStatus,
                      Fans := [fan3000], Temperatures := [silentTemperature] },
        err := none },
    Power := { val := none, err := none },
    NetworkAdapters := { val := [adapter0], err := none } }

/-- System `system0` with one ethernet interface, one memory module, one processor and the
storage subsystem `raid0` with the drive `disk0`. -/
def system0 : gofish.SystemNode :=
  { self :=
      { ID := "system0", Name := "Server", SystemType := "Physical", PowerState := "On",
        Status := { Health := "OK", State := "Enabled" } },
    EthernetInterfaces := { val := [ethernet1000], err := none },
    Memory := { val := [memory16GiB], err := none },
    NetworkInterfaces := { val := [], err := none },
    PCIeDevices := { val := [pcieDevice0], err := none },
    Processors := { val := [processor0], err := none },
    Storage := { val := [failingStorage.succeed], err := none } }

/-- Manager `bmc0` with one ethernet interface. -/
def manager0 : gofish.ManagerNode :=
  { self :=
      { ID := "bmc0", Name := "Manager", ManagerType := "BMC",
        CommandShell := { ServiceEnabled := true },
        GraphicalConsole := { ServiceEnabled := false },
        SerialConsole := { ServiceEnabled := true },
        PowerState := "On", Status := { Health := "OK", State := "Enabled" } },
    EthernetInterfaces := { val := [ethernet1000], err := none } }

/-- Endpoint with the chassis `chassis0`, the system `system0` and the manager `bmc0`, all of
whose reads succeed. -/
def sampleClient : gofish.APIClient :=
  { Service :=
    { Chassis := { val := [chassis0], err := none },
      Systems := { val := [system0], err := none },
      Managers := { val := [manager0], err := none } } }

/-- Unit suffix that the help text of a metric calls for: the help texts of the package end
in the unit of the value (`, bytes`, `, bytes/s`, `, W`, `, Hz`, `, %`, `, RPM`, `, V`,
`, °C`). -/
def unitSuffix (help : String) : Option String :=
  if endsWith ", bytes" help || endsWith ", bytes/s" help then some "_bytes"
  else if endsWith ", W" help then some "_watts"
  else if endsWith ", Hz" help then some "_hertz"
  else if endsWith ", %" help then some "_ratio"
  else if endsWith ", RPM" help then some "_rpm"
  else if endsWith ", V" help then some "_volts"
  else if endsWith ", °C" help then some "_celsius"
  else none

/-- Test that a metric name carries the unit suffix its help text calls for. -/
def unitCheck (help name : String) : Bool :=
  match unitSuffix help with
  | none => true
  | some s => endsWith s name

/-- Property of the call of an event; a read has it. -/
def Event.callHas (q : Call → Prop) : Event → Prop
  | .call c => q c
  | .read _ _ => True

/-- Test that a call, when it is one of `processStorageController`, has the given storage id
as its last argument. -/
def Call.controllerOf (storageID : String) : Call → Prop
  | .processStorageController _ _ sid => sid = storageID
  | _ => True

/-! ## The documented traversal order

These definitions follow the words of the specification, not the code: they give the list of
samples that the documented depth-first order calls for, as the concatenation of the sample
lists of the resources. -/

/-- List of PCIe devices without repetition of an id: of several devices with one id the
first is kept. -/
def dedupByID : List redfish.PCIeDevice → List redfish.PCIeDevice
  | [] => []
  | device :: rest => device :: (dedupByID rest).filter (fun d => decide (d.ID ≠ device.ID))

/-- Samples the documented order calls for in a storage subsystem: the storage samples, those
of its controllers, those of its drives. -/
def documentedStorageSamples (systemID : String) (storage : gofish.StorageNode) :
    List Metric :=
  SystemCollector.processStorage storage.self systemID
    ++ storage.self.StorageControllers.flatMap (fun controller =>
        SystemCollector.processStorageController controller systemID storage.self.ID)
    ++ storage.Drives.val.flatMap (fun drive => SystemCollector.processDrive drive systemID)

/-- Samples the documented order calls for in a system: the system samples, then those of its
ethernet interfaces, memory modules, network interfaces, PCIe devices (each id once),
processors and storage subsystems. -/
def documentedSystemSamples (macString : String → String) (system : gofish.SystemNode) :
    List Metric :=
  SystemCollector.processSystem system.self
    ++ system.EthernetInterfaces.val.flatMap (fun intf =>
        SystemCollector.processEthernetInterface macString intf system.self.ID)
    ++ system.Memory.val.flatMap (fun memory =>
        SystemCollector.processMemory memory system.self.ID)
    ++ system.NetworkInterfaces.val.flatMap (fun intf =>
        SystemCollector.processNetworkInterface intf system.self.ID)
    ++ (dedupByID system.PCIeDevices.val).flatMap (fun device =>
        SystemCollector.processPCIeDevice device system.self.ID)
    ++ system.Processors.val.flatMap (fun processor =>
        SystemCollector.processProcessor processor system.self.ID)
    ++ system.Storage.val.flatMap (documentedStorageSamples system.self.ID)

/-- Samples the documented order calls for in a network adapter: the adapter samples, then
those of its ports. -/
def documentedAdapterSamples (chassisID : String) (adapter : gofish.NetworkAdapterNode) :
    List Metric :=
  ChassisCollector.processNetworkAdapter adapter.self chassisID
    ++ adapter.NetworkPorts.val.flatMap (fun port =>
        ChassisCollector.processNetworkPort port chassisID)

/-- Samples the documented order calls for in the thermal subtree of a chassis: thermal, fans,
temperatures; none when there is no thermal block. -/
def documentedThermalSamples (chassisID : String) : Option redfish.Thermal → List Metric
  | none => []
  | some thermal =>
    ChassisCollector.processThermal thermal chassisID
      ++ thermal.Fans.flatMap (fun fan => ChassisCollector.processFan fan chassisID)
      ++ thermal.Temperatures.flatMap (fun t => ChassisCollector.processTemperature t chassisID)

/-- Samples the documented order calls for in the power subtree of a chassis: power controls,
power supplies, voltages; none when there is no power block. -/
def documentedPowerSamples (chassisID : String) : Option redfish.Power → List Metric
  | none => []
  | some power =>
    power.PowerControl.flatMap (fun control =>
        ChassisCollector.processPowerControl control chassisID)
      ++ power.PowerSupplies.flatMap (fun ps => ChassisCollector.processPowerSupply ps chassisID)
      ++ power.Voltages.flatMap (fun voltage => ChassisCollector.processVoltage voltage chassisID)

/-- Samples the documented order calls for in a chassis: the chassis samples, then the thermal
subtree, the power subtree, and each network adapter followed by its ports. -/
def documentedChassisSamples (chassis : gofish.ChassisNode) : List Metric :=
  ChassisCollector.processChassis chassis.self
    ++ documentedThermalSamples chassis.self.ID chassis.Thermal.val
    ++ documentedPowerSamples chassis.self.ID chassis.Power.val
    ++ chassis.NetworkAdapters.val.flatMap (documentedAdapterSamples chassis.self.ID)

/-! ## Vocabulary of the thermal and power subtrees -/

/-- Test that a call processes a resource of the thermal subtree of a chassis: the thermal
block, a fan or a temperature sensor. -/
def Call.isThermal : Call → Bool
  | .processThermal _ _ => true
  | .processFan _ _ => true
  | .processTemperature _ _ => true
  | _ => false

/-- Test that a call processes a resource of the power subtree of a chassis: a power control,
a power supply or a voltage sensor. -/
def Call.isPower : Call → Bool
  | .processPowerControl _ _ => true
  | .processPowerSupply _ _ => true
  | .processVoltage _ _ => true
  | _ => false

/-- Test that `n` is the name of a thermal, fan or temperature sample. -/
def isThermalName (n : String) : Bool :=
  startsWith "redfish_chassis_thermal_" n || startsWith "redfish_chassis_fan_" n
    || startsWith "redfish_chassis_temperature_" n

/-- Test that `n` is the name of a power-control, power-supply or voltage sample. -/
def isPowerName (n : String) : Bool :=
  startsWith "redfish_chassis_power_control_" n || startsWith "redfish_chassis_power_supply_" n
    || startsWith "redfish_chassis_voltage_" n

/-- Test the code passes for the name `n` of a sample of the call `c`: the name is that of a
sample of the thermal subtree exactly when the call processes a resource of that subtree, and
likewise for the power subtree. -/
def Call.subtreeCheck (c : Call) (n : String) : Bool :=
  (isThermalName n == c.isThermal) && (isPowerName n == c.isPower)

/-- Chassis `chassis1` whose thermal and power reads succeed without a block, with the
network adapter `nic0`. -/
def bareChassis : gofish.ChassisNode :=
  { self :=
      { ID := "chassis1", Name := "Chassis", ChassisType := "RackMount",
        PhysicalSecurity :=
          { IntrusionSensor := "", IntrusionSensorNumber := 0, IntrusionSensorReArm := "" },
        PowerState := "On", Status := { Health := "OK", State := "Enabled" } },
    Thermal := { val := none, err := none },
    Power := { val := none, err := none },
    NetworkAdapters := { val := [adapter0], err := none } }

/-! ## Vocabulary of the label keys -/

/-- Label keys that the package gives to the samples of the name `n`: the keys of the
constant labels of the resource the name belongs to, followed by the variable labels of the
descriptor of that name. -/
def labelKeysOf (n : String) : List String :=
  (if startsWith "redfish_chassis_thermal_" n then ["id", "name", "chassis_id"]
   else if startsWith "redfish_chassis_fan_" n
      || startsWith "redfish_chassis_temperature_" n
      || startsWith "redfish_chassis_voltage_" n then
     ["id", "name", "chassis_id", "sensor_number", "physical_context"]
   else if startsWith "redfish_chassis_power_control_" n then ["id", "name", "chassis_id"]
   else if startsWith "redfish_chassis_power_supply_" n then
     ["id", "name", "chassis_id", "power_supply_type"]
   else if startsWith "redfish_chassis_network_adapter_" n then ["id", "name", "chassis_id"]
   else if startsWith "redfish_chassis_network_port_" n then
     ["id", "name", "chassis_id", "link_type"]
   else if startsWith "redfish_chassis_" n then ["id", "name", "chassis_id", "chassis_type"]
   else if startsWith "redfish_system_ethernet_interface_" n then
     ["id", "name", "system_id", "interface_type", "address"]
   else if startsWith "redfish_system_memory_" n then
     ["id", "name", "system_id", "memory_type"]
   else if startsWith "redfish_system_network_interface_" n then ["id", "name", "system_id"]
   else if startsWith "redfish_system_pcie_device_" n then
     ["id", "name", "system_id", "device_type"]
   else if startsWith "redfish_system_processor_" n then
     ["id", "name", "system_id", "processor_type"]
   else if startsWith "redfish_system_storage_" n then
     ["id", "name", "system_id", "storage_id"]
   else if startsWith "redfish_system_drive_" n then ["id", "name", "system_id", "drive_type"]
   else if startsWith "redfish_system_" n then ["id", "name", "system_id", "system_type"]
   else if startsWith "redfish_manager_ethernet_interface_" n then
     ["id", "name", "manager_id", "interface_type", "address"]
   else ["id", "name", "manager_id", "manager_type"])
  ++ (if n = "redfish_chassis_intrusion_sensor" then ["sensor_number", "sensor_re_arm"]
      else if n = "redfish_chassis_power_control_power_limit_watts" then
        ["correction_interval", "action"]
      else if n = "redfish_chassis_power_supply_input_voltage_volts" then
        ["input_voltage_type"]
      else if n = "redfish_system_ethernet_interface_speed_bytes"
          || n = "redfish_manager_ethernet_interface_speed_bytes" then ["duplex"]
      else if n = "redfish_system_drive_encryption_status" then ["encryption_ability"]
      else if n = "redfish_system_drive_hotspare_type" then ["hotspare_replacement_mode"]
      else [])

/-! ## Vocabulary of the ordinal tables -/

/-- Help text that documents an ordinal table: the title, then the values with their ordinals
counted from 0, as in `Network port status; 0: Down, 1: Up`. -/
def ordinalHelp (title : String) (values : List String) : String :=
  title ++ "; " ++ ", ".intercalate (values.enum.map (fun p => toString p.1 ++ ": " ++ p.2))

/-- The two spellings of the unencrypted status. -/
def unencryptedSpellings : List String := ["Unecrypted", "Unencrypted"]

/-- Codec that numbers its recognized values, those it does not map to the absent sentinel
-1, from 0 to `n - 1`: two recognized values with the same ordinal are equal or are both
spellings of unencrypted, the ordinal of a recognized value is below `n`, and every ordinal
below `n` is that of some value. -/
def OrdinalCodec (encode : String → ℚ) (n : Nat) : Prop :=
  (∀ a b : String, encode a ≠ -1 → encode b ≠ -1 → encode a = encode b →
    a = b ∨ (a ∈ unencryptedSpellings ∧ b ∈ unencryptedSpellings)) ∧
  (∀ a : String, encode a ≠ -1 → ∃ k : Nat, k < n ∧ encode a = k) ∧
  (∀ k : Nat, k < n → ∃ a : String, encode a = k)

/-! ## Vocabulary of the interleavings -/

/-- Interleaving of three sequences, in the words of the specification: `Shuffle a b c l`
holds when `l` consists of the elements of `a`, of `b` and of `c`, each sequence in its own
order. -/
inductive Shuffle {α : Type} : List α → List α → List α → List α → Prop where
  | nil : Shuffle [] [] [] []
  | first (x : α) {a b c l : List α} : Shuffle a b c l → Shuffle (x :: a) b c (x :: l)
  | second (y : α) {a b c l : List α} : Shuffle a b c l → Shuffle a (y :: b) c (y :: l)
  | third (z : α) {a b c l : List α} : Shuffle a b c l → Shuffle a b (z :: c) (z :: l)

/-- Storage controller whose own status and whose cache-summary status both have a known
health and state: the controller is in health Warning, its cache in health OK. -/
def controllerBothStatuses : redfish.StorageController :=
  { MemberID := "0", Name := "RAID Controller", SpeedGbps := 12,
    CacheSummary :=
      { PersistentCacheSizeMiB := 0, TotalCacheSizeMiB := 1024,
        Status := { Health := "OK", State := "Enabled" } },
    Status := { Health := "Warning", State := "Enabled" } }

/-! ## Theorems -/

/-! ### The codecs -/

theorem enumHealth_sentinel : SentinelCorrect enumHealth healthValues := by
  refine ⟨fun e => ?_, by decide⟩
  by_cases h : e ∈ healthValues
  · simp only [healthValues, List.mem_cons, List.mem_singleton, List.not_mem_nil, or_false] at h
    rcases h with rfl | rfl | rfl <;> decide
  · have h2 := h
    simp only [healthValues, List.mem_cons, List.mem_singleton, List.not_mem_nil, or_false,
      not_or] at h2
    simp [enumHealth, common.OKHealth, common.WarningHealth, common.CriticalHealth, h, h2]

theorem enumState_sentinel : SentinelCorrect enumState stateValues := by
  refine ⟨fun e => ?_, by decide⟩
  by_cases h : e ∈ stateValues
  · simp only [stateValues, List.mem_cons, List.mem_singleton, List.not_mem_nil, or_false] at h
    rcases h with rfl | rfl | rfl | rfl | rfl | rfl | rfl | rfl | rfl | rfl | rfl <;> decide
  · have h2 := h
    simp only [stateValues, List.mem_cons, List.mem_singleton, List.not_mem_nil, or_false,
      not_or] at h2
    simp [enumState, common.DisabledState, common.EnabledState, common.StandbyOfflineState,
      common.StandbySpareState, common.InTestState, common.StartingState, common.AbsentState,
      common.UnavailableOfflineState, common.DeferringState, common.QuiescedState,
      common.UpdatingState, h, h2]

theorem enumPowerState_sentinel : SentinelCorrect enumPowerState powerStateValues := by
  refine ⟨fun e => ?_, by decide⟩
  by_cases h : e ∈ powerStateValues
  · simp only [powerStateValues, List.mem_cons, List.mem_singleton, List.not_mem_nil,
      or_false] at h
    rcases h with rfl | rfl | rfl | rfl <;> decide
  · have h2 := h
    simp only [powerStateValues, List.mem_cons, List.mem_singleton, List.not_mem_nil, or_false,
      not_or] at h2
    simp [enumPowerState, redfish.OffPowerState, redfish.OnPowerState,
      redfish.PoweringOnPowerState, redfish.PoweringOffPowerState, h, h2]

theorem enumIntrusionSensor_sentinel :
    SentinelCorrect enumIntrusionSensor intrusionSensorValues := by
  refine ⟨fun e => ?_, by decide⟩
  by_cases h : e ∈ intrusionSensorValues
  · simp only [intrusionSensorValues, List.mem_cons, List.mem_singleton, List.not_mem_nil,
      or_false] at h
    rcases h with rfl | rfl | rfl <;> decide
  · have h2 := h
    simp only [intrusionSensorValues, List.mem_cons, List.mem_singleton, List.not_mem_nil,
      or_false, not_or] at h2
    simp [enumIntrusionSensor, redfish.NormalIntrusionSensor,
      redfish.HardwareIntrusionIntrusionSensor, redfish.TamperingDetectedIntrusionSensor, h, h2]

theorem enumPortLinkStatus_sentinel :
    SentinelCorrect enumPortLinkStatus portLinkStatusValues := by
  refine ⟨fun e => ?_, by decide⟩
  by_cases h : e ∈ portLinkStatusValues
  · simp only [portLinkStatusValues, List.mem_cons, List.mem_singleton, List.not_mem_nil,
      or_false] at h
    rcases h with rfl | rfl <;> decide
  · have h2 := h
    simp only [portLinkStatusValues, List.mem_cons, List.mem_singleton, List.not_mem_nil,
      or_false, not_or] at h2
    simp [enumPortLinkStatus, redfish.DownPortLinkStatus, redfish.UpPortLinkStatus, h, h2]

theorem enumInterfaceLinkStatus_sentinel :
    SentinelCorrect enumInterfaceLinkStatus interfaceLinkStatusValues := by
  refine ⟨fun e => ?_, by decide⟩
  by_cases h : e ∈ interfaceLinkStatusValues
  · simp only [interfaceLinkStatusValues, List.mem_cons, List.mem_singleton, List.not_mem_nil,
      or_false] at h
    rcases h with rfl | rfl | rfl <;> decide
  · have h2 := h
    simp only [interfaceLinkStatusValues, List.mem_cons, List.mem_singleton, List.not_mem_nil,
      or_false, not_or] at h2
    simp [enumInterfaceLinkStatus, redfish.LinkDownLinkStatus, redfish.LinkUpLinkStatus,
      redfish.NoLinkLinkStatus, h, h2]

theorem enumEncryptionStatus_sentinel :
    SentinelCorrect enumEncryptionStatus encryptionStatusValues := by
  refine ⟨fun e => ?_, by decide⟩
  by_cases h : e ∈ encryptionStatusValues
  · simp only [encryptionStatusValues, List.mem_cons, List.mem_singleton, List.not_mem_nil,
      or_false] at h
    rcases h with rfl | rfl | rfl | rfl | rfl <;> decide
  · have h2 := h
    simp only [encryptionStatusValues, List.mem_cons, List.mem_singleton, List.not_mem_nil,
      or_false, not_or] at h2
    simp [enumEncryptionStatus, redfish.UnecryptedEncryptionStatus,
      redfish.UnencryptedEncryptionStatus, redfish.UnlockedEncryptionStatus,
      redfish.LockedEncryptionStatus, redfish.ForeignEncryptionStatus, h, h2]

theorem enumHotspareType_sentinel : SentinelCorrect enumHotspareType hotspareTypeValues := by
  refine ⟨fun e => ?_, by decide⟩
  by_cases h : e ∈ hotspareTypeValues
  · simp only [hotspareTypeValues, List.mem_cons, List.mem_singleton, List.not_mem_nil,
      or_false] at h
    rcases h with rfl | rfl | rfl | rfl <;> decide
  · have h2 := h
    simp only [hotspareTypeValues, List.mem_cons, List.mem_singleton, List.not_mem_nil,
      or_false, not_or] at h2
    simp [enumHotspareType, redfish.NoneHotspareType, redfish.GlobalHotspareType,
      redfish.ChassisHotspareType, redfish.DedicatedHotspareType, h, h2]

theorem enumDriveStatusIndicator_sentinel :
    SentinelCorrect enumDriveStatusIndicator driveStatusIndicatorValues := by
  refine ⟨fun e => ?_, by decide⟩
  by_cases h : e ∈ driveStatusIndicatorValues
  · simp only [driveStatusIndicatorValues, List.mem_cons, List.mem_singleton,
      List.not_mem_nil, or_false] at h
    rcases h with rfl | rfl | rfl | rfl | rfl | rfl | rfl <;> decide
  · have h2 := h
    simp only [driveStatusIndicatorValues, List.mem_cons, List.mem_singleton,
      List.not_mem_nil, or_false, not_or] at h2
    simp [enumDriveStatusIndicator, redfish.FailStatusIndicator, redfish.OKStatusIndicator,
      redfish.RebuildStatusIndicator, redfish.PredictiveFailureAnalysisStatusIndicator,
      redfish.HotspareStatusIndicator, redfish.InACriticalArrayStatusIndicator,
      redfish.InAFailedArrayStatusIndicator, h, h2]

/-- Claim C1: each of the nine codecs returns the absent sentinel -1 exactly for the inputs
outside its closed value set, the empty string among them, and a non-negative ordinal for
the inputs inside it; no input outside the set yields a value that is at least 0. -/
theorem codecs_sentinel_correct :
    SentinelCorrect enumHealth healthValues ∧
    SentinelCorrect enumState stateValues ∧
    SentinelCorrect enumPowerState powerStateValues ∧
    SentinelCorrect enumIntrusionSensor intrusionSensorValues ∧
    SentinelCorrect enumPortLinkStatus portLinkStatusValues ∧
    SentinelCorrect enumInterfaceLinkStatus interfaceLinkStatusValues ∧
    SentinelCorrect enumEncryptionStatus encryptionStatusValues ∧
    SentinelCorrect enumHotspareType hotspareTypeValues ∧
    SentinelCorrect enumDriveStatusIndicator driveStatusIndicatorValues :=
  ⟨enumHealth_sentinel, enumState_sentinel, enumPowerState_sentinel,
    enumIntrusionSensor_sentinel, enumPortLinkStatus_sentinel,
    enumInterfaceLinkStatus_sentinel, enumEncryptionStatus_sentinel,
    enumHotspareType_sentinel, enumDriveStatusIndicator_sentinel⟩

/-- Claim C2: the three common codecs reproduce the documented ordinal tables: health
OK, Warning, Critical is 0, 1, 2; state Disabled up to Updating is 0 up to 10 in the
documented order; power state Off, On, PoweringOn, PoweringOff is 0, 1, 2, 3. -/
theorem common_codecs_ordinal_tables :
    ["OK", "Warning", "Critical"].map enumHealth = [0, 1, 2] ∧
    ["Disabled", "Enabled", "StandbyOffline", "StandbySpare", "InTest", "Starting", "Absent",
      "UnavailableOffline", "Deferring", "Quiesced", "Updating"].map enumState
      = [0, 1, 2, 3, 4, 5, 6, 7, 8, 9, 10] ∧
    ["Off", "On", "PoweringOn", "PoweringOff"].map enumPowerState = [0, 1, 2, 3] := by
  decide


/-! ### Names and values of the samples of one call -/

theorem SentinelCorrect.nonneg_iff {encode : String → ℚ} {values : List String}
    (h : SentinelCorrect encode values) (e : String) : encode e ≥ 0 ↔ encode e ≠ -1 := by
  obtain ⟨h1, h2, h3⟩ := h.1 e
  by_cases hm : e ∈ values
  · exact ⟨fun _ hx => (h1.mp hx) hm, fun _ => h2 hm⟩
  · exact ⟨fun hx => absurd hx (h3 hm), fun hx => absurd (h1.mpr hm) hx⟩

theorem BuildFQName_redfish (subsystem name : String) (h1 : subsystem ≠ "") (h2 : name ≠ "") :
    BuildFQName namespace_ subsystem name = "redfish_" ++ subsystem ++ "_" ++ name := by
  have h0 : namespace_ ≠ "" := by decide
  simp only [BuildFQName, if_neg h2, h0, h1, ne_eq, not_false_eq_true, and_self, if_true]
  simp only [namespace_]
  rfl

theorem nameValue_mk (n hp : String) (vl : List String) (cl : List (String × String)) (v : ℚ)
    (lv : List String) : nameValue (MustNewConstMetric (NewDesc n hp vl cl) v lv) = (n, v) :=
  rfl

theorem map_nameValue_sendOrdinal {encode : String → ℚ} {values : List String}
    (h : SentinelCorrect encode values) (n hp : String) (vl : List String)
    (cl : List (String × String)) (e : String) (lv : List String) :
    (sendOrdinal (NewDesc n hp vl cl) (encode e) lv).map nameValue
      = ordinalSample n (encode e) := by
  unfold sendOrdinal ordinalSample
  by_cases hx : encode e = -1
  · have : ¬ encode e ≥ 0 := fun hge => (h.nonneg_iff e).mp hge hx
    simp [hx, this]
  · have : encode e ≥ 0 := (h.nonneg_iff e).mpr hx
    simp [hx, this, nameValue_mk]

theorem Call.map_nameValue_metrics (macString : String → String) (c : Call) :
    (c.metrics macString).map nameValue
      = c.measurements ++ c.categoricalFields.flatMap CategoricalField.samples := by
  cases c <;>
    simp only [Call.metrics, ChassisCollector.processChassis, ChassisCollector.processThermal,
      ChassisCollector.processFan, ChassisCollector.processTemperature,
      ChassisCollector.processPowerControl, ChassisCollector.processPowerSupply,
      ChassisCollector.processVoltage, ChassisCollector.processNetworkAdapter,
      ChassisCollector.processNetworkPort, SystemCollector.processSystem,
      SystemCollector.processEthernetInterface, SystemCollector.processMemory,
      SystemCollector.processNetworkInterface, SystemCollector.processPCIeDevice,
      SystemCollector.processProcessor, SystemCollector.processStorage,
      SystemCollector.processStorageController, SystemCollector.processDrive,
      ManagerCollector.processManager, ManagerCollector.processEthernetInterface,
      List.map_append, List.map_cons, List.map_nil, nameValue_mk,
      map_nameValue_sendOrdinal enumHealth_sentinel,
      map_nameValue_sendOrdinal enumState_sentinel,
      map_nameValue_sendOrdinal enumPowerState_sentinel,
      map_nameValue_sendOrdinal enumIntrusionSensor_sentinel,
      map_nameValue_sendOrdinal enumPortLinkStatus_sentinel,
      map_nameValue_sendOrdinal enumInterfaceLinkStatus_sentinel,
      map_nameValue_sendOrdinal enumEncryptionStatus_sentinel,
      map_nameValue_sendOrdinal enumHotspareType_sentinel,
      map_nameValue_sendOrdinal enumDriveStatusIndicator_sentinel,
      apply_ite (List.map nameValue),
      Call.measurements, Call.categoricalFields, List.flatMap_cons, List.flatMap_nil,
      CategoricalField.samples, List.append_nil, List.nil_append, List.append_assoc,
      List.cons_append] <;>
    simp (disch := decide) only [BuildFQName_redfish, String.reduceAppend] <;>
    norm_num [mebi, kibi, mega, kilo, giga, btof, redfish.RPMReadingUnits,
      redfish.PercentReadingUnits, redfish.HDDMediaType, redfish.SMRMediaType,
      redfish.SSDMediaType]


theorem forall_mem_pair_cons (n : String) (v : ℚ) (l : List (String × ℚ)) :
    (∀ p ∈ (n, v) :: l, isCategoricalName p.1 = false)
      ↔ isCategoricalName n = false ∧ ∀ p ∈ l, isCategoricalName p.1 = false := by
  simp

theorem forall_mem_pair_ite (c : Prop) [Decidable c] (l1 l2 : List (String × ℚ)) :
    (∀ p ∈ (if c then l1 else l2), isCategoricalName p.1 = false)
      ↔ (c → ∀ p ∈ l1, isCategoricalName p.1 = false)
        ∧ (¬ c → ∀ p ∈ l2, isCategoricalName p.1 = false) := by
  split_ifs with h <;> simp [h]

theorem Call.measurements_not_categorical (c : Call) :
    ∀ p ∈ c.measurements, isCategoricalName p.1 = false := by
  cases c <;>
    simp only [Call.measurements, List.forall_mem_append, forall_mem_pair_cons,
      forall_mem_pair_ite, List.not_mem_nil, false_imp_iff, implies_true, and_true] <;>
    first
    | decide
    | (constructor <;> intros <;> decide)
    | (refine ⟨by decide, ?_, ?_⟩ <;> intros <;> decide)

theorem Call.categoricalFields_categorical (c : Call) :
    ∀ f ∈ c.categoricalFields,
      isCategoricalName f.metric = true ∧ ∃ values, SentinelCorrect f.encode values := by
  cases c <;>
    simp only [Call.categoricalFields, List.forall_mem_cons, List.not_mem_nil, false_imp_iff,
      implies_true, and_true] <;>
    repeat' apply And.intro
  all_goals first
    | decide
    | exact ⟨_, enumHealth_sentinel⟩
    | exact ⟨_, enumState_sentinel⟩
    | exact ⟨_, enumPowerState_sentinel⟩
    | exact ⟨_, enumIntrusionSensor_sentinel⟩
    | exact ⟨_, enumPortLinkStatus_sentinel⟩
    | exact ⟨_, enumInterfaceLinkStatus_sentinel⟩
    | exact ⟨_, enumEncryptionStatus_sentinel⟩
    | exact ⟨_, enumHotspareType_sentinel⟩
    | exact ⟨_, enumDriveStatusIndicator_sentinel⟩

theorem ordinalSample_filter_categorical (n : String) (e : ℚ) (h : isCategoricalName n = true) :
    (ordinalSample n e).filter (fun p => isCategoricalName p.1) = ordinalSample n e := by
  unfold ordinalSample
  split_ifs <;> simp [h]

theorem Call.filter_categorical_fields (c : Call) :
    (c.categoricalFields.flatMap CategoricalField.samples).filter
        (fun p => isCategoricalName p.1)
      = c.categoricalFields.flatMap CategoricalField.samples := by
  apply List.filter_eq_self.mpr
  intro p hp
  obtain ⟨f, hf, hpf⟩ := List.mem_flatMap.mp hp
  have hcat := (c.categoricalFields_categorical f hf).1
  unfold CategoricalField.samples ordinalSample at hpf
  split_ifs at hpf
  · simp at hpf
  · simp only [List.mem_singleton] at hpf
    subst hpf
    exact hcat

theorem Call.filter_categorical_measurements (c : Call) :
    c.measurements.filter (fun p => isCategoricalName p.1) = [] := by
  apply List.filter_eq_nil_iff.mpr
  intro p hp
  simp [c.measurements_not_categorical p hp]

theorem Call.categorical_metrics (macString : String → String) (c : Call) :
    ((c.metrics macString).filter (fun m => isCategoricalName m.name)).map nameValue
      = c.categoricalFields.flatMap CategoricalField.samples := by
  have h : ((c.metrics macString).filter (fun m => isCategoricalName m.name)).map nameValue
      = ((c.metrics macString).map nameValue).filter (fun p => isCategoricalName p.1) := by
    rw [List.filter_map]
    rfl
  rw [h, c.map_nameValue_metrics, List.filter_append, c.filter_categorical_measurements,
    c.filter_categorical_fields, List.nil_append]


theorem Call.measurement_metrics (macString : String → String) (c : Call) :
    ((c.metrics macString).filter (fun m => !isCategoricalName m.name)).map nameValue
      = c.measurements := by
  have h : ((c.metrics macString).filter (fun m => !isCategoricalName m.name)).map nameValue
      = ((c.metrics macString).map nameValue).filter (fun p => !isCategoricalName p.1) := by
    rw [List.filter_map]
    rfl
  have h1 : c.measurements.filter (fun p => !isCategoricalName p.1) = c.measurements := by
    apply List.filter_eq_self.mpr
    intro p hp
    simp [c.measurements_not_categorical p hp]
  have h2 : (c.categoricalFields.flatMap CategoricalField.samples).filter
      (fun p => !isCategoricalName p.1) = [] := by
    apply List.filter_eq_nil_iff.mpr
    intro p hp
    have hp2 : p ∈ (c.categoricalFields.flatMap CategoricalField.samples).filter
        (fun p => isCategoricalName p.1) := by
      rw [c.filter_categorical_fields]
      exact hp
    simp [(List.mem_filter.mp hp2).2]
  rw [h, c.map_nameValue_metrics, List.filter_append, h1, h2, List.append_nil]

theorem Call.categorical_nonneg (macString : String → String) (c : Call) :
    ∀ m ∈ c.metrics macString, isCategoricalName m.name = true → 0 ≤ m.value := by
  intro m hm hcat
  have hnv : nameValue m ∈ (c.metrics macString).map nameValue := List.mem_map_of_mem _ hm
  rw [c.map_nameValue_metrics, List.mem_append] at hnv
  rcases hnv with hnv | hnv
  · have := c.measurements_not_categorical _ hnv
    simp only [nameValue] at this
    rw [hcat] at this
    exact absurd this (by simp)
  · obtain ⟨f, hf, hpf⟩ := List.mem_flatMap.mp hnv
    obtain ⟨_, values, hsc⟩ := c.categoricalFields_categorical f hf
    unfold CategoricalField.samples ordinalSample at hpf
    split_ifs at hpf with hx
    · simp at hpf
    · simp only [List.mem_singleton, nameValue, Prod.mk.injEq] at hpf
      rw [hpf.2]
      exact (hsc.nonneg_iff f.field).mpr hx

/-! ### Categorical and numeric samples -/

/-- Claim C3: for every call of a per-resource function of a Domain Collector, the samples of
the categorical metrics are, in order, those of the categorical fields of the resource whose
codec result is not the absent sentinel -1, each with the ordinal as its value (a field with
result -1 gives no sample); so every categorical sample of a call, and of a whole run of a
collector, has a value that is at least 0. -/
theorem categorical_samples_follow_codec (macString : String → String) :
    (∀ c : Call,
      ((c.metrics macString).filter (fun m => isCategoricalName m.name)).map nameValue
        = c.categoricalFields.flatMap
            (fun f => if f.encode f.field = -1 then [] else [(f.metric, f.encode f.field)])) ∧
    (∀ c : Call, ∀ m ∈ c.metrics macString, isCategoricalName m.name = true → 0 ≤ m.value) ∧
    (∀ r : Run, ∀ m ∈ r.sink macString, isCategoricalName m.name = true → 0 ≤ m.value) := by
  refine ⟨fun c => c.categorical_metrics macString, fun c => c.categorical_nonneg macString,
    ?_⟩
  intro r m hm hcat
  obtain ⟨ev, _, hev⟩ := List.mem_flatMap.mp hm
  cases ev with
  | read op err => simp [Event.metrics] at hev
  | call c => exact c.categorical_nonneg macString m hev hcat

/-- Witness of claim C3: a fan with health OK and no state gives the single categorical sample
fan health 0. -/
theorem categorical_samples_follow_codec_witness :
    (((Call.processFan fan3000 "chassis0").metrics id).filter
        (fun m => isCategoricalName m.name)).map nameValue
      = [("redfish_chassis_fan_health", 0)] := by
  rw [(categorical_samples_follow_codec id).1 (Call.processFan fan3000 "chassis0")]
  decide

/-- Claim C4, counterexample: a temperature sensor with no reading and a memory module with
no capacity still give a temperature sample and a capacity sample, both of value 0. -/
theorem missing_numeric_field_emits_zero :
    silentTemperature.ReadingCelsius = notReported ∧
    (ChassisCollector.processTemperature silentTemperature "chassis0").map nameValue
      = [("redfish_chassis_temperature_celsius", 0)] ∧
    silentMemory.CapacityMiB = notReported ∧
    ("redfish_system_memory_capacity_bytes", (0 : ℚ))
      ∈ (SystemCollector.processMemory silentMemory "system0").map nameValue := by
  refine ⟨rfl, ?_, rfl, ?_⟩
  · have h := Call.map_nameValue_metrics id (Call.processTemperature silentTemperature "chassis0")
    simp only [Call.metrics] at h
    rw [h]
    decide
  · have h := Call.map_nameValue_metrics id (Call.processMemory silentMemory "system0")
    simp only [Call.metrics] at h
    rw [h]
    simp [Call.measurements, silentMemory, notReported]

/-- Claim C4, amended: for every call of a per-resource function, the samples that are not
categorical are exactly the measurement samples of the resource, each with the value the
field holds after its unit conversion: they are sent whatever the value is, so a field that
is not reported, which holds zero, is sent as 0 (only the fan reading depends on the reading
units, and the drive rotation speed and media life on the media type). -/
theorem measurement_samples_unconditional (macString : String → String) (c : Call) :
    ((c.metrics macString).filter (fun m => !isCategoricalName m.name)).map nameValue
      = c.measurements :=
  c.measurement_metrics macString


theorem ordinalSample_filter_ne (n n' : String) (e : ℚ) (h : n ≠ n') :
    (ordinalSample n e).filter (fun p => decide (p.1 = n')) = [] := by
  unfold ordinalSample
  split_ifs <;> simp [h]

theorem pair_filter_ne (n n' : String) (v : ℚ) (l : List (String × ℚ)) (h : n ≠ n') :
    ((n, v) :: l).filter (fun p => decide (p.1 = n')) = l.filter (fun p => decide (p.1 = n')) := by
  simp [h]

theorem pair_filter_eq (n : String) (v : ℚ) (l : List (String × ℚ)) :
    ((n, v) :: l).filter (fun p => decide (p.1 = n))
      = (n, v) :: l.filter (fun p => decide (p.1 = n)) := by
  simp

/-- Claim C5, evaluation at the failing input: for an ethernet interface at 1000 Mbps the
speed sample of the System Collector and that of the Manager Collector both have the value
131,072,000, which is 1000 * 1,048,576 / 8 and not 1000 * 1,000,000 / 8 = 125,000,000. -/
theorem ethernet_speed_1000_mbps (macString : String → String) :
    ((SystemCollector.processEthernetInterface macString ethernet1000 "system0").map
        nameValue).filter (fun p => decide (p.1 = "redfish_system_ethernet_interface_speed_bytes"))
      = [("redfish_system_ethernet_interface_speed_bytes", 131072000)] ∧
    ((ManagerCollector.processEthernetInterface macString ethernet1000 "manager0").map
        nameValue).filter (fun p => decide (p.1 = "redfish_manager_ethernet_interface_speed_bytes"))
      = [("redfish_manager_ethernet_interface_speed_bytes", 131072000)] ∧
    (131072000 : ℚ) ≠ 1000 * 1000000 / 8 := by
  have h1 := Call.map_nameValue_metrics macString
    (Call.processSystemEthernetInterface ethernet1000 "system0")
  have h2 := Call.map_nameValue_metrics macString
    (Call.processManagerEthernetInterface ethernet1000 "manager0")
  simp only [Call.metrics] at h1 h2
  rw [h1, h2]
  refine ⟨?_, ?_, by norm_num⟩
  · simp (disch := decide) only [Call.measurements, Call.categoricalFields,
      CategoricalField.samples, List.flatMap_cons, List.flatMap_nil, List.filter_append,
      ordinalSample_filter_ne, pair_filter_ne, pair_filter_eq, List.filter_nil, List.append_nil]
    norm_num [ethernet1000]
  · simp (disch := decide) only [Call.measurements, Call.categoricalFields,
      CategoricalField.samples, List.flatMap_cons, List.flatMap_nil, List.filter_append,
      ordinalSample_filter_ne, pair_filter_ne, pair_filter_eq, List.filter_nil, List.append_nil]
    norm_num [ethernet1000]

/-- Samples of `processDrive` with a given metric name, as names and values. -/
theorem processDrive_nameValue (drive : redfish.Drive) (systemID : String) :
    (SystemCollector.processDrive drive systemID).map nameValue
      = (Call.processDrive drive systemID).measurements
        ++ (Call.processDrive drive systemID).categoricalFields.flatMap
            CategoricalField.samples :=
  Call.map_nameValue_metrics id (Call.processDrive drive systemID)

/-- Claim C6: for every drive, `processDrive` sends the rotation-speed and the life-left
samples mutually exclusively: for media type HDD or SMR exactly one rotation-speed sample,
of value RotationSpeedRPM, and no life-left sample; for media type SSD exactly one life-left
sample, of value PredictedMediaLifeLeftPercent / 100, and no rotation-speed sample; for any
other media type neither. -/
theorem processDrive_rotation_life_exclusive (drive : redfish.Drive) (systemID : String) :
    (drive.MediaType = redfish.HDDMediaType ∨ drive.MediaType = redfish.SMRMediaType →
      ((SystemCollector.processDrive drive systemID).map nameValue).filter
          (fun p => decide (p.1 = "redfish_system_drive_rotation_speed_rpm"))
        = [("redfish_system_drive_rotation_speed_rpm", drive.RotationSpeedRPM)] ∧
      ((SystemCollector.processDrive drive systemID).map nameValue).filter
          (fun p => decide (p.1 = "redfish_system_drive_predicted_media_life_left_ratio"))
        = []) ∧
    (drive.MediaType = redfish.SSDMediaType →
      ((SystemCollector.processDrive drive systemID).map nameValue).filter
          (fun p => decide (p.1 = "redfish_system_drive_predicted_media_life_left_ratio"))
        = [("redfish_system_drive_predicted_media_life_left_ratio",
            drive.PredictedMediaLifeLeftPercent / 100)] ∧
      ((SystemCollector.processDrive drive systemID).map nameValue).filter
          (fun p => decide (p.1 = "redfish_system_drive_rotation_speed_rpm"))
        = []) ∧
    (¬ (drive.MediaType = redfish.HDDMediaType ∨ drive.MediaType = redfish.SMRMediaType
          ∨ drive.MediaType = redfish.SSDMediaType) →
      ((SystemCollector.processDrive drive systemID).map nameValue).filter
          (fun p => decide (p.1 = "redfish_system_drive_rotation_speed_rpm"))
        = [] ∧
      ((SystemCollector.processDrive drive systemID).map nameValue).filter
          (fun p => decide (p.1 = "redfish_system_drive_predicted_media_life_left_ratio"))
        = []) := by
  rw [processDrive_nameValue]
  simp (disch := decide) only [Call.measurements, Call.categoricalFields,
      CategoricalField.samples, List.flatMap_cons, List.flatMap_nil, List.filter_append,
      ordinalSample_filter_ne, pair_filter_ne, pair_filter_eq, List.filter_nil, List.append_nil,
      redfish.HDDMediaType, redfish.SMRMediaType, redfish.SSDMediaType]
  refine ⟨?_, ?_, ?_⟩
  · intro h
    simp [h]
  · intro h
    simp [h]
  · intro h
    simp only [not_or] at h
    simp [h.1, h.2.1, h.2.2]

/-- Witness of claim C6: a rotating drive at 7200 RPM that also carries a media-life figure
gives one rotation-speed sample of value 7200 and no life-left sample. -/
theorem processDrive_rotation_life_exclusive_witness :
    ((SystemCollector.processDrive hddDrive "system0").map nameValue).filter
        (fun p => decide (p.1 = "redfish_system_drive_rotation_speed_rpm"))
      = [("redfish_system_drive_rotation_speed_rpm", 7200)] ∧
    ((SystemCollector.processDrive hddDrive "system0").map nameValue).filter
        (fun p => decide (p.1 = "redfish_system_drive_predicted_media_life_left_ratio"))
      = [] :=
  (processDrive_rotation_life_exclusive hddDrive "system0").1 (Or.inl rfl)


/-! ### Runs -/

theorem Run.ok_andThen (events : List Event) (b : Run) :
    (Run.ok events).andThen b = { events := events ++ b.events, err := b.err } := rfl

theorem Run.read_ok {α : Type} (op : ReadOp) (r : Read α) (wrap : String → String)
    (k : α → Run) (h : r.err = none) :
    Run.read op r wrap k
      = { events := Event.read op none :: (k r.val).events, err := (k r.val).err } := by
  simp [Run.read, h, Run.ok_andThen]

theorem Run.read_fail {α : Type} (op : ReadOp) (r : Read α) (wrap : String → String)
    (k : α → Run) (e : String) (h : r.err = some e) :
    Run.read op r wrap k = { events := [Event.read op (some e)], err := some (wrap e) } := by
  simp [Run.read, h]

theorem Run.andThen_err_none (a b : Run) (h : (a.andThen b).err = none) :
    a.err = none ∧ b.err = none ∧ (a.andThen b).events = a.events ++ b.events := by
  unfold Run.andThen at h ⊢
  cases ha : a.err with
  | none => simp [ha] at h ⊢; exact h
  | some e => simp [ha] at h

theorem Run.read_err_none {α : Type} (op : ReadOp) (r : Read α) (wrap : String → String)
    (k : α → Run) (h : (Run.read op r wrap k).err = none) :
    r.err = none ∧ (k r.val).err = none := by
  cases hr : r.err with
  | none => rw [Run.read_ok op r wrap k hr] at h; exact ⟨rfl, h⟩
  | some e => rw [Run.read_fail op r wrap k e hr] at h; simp at h

/-! ### PCIe devices -/

theorem pcieCalls_append (id : String) (l1 l2 : List Event) :
    pcieCalls id (l1 ++ l2) = pcieCalls id l1 + pcieCalls id l2 := by
  simp [pcieCalls, List.countP_append]

theorem pcieCalls_eq_zero (id : String) (l : List Event)
    (h : ∀ ev ∈ l, isPCIeCall id ev = false) : pcieCalls id l = 0 := by
  unfold pcieCalls
  rw [List.countP_eq_zero]
  intro ev hev
  simp [h ev hev]

theorem pcieCalls_map_call {α : Type} (id : String) (f : α → Call) (l : List α)
    (h : ∀ x, isPCIeCall id (Event.call (f x)) = false) :
    pcieCalls id (l.map (fun x => Event.call (f x))) = 0 := by
  apply pcieCalls_eq_zero
  intro ev hev
  obtain ⟨x, _, rfl⟩ := List.mem_map.mp hev
  exact h x

theorem pcieCalls_loop (id systemID : String) (devices : List redfish.PCIeDevice) :
    ∀ seen : List String,
      pcieCalls id (SystemCollector.pcieDevicesLoop systemID devices seen)
        = if id ∈ devices.map (fun d => d.ID) ∧ id ∉ seen then 1 else 0 := by
  induction devices with
  | nil => intro seen; simp [SystemCollector.pcieDevicesLoop, pcieCalls]
  | cons device rest ih =>
    intro seen
    unfold SystemCollector.pcieDevicesLoop
    by_cases hseen : device.ID ∈ seen
    · rw [if_pos hseen, ih seen]
      by_cases hid : device.ID = id
      · subst hid
        simp [hseen]
      · have : ¬ id = device.ID := fun h => hid h.symm
        simp [this]
    · rw [if_neg hseen]
      have hcons : pcieCalls id (Event.call (Call.processPCIeDevice device systemID)
            :: SystemCollector.pcieDevicesLoop systemID rest (device.ID :: seen))
          = (if device.ID = id then 1 else 0)
            + pcieCalls id (SystemCollector.pcieDevicesLoop systemID rest (device.ID :: seen)) := by
        unfold pcieCalls
        rw [List.countP_cons]
        by_cases hid : device.ID = id <;> simp [isPCIeCall, hid, Nat.add_comm]
      rw [hcons, ih (device.ID :: seen)]
      by_cases hid : device.ID = id
      · subst hid
        simp [hseen]
      · have : ¬ id = device.ID := fun h => hid h.symm
        simp [hid, this]


theorem Run.forall_andThen (P : Event → Prop) (a b : Run) (ha : ∀ ev ∈ a.events, P ev)
    (hb : ∀ ev ∈ b.events, P ev) : ∀ ev ∈ (a.andThen b).events, P ev := by
  unfold Run.andThen
  cases a.err with
  | none =>
    intro ev hev
    rcases List.mem_append.mp hev with h | h
    · exact ha ev h
    · exact hb ev h
  | some e => exact ha

theorem Run.forall_read {α : Type} (P : Event → Prop) (op : ReadOp) (r : Read α)
    (wrap : String → String) (k : α → Run) (h0 : ∀ e, P (Event.read op e))
    (hk : ∀ v, ∀ ev ∈ (k v).events, P ev) : ∀ ev ∈ (Run.read op r wrap k).events, P ev := by
  cases hr : r.err with
  | none =>
    rw [Run.read_ok op r wrap k hr]
    intro ev hev
    rcases List.mem_cons.mp hev with h | h
    · rw [h]; exact h0 none
    · exact hk _ ev h
  | some e =>
    rw [Run.read_fail op r wrap k e hr]
    intro ev hev
    rw [List.mem_singleton.mp hev]
    exact h0 (some e)

theorem Run.forall_forEach {α : Type} (P : Event → Prop) (body : α → Run) (xs : List α)
    (h : ∀ x, ∀ ev ∈ (body x).events, P ev) : ∀ ev ∈ (Run.forEach body xs).events, P ev := by
  induction xs with
  | nil => intro ev hev; simp [Run.forEach, Run.ok] at hev
  | cons x rest ih => exact Run.forall_andThen P _ _ (h x) ih

theorem Run.forall_ok_map {α : Type} (P : Event → Prop) (f : α → Event) (xs : List α)
    (h : ∀ x, P (f x)) : ∀ ev ∈ (Run.ok (xs.map f)).events, P ev := by
  intro ev hev
  obtain ⟨x, _, rfl⟩ := List.mem_map.mp hev
  exact h x

theorem Run.forEach_err_none {α : Type} (body : α → Run) (xs : List α)
    (h : (Run.forEach body xs).err = none) :
    (∀ x ∈ xs, (body x).err = none)
      ∧ (Run.forEach body xs).events = xs.flatMap (fun x => (body x).events) := by
  induction xs with
  | nil => simp [Run.forEach, Run.ok]
  | cons x rest ih =>
    obtain ⟨hx, hrest, hev⟩ := Run.andThen_err_none _ _ h
    obtain ⟨h1, h2⟩ := ih hrest
    refine ⟨?_, ?_⟩
    · intro y hy
      rcases List.mem_cons.mp hy with rfl | hy
      · exact hx
      · exact h1 y hy
    · show ((body x).andThen (Run.forEach body rest)).events = _
      rw [hev, h2, List.flatMap_cons]

theorem pcieCalls_collectStorage (id systemID : String) (storage : gofish.StorageNode) :
    ∀ ev ∈ (SystemCollector.collectStorage systemID storage).events,
      isPCIeCall id ev = false := by
  refine Run.forall_andThen (fun ev => isPCIeCall id ev = false) _ _ ?_ ?_
  · intro ev hev
    rcases List.mem_append.mp hev with h | h
    · rw [List.mem_singleton.mp h]; rfl
    · obtain ⟨x, _, rfl⟩ := List.mem_map.mp h
      rfl
  · refine Run.forall_read (fun ev => isPCIeCall id ev = false) _ _ _ _ (fun _ => rfl) ?_
    intro drives
    exact Run.forall_ok_map (fun ev => isPCIeCall id ev = false) _ _ (fun _ => rfl)

theorem pcieCalls_collectProcessorsAndStorage (id : String) (system : gofish.SystemNode) :
    pcieCalls id (SystemCollector.collectProcessorsAndStorage system).events = 0 := by
  apply pcieCalls_eq_zero
  refine Run.forall_read (fun ev => isPCIeCall id ev = false) _ _ _ _ (fun _ => rfl) ?_
  intro processors
  refine Run.forall_andThen (fun ev => isPCIeCall id ev = false) _ _ ?_ ?_
  · exact Run.forall_ok_map (fun ev => isPCIeCall id ev = false) _ _ (fun _ => rfl)
  · refine Run.forall_read (fun ev => isPCIeCall id ev = false) _ _ _ _ (fun _ => rfl) ?_
    intro storages
    exact Run.forall_forEach (fun ev => isPCIeCall id ev = false) _ _
      (pcieCalls_collectStorage id system.self.ID)

theorem pcieCalls_cons (id : String) (ev : Event) (l : List Event) :
    pcieCalls id (ev :: l) = pcieCalls id l + if isPCIeCall id ev = true then 1 else 0 := by
  simp [pcieCalls, List.countP_cons]

theorem pcieCalls_collectSystem (id : String) (system : gofish.SystemNode)
    (h1 : system.EthernetInterfaces.err = none) (h2 : system.Memory.err = none)
    (h3 : system.NetworkInterfaces.err = none) (h4 : system.PCIeDevices.err = none) :
    pcieCalls id (SystemCollector.collectSystem system).events
      = if id ∈ system.PCIeDevices.val.map (fun d => d.ID) then 1 else 0 := by
  unfold SystemCollector.collectSystem
  simp only [Run.ok_andThen, Run.read_ok _ _ _ _ h1, Run.read_ok _ _ _ _ h2,
    Run.read_ok _ _ _ _ h3, Run.read_ok _ _ _ _ h4]
  simp only [pcieCalls_append, pcieCalls_cons, List.nil_append, isPCIeCall,
    pcieCalls_collectProcessorsAndStorage,
    pcieCalls_loop, Bool.false_eq_true, if_false, Nat.add_zero, Nat.zero_add,
    List.not_mem_nil, not_false_eq_true, and_true,
    pcieCalls_map_call id (fun intf => Call.processSystemEthernetInterface intf system.self.ID)
      _ (fun _ => rfl),
    pcieCalls_map_call id (fun memory => Call.processMemory memory system.self.ID)
      _ (fun _ => rfl),
    pcieCalls_map_call id (fun intf => Call.processNetworkInterface intf system.self.ID)
      _ (fun _ => rfl)]
  simp [pcieCalls]

theorem Run.collectSystem_err_none (system : gofish.SystemNode)
    (h : (SystemCollector.collectSystem system).err = none) :
    system.EthernetInterfaces.err = none ∧ system.Memory.err = none
      ∧ system.NetworkInterfaces.err = none ∧ system.PCIeDevices.err = none := by
  unfold SystemCollector.collectSystem at h
  obtain ⟨h1, h⟩ := Run.read_err_none _ _ _ _ (Run.andThen_err_none _ _ h).2.1
  obtain ⟨h2, h⟩ := Run.read_err_none _ _ _ _ (Run.andThen_err_none _ _ h).2.1
  obtain ⟨h3, h⟩ := Run.read_err_none _ _ _ _ (Run.andThen_err_none _ _ h).2.1
  obtain ⟨h4, _⟩ := Run.read_err_none _ _ _ _ (Run.andThen_err_none _ _ h).2.1
  exact ⟨h1, h2, h3, h4⟩

theorem pcieCalls_flatMap_collectSystem (id : String) (systems : List gofish.SystemNode)
    (h : ∀ system ∈ systems, (SystemCollector.collectSystem system).err = none) :
    pcieCalls id (systems.flatMap (fun system => (SystemCollector.collectSystem system).events))
      = (systems.filter
          (fun system => decide (id ∈ system.PCIeDevices.val.map (fun d => d.ID)))).length := by
  induction systems with
  | nil => simp [pcieCalls]
  | cons system rest ih =>
    obtain ⟨h1, h2, h3, h4⟩ := Run.collectSystem_err_none system (h system (List.mem_cons_self _ _))
    rw [List.flatMap_cons, pcieCalls_append, pcieCalls_collectSystem id system h1 h2 h3 h4,
      ih (fun s hs => h s (List.mem_cons_of_mem _ hs)), List.filter_cons]
    by_cases hid : id ∈ system.PCIeDevices.val.map (fun d => d.ID)
    · simp [hid, Nat.add_comm]
    · simp [hid]

/-- Claim C7, counterexample: in a scrape of an endpoint with two systems that both list the
PCIe device `dev0`, `processPCIeDevice` is called twice for that id, and the channel holds
two health samples labelled with it. -/
theorem pcie_device_processed_twice_in_one_scrape :
    pcieCalls "dev0" (SystemCollector.Collect twoSystemsClient).events = 2 ∧
    (((SystemCollector.Collect twoSystemsClient).sink id).filter
        (fun m => decide (m.name = "redfish_system_pcie_device_health"
          ∧ ("id", "dev0") ∈ m.labels))).length = 2 := by
  decide

/-- Claim C7, amended: within one system the PCIe devices are deduplicated by id: when the
reads of a system up to its PCIe devices succeed, `processPCIeDevice` is called exactly once
for every id of the list that was read, however often the id occurs in it, and not at all
for any other id; the set of seen ids is new for every system, so in a scrape without read
error the number of calls for an id is the number of systems that list it. -/
theorem pcie_dedup_per_system (id : String) :
    (∀ system : gofish.SystemNode,
      system.EthernetInterfaces.err = none → system.Memory.err = none →
      system.NetworkInterfaces.err = none → system.PCIeDevices.err = none →
      pcieCalls id (SystemCollector.collectSystem system).events
        = if id ∈ system.PCIeDevices.val.map (fun d => d.ID) then 1 else 0) ∧
    (∀ client : gofish.APIClient, (SystemCollector.Collect client).err = none →
      pcieCalls id (SystemCollector.Collect client).events
        = (client.Service.Systems.val.filter
            (fun system => decide (id ∈ system.PCIeDevices.val.map (fun d => d.ID)))).length) := by
  refine ⟨fun system h1 h2 h3 h4 => pcieCalls_collectSystem id system h1 h2 h3 h4, ?_⟩
  intro client h
  unfold SystemCollector.Collect at h ⊢
  obtain ⟨h0, hloop⟩ := Run.read_err_none _ _ _ _ h
  rw [Run.read_ok _ _ _ _ h0]
  obtain ⟨hall, hev⟩ := Run.forEach_err_none _ _ hloop
  rw [pcieCalls_cons, hev, pcieCalls_flatMap_collectSystem id _ hall]
  simp [isPCIeCall]

/-- Witness of claim C7 as amended: the first system of the two-system endpoint lists `dev0`
twice and calls `processPCIeDevice` once for it. -/
theorem pcie_dedup_per_system_witness :
    pcieCalls "dev0" (SystemCollector.collectSystem
      (systemWithDevices "system0" [pcieDevice0, pcieDevice0])).events = 1 :=
  (pcie_dedup_per_system "dev0").1 (systemWithDevices "system0" [pcieDevice0, pcieDevice0])
    rfl rfl rfl rfl


/-! ### Failure semantics of the traversals -/

theorem Run.FailsFirst.ok (events : List Event)
    (h : ∀ ev ∈ events, ev.isFailedRead = false) :
    (Run.ok events).FailsFirst (Run.ok events) :=
  ⟨rfl, h, Or.inl ⟨rfl, rfl⟩⟩

theorem Run.FailsFirst.ok_map {α : Type} (f : α → Call) (xs : List α) :
    (Run.ok (xs.map (fun x => Event.call (f x)))).FailsFirst
      (Run.ok (xs.map (fun x => Event.call (f x)))) := by
  apply Run.FailsFirst.ok
  intro ev hev
  obtain ⟨x, _, rfl⟩ := List.mem_map.mp hev
  rfl

theorem Run.FailsFirst.andThen {a b a' b' : Run} (h : a.FailsFirst b) (h' : a'.FailsFirst b') :
    (a.andThen a').FailsFirst (b.andThen b') := by
  obtain ⟨hb, hbev, hab⟩ := h
  obtain ⟨hb', hbev', hab'⟩ := h'
  have hbb : b.andThen b' = { events := b.events ++ b'.events, err := b'.err } := by
    simp [Run.andThen, hb]
  rw [hbb]
  refine ⟨hb', ?_, ?_⟩
  · intro ev hev
    rcases List.mem_append.mp hev with h | h
    · exact hbev ev h
    · exact hbev' ev h
  · rcases hab with ⟨ha, hev⟩ | ⟨pre, op, msg, rest, hev, ha, hbe⟩
    · have haa : a.andThen a' = { events := a.events ++ a'.events, err := a'.err } := by
        simp [Run.andThen, ha]
      rw [haa]
      rcases hab' with ⟨ha', hev'⟩ | ⟨pre, op, msg, rest, hev', ha', hbe'⟩
      · exact Or.inl ⟨ha', by simp [hev, hev']⟩
      · refine Or.inr ⟨a.events ++ pre, op, msg, rest, ?_, ha', ?_⟩
        · simp [hev']
        · simp [hev, hbe']
    · have haa : a.andThen a' = a := by
        cases a
        simp only at ha
        simp [Run.andThen, ha]
      rw [haa]
      exact Or.inr ⟨pre, op, msg, rest ++ b'.events, hev, ha, by simp [hbe]⟩

theorem Run.FailsFirst.forEach {α : Type} (f g : α → Run) (h : α → α) (xs : List α)
    (hfg : ∀ x, (f x).FailsFirst (g (h x))) :
    (Run.forEach f xs).FailsFirst (Run.forEach g (xs.map h)) := by
  induction xs with
  | nil => exact Run.FailsFirst.ok [] (by simp)
  | cons x rest ih => exact Run.FailsFirst.andThen (hfg x) ih

theorem Run.FailsFirst.read {α : Type} (op : ReadOp) (r : Read α) (wrap : String → String)
    (k k' : α → Run) (h : α → α)
    (hw : ∀ e, wrap e = "error collecting " ++ op.path ++ ": " ++ e)
    (hk : ∀ v, (k v).FailsFirst (k' (h v))) :
    (Run.read op r wrap k).FailsFirst (Run.read op (r.succeed h) wrap k') := by
  have hb : Run.read op (r.succeed h) wrap k'
      = { events := Event.read op none :: (k' (h r.val)).events, err := (k' (h r.val)).err } :=
    Run.read_ok op (r.succeed h) wrap k' rfl
  obtain ⟨hb', hbev', hab'⟩ := hk r.val
  rw [hb]
  refine ⟨hb', ?_, ?_⟩
  · intro ev hev
    rcases List.mem_cons.mp hev with h | h
    · rw [h]; rfl
    · exact hbev' ev h
  · cases hr : r.err with
    | none =>
      rw [Run.read_ok op r wrap k hr]
      rcases hab' with ⟨ha', hev'⟩ | ⟨pre, op', msg, rest, hev', ha', hbe'⟩
      · exact Or.inl ⟨ha', by simp [hev']⟩
      · exact Or.inr ⟨Event.read op none :: pre, op', msg, rest, by simp [hev'], ha',
          by simp [hbe']⟩
    | some e =>
      rw [Run.read_fail op r wrap k e hr]
      exact Or.inr ⟨[], op, e, (k' (h r.val)).events, rfl, by rw [hw e], rfl⟩


theorem Run.FailsFirst.stops (macString : String → String) {a b : Run}
    (h : a.FailsFirst b) : Run.StopsAtFirstFailure macString a b := by
  obtain ⟨hb, hbev, hab⟩ := h
  refine ⟨hb, hbev, ?_⟩
  rcases hab with h | ⟨pre, op, msg, rest, hev, ha, hbe⟩
  · exact Or.inl h
  · refine Or.inr ⟨pre, op, msg, rest, hev, ?_, ha, hbe, ?_, ?_⟩
    · intro ev hev'
      apply hbev
      rw [hbe]
      exact List.mem_append_left _ hev'
    · simp [Run.sink, hev, Event.metrics]
    · simp [Run.sink, hbe, Event.metrics]

theorem ChassisCollector.collectNetworkAdapter_failsFirst (chassisID : String)
    (adapter : gofish.NetworkAdapterNode) :
    (ChassisCollector.collectNetworkAdapter chassisID adapter).FailsFirst
      (ChassisCollector.collectNetworkAdapter chassisID adapter.succeed) := by
  refine Run.FailsFirst.andThen (Run.FailsFirst.ok _ ?_) ?_
  · intro ev hev
    rw [List.mem_singleton.mp hev]
    rfl
  · refine Run.FailsFirst.read _ adapter.NetworkPorts _ _ _ id ?_ ?_
    · intro e
      simp only [ReadOp.path]
      apply String.ext
      simp only [String.data_append, List.append_assoc]
      rfl
    · intro ports
      exact Run.FailsFirst.ok_map _ _


theorem ChassisCollector.collectNetworkAdapters_failsFirst (chassis : gofish.ChassisNode) :
    (ChassisCollector.collectNetworkAdapters chassis).FailsFirst
      (ChassisCollector.collectNetworkAdapters chassis.succeed) := by
  refine Run.FailsFirst.read _ chassis.NetworkAdapters _ _ _
    (List.map gofish.NetworkAdapterNode.succeed) ?_ ?_
  · intro e
    simp only [ReadOp.path]
    apply String.ext
    simp only [String.data_append, List.append_assoc]
    rfl
  intro adapters
  exact Run.FailsFirst.forEach _ _ _ _
    (ChassisCollector.collectNetworkAdapter_failsFirst chassis.self.ID)

theorem ChassisCollector.collectPower_failsFirst (chassis : gofish.ChassisNode) :
    (ChassisCollector.collectPower chassis).FailsFirst
      (ChassisCollector.collectPower chassis.succeed) := by
  refine Run.FailsFirst.read _ chassis.Power _ _ _ id ?_ ?_
  · intro e
    simp only [ReadOp.path]
    apply String.ext
    simp only [String.data_append, List.append_assoc]
    rfl
  intro power
  refine Run.FailsFirst.andThen (Run.FailsFirst.ok _ ?_) ?_
  · intro ev hev
    cases power with
    | none => simp at hev
    | some power =>
      simp only [List.mem_append, List.mem_map] at hev
      rcases hev with (⟨_, _, rfl⟩ | ⟨_, _, rfl⟩) | ⟨_, _, rfl⟩ <;> rfl
  exact ChassisCollector.collectNetworkAdapters_failsFirst chassis

theorem ChassisCollector.collectChassis_failsFirst (chassis : gofish.ChassisNode) :
    (ChassisCollector.collectChassis chassis).FailsFirst
      (ChassisCollector.collectChassis chassis.succeed) := by
  refine Run.FailsFirst.andThen (Run.FailsFirst.ok _ ?_) ?_
  · intro ev hev
    rw [List.mem_singleton.mp hev]
    rfl
  refine Run.FailsFirst.read _ chassis.Thermal _ _ _ id ?_ ?_
  · intro e
    simp only [ReadOp.path]
    apply String.ext
    simp only [String.data_append, List.append_assoc]
    rfl
  intro thermal
  refine Run.FailsFirst.andThen (Run.FailsFirst.ok _ ?_) ?_
  · intro ev hev
    cases thermal with
    | none => simp at hev
    | some thermal =>
      simp only [List.mem_append, List.mem_singleton, List.mem_map] at hev
      rcases hev with (rfl | ⟨_, _, rfl⟩) | ⟨_, _, rfl⟩ <;> rfl
  exact ChassisCollector.collectPower_failsFirst chassis

theorem ChassisCollector.chassisCollect_failsFirst (client : gofish.APIClient) :
    (ChassisCollector.Collect client).FailsFirst (ChassisCollector.Collect client.succeed) := by
  refine Run.FailsFirst.read _ client.Service.Chassis _ _ _
    (List.map gofish.ChassisNode.succeed) ?_ ?_
  · intro e
    simp only [ReadOp.path]
    apply String.ext
    simp only [String.data_append, List.append_assoc]
    rfl
  intro chassiss
  exact Run.FailsFirst.forEach _ _ _ _ ChassisCollector.collectChassis_failsFirst

theorem SystemCollector.collectStorage_failsFirst (systemID : String)
    (storage : gofish.StorageNode) :
    (SystemCollector.collectStorage systemID storage).FailsFirst
      (SystemCollector.collectStorage systemID storage.succeed) := by
  refine Run.FailsFirst.andThen (Run.FailsFirst.ok _ ?_) ?_
  · intro ev hev
    simp only [List.mem_append, List.mem_singleton, List.mem_map] at hev
    rcases hev with rfl | ⟨_, _, rfl⟩ <;> rfl
  refine Run.FailsFirst.read _ storage.Drives _ _ _ id ?_ ?_
  · intro e
    simp only [ReadOp.path]
    apply String.ext
    simp only [String.data_append, List.append_assoc]
    rfl
  intro drives
  exact Run.FailsFirst.ok_map _ _

theorem SystemCollector.collectProcessorsAndStorage_failsFirst (system : gofish.SystemNode) :
    (SystemCollector.collectProcessorsAndStorage system).FailsFirst
      (SystemCollector.collectProcessorsAndStorage system.succeed) := by
  refine Run.FailsFirst.read _ system.Processors _ _ _ id ?_ ?_
  · intro e
    simp only [ReadOp.path]
    apply String.ext
    simp only [String.data_append, List.append_assoc]
    rfl
  intro processors
  refine Run.FailsFirst.andThen (Run.FailsFirst.ok_map _ _) ?_
  refine Run.FailsFirst.read _ system.Storage _ _ _
    (List.map gofish.StorageNode.succeed) ?_ ?_
  · intro e
    simp only [ReadOp.path]
    apply String.ext
    simp only [String.data_append, List.append_assoc]
    rfl
  intro storages
  exact Run.FailsFirst.forEach _ _ _ _
    (SystemCollector.collectStorage_failsFirst system.self.ID)

theorem SystemCollector.pcieDevicesLoop_calls (systemID : String)
    (devices : List redfish.PCIeDevice) :
    ∀ seen : List String, ∀ ev ∈ SystemCollector.pcieDevicesLoop systemID devices seen,
      ev.isFailedRead = false := by
  induction devices with
  | nil => intro seen ev hev; simp [SystemCollector.pcieDevicesLoop] at hev
  | cons device rest ih =>
    intro seen ev hev
    unfold SystemCollector.pcieDevicesLoop at hev
    split_ifs at hev
    · exact ih seen ev hev
    · rcases List.mem_cons.mp hev with rfl | h
      · rfl
      · exact ih _ ev h

theorem SystemCollector.collectSystem_failsFirst (system : gofish.SystemNode) :
    (SystemCollector.collectSystem system).FailsFirst
      (SystemCollector.collectSystem system.succeed) := by
  refine Run.FailsFirst.andThen (Run.FailsFirst.ok _ ?_) ?_
  · intro ev hev
    rw [List.mem_singleton.mp hev]
    rfl
  refine Run.FailsFirst.read _ system.EthernetInterfaces _ _ _ id ?_ ?_
  · intro e
    simp only [ReadOp.path]
    apply String.ext
    simp only [String.data_append, List.append_assoc]
    rfl
  intro ethernetInterfaces
  refine Run.FailsFirst.andThen (Run.FailsFirst.ok_map _ _) ?_
  refine Run.FailsFirst.read _ system.Memory _ _ _ id ?_ ?_
  · intro e
    simp only [ReadOp.path]
    apply String.ext
    simp only [String.data_append, List.append_assoc]
    rfl
  intro memories
  refine Run.FailsFirst.andThen (Run.FailsFirst.ok_map _ _) ?_
  refine Run.FailsFirst.read _ system.NetworkInterfaces _ _ _ id ?_ ?_
  · intro e
    simp only [ReadOp.path]
    apply String.ext
    simp only [String.data_append, List.append_assoc]
    rfl
  intro networkInterfaces
  refine Run.FailsFirst.andThen (Run.FailsFirst.ok_map _ _) ?_
  refine Run.FailsFirst.read _ system.PCIeDevices _ _ _ id ?_ ?_
  · intro e
    simp only [ReadOp.path]
    apply String.ext
    simp only [String.data_append, List.append_assoc]
    rfl
  intro pcieDevices
  refine Run.FailsFirst.andThen
    (Run.FailsFirst.ok _ (SystemCollector.pcieDevicesLoop_calls _ _ _)) ?_
  exact SystemCollector.collectProcessorsAndStorage_failsFirst system

theorem SystemCollector.systemCollect_failsFirst (client : gofish.APIClient) :
    (SystemCollector.Collect client).FailsFirst (SystemCollector.Collect client.succeed) := by
  refine Run.FailsFirst.read _ client.Service.Systems _ _ _
    (List.map gofish.SystemNode.succeed) ?_ ?_
  · intro e
    simp only [ReadOp.path]
    apply String.ext
    simp only [String.data_append, List.append_assoc]
    rfl
  intro systems
  exact Run.FailsFirst.forEach _ _ _ _ SystemCollector.collectSystem_failsFirst

theorem ManagerCollector.collectManager_failsFirst (manager : gofish.ManagerNode) :
    (ManagerCollector.collectManager manager).FailsFirst
      (ManagerCollector.collectManager manager.succeed) := by
  refine Run.FailsFirst.andThen (Run.FailsFirst.ok _ ?_) ?_
  · intro ev hev
    rw [List.mem_singleton.mp hev]
    rfl
  refine Run.FailsFirst.read _ manager.EthernetInterfaces _ _ _ id ?_ ?_
  · intro e
    simp only [ReadOp.path]
    apply String.ext
    simp only [String.data_append, List.append_assoc]
    rfl
  intro ethernetInterfaces
  exact Run.FailsFirst.ok_map _ _

theorem ManagerCollector.managerCollect_failsFirst (client : gofish.APIClient) :
    (ManagerCollector.Collect client).FailsFirst (ManagerCollector.Collect client.succeed) := by
  refine Run.FailsFirst.read _ client.Service.Managers _ _ _
    (List.map gofish.ManagerNode.succeed) ?_ ?_
  · intro e
    simp only [ReadOp.path]
    apply String.ext
    simp only [String.data_append, List.append_assoc]
    rfl
  intro managers
  exact Run.FailsFirst.forEach _ _ _ _ ManagerCollector.collectManager_failsFirst

/-- Claim C8: for each of the three Domain Collectors and every outcome of the reads,
`Collect` either returns no error, and then made the fully successful traversal, or it ends
with its first failed read (no event follows it and none before it is a failed read) and
returns the error `error collecting <path>: <cause>`, where the path is that of the failed
subtree with the ids of its ancestors; the metrics on the channel are then exactly those the
fully successful traversal of the same endpoint sends before that read. -/
theorem collect_stops_at_first_failed_read (macString : String → String)
    (client : gofish.APIClient) :
    Run.StopsAtFirstFailure macString (ChassisCollector.Collect client)
      (ChassisCollector.Collect client.succeed) ∧
    Run.StopsAtFirstFailure macString (SystemCollector.Collect client)
      (SystemCollector.Collect client.succeed) ∧
    Run.StopsAtFirstFailure macString (ManagerCollector.Collect client)
      (ManagerCollector.Collect client.succeed) :=
  ⟨(ChassisCollector.chassisCollect_failsFirst client).stops macString,
   (SystemCollector.systemCollect_failsFirst client).stops macString,
   (ManagerCollector.managerCollect_failsFirst client).stops macString⟩

/-- Witness of claim C8: when the read of the drives of `raid0` fails, the System Collector
returns the error naming `/Systems/system0/Storage/raid0/Drives`, its last event is that
read, and the second system is not visited. -/
theorem collect_stops_at_first_failed_read_witness :
    Run.StopsAtFirstFailure id (SystemCollector.Collect failingDrivesClient)
      (SystemCollector.Collect failingDrivesClient.succeed) ∧
    (SystemCollector.Collect failingDrivesClient).err
      = some "error collecting /Systems/system0/Storage/raid0/Drives: timeout" ∧
    (SystemCollector.Collect failingDrivesClient).events.getLast?
      = some (Event.read (ReadOp.StorageDrives "system0" "raid0") (some "timeout")) ∧
    Event.call (Call.processSystem (systemWithDevices "system1" [pcieDevice0]).self)
      ∉ (SystemCollector.Collect failingDrivesClient).events :=
  ⟨(collect_stops_at_first_failed_read id failingDrivesClient).2.1, by decide, by decide,
    by decide⟩


/-! ### The orchestrator -/

theorem Run.err_ne_none_of_failed_read {a b : Run} (h : a.FailsFirst b) (ev : Event)
    (hev : ev ∈ a.events) (hf : ev.isFailedRead = true) : a.err ≠ none := by
  obtain ⟨_, hbev, hab⟩ := h
  rcases hab with ⟨_, heq⟩ | ⟨pre, op, msg, rest, _, ha, _⟩
  · rw [heq] at hev
    rw [hbev ev hev] at hf
    exact absurd hf (by simp)
  · rw [ha]
    simp

/-- Claim C9: for every collector name and every collector, `execute` writes, after the
metrics of the collector, exactly one duration sample and one success sample, both labelled
collector=name, and the success value is 1 exactly when `Collect` returned no error and 0
otherwise.  So when a read of the drives of a storage subsystem fails in the System
Collector, its success sample is 0, while what `execute` writes for the Chassis and for the
Manager Collector is determined by the chassis and by the manager subtree alone. -/
theorem execute_accounting (name : String) (duration : ℚ) (macString : String → String) :
    (∀ collector : Collector, ∃ d s : Metric,
      execute name collector duration = collector.sent ++ [d, s] ∧
      d.name = "redfish_scrape_duration_seconds" ∧ d.value = duration ∧
      d.labels = [("collector", name)] ∧
      s.name = "redfish_scrape_success" ∧ s.labels = [("collector", name)] ∧
      (s.value = 1 ↔ collector.err = none) ∧ (s.value = 0 ↔ collector.err ≠ none)) ∧
    (∀ (client : gofish.APIClient) (systemID storageID msg : String),
      Event.read (ReadOp.StorageDrives systemID storageID) (some msg)
          ∈ (SystemCollector.Collect client).events →
      (execute "system" ((SystemCollector.Collect client).toCollector macString)
          duration).getLast?
        = some (MustNewConstMetric
            (NewDesc "redfish_scrape_success" "Scrape success; 0: Fail, 1: Success" []
              [("collector", "system")]) 0 [])) ∧
    (∀ client client' : gofish.APIClient,
      (client.Service.Chassis = client'.Service.Chassis →
        execute name ((ChassisCollector.Collect client).toCollector macString) duration
          = execute name ((ChassisCollector.Collect client').toCollector macString) duration) ∧
      (client.Service.Managers = client'.Service.Managers →
        execute name ((ManagerCollector.Collect client).toCollector macString) duration
          = execute name ((ManagerCollector.Collect client').toCollector macString)
              duration)) := by
  refine ⟨?_, ?_, ?_⟩
  · intro collector
    refine ⟨_, _, rfl, ?_, rfl, rfl, ?_, rfl, ?_, ?_⟩
    · simp (disch := decide) only [Metric.name, MustNewConstMetric, NewDesc,
        BuildFQName_redfish]
      rfl
    · simp (disch := decide) only [Metric.name, MustNewConstMetric, NewDesc,
        BuildFQName_redfish]
      rfl
    · cases h : collector.err <;> simp [MustNewConstMetric]
    · cases h : collector.err <;> simp [MustNewConstMetric]
  · intro client systemID storageID msg hev
    have herr := Run.err_ne_none_of_failed_read (SystemCollector.systemCollect_failsFirst client)
      _ hev rfl
    simp (disch := decide) only [execute, Run.toCollector, BuildFQName_redfish]
    simp [herr]
  · intro client client'
    refine ⟨?_, ?_⟩
    · intro h
      simp only [ChassisCollector.Collect, h]
    · intro h
      simp only [ManagerCollector.Collect, h]

/-- Witness of claim C9: on the endpoint whose read of the drives of `raid0` fails, the last
metric that `execute` writes for the System Collector is its success sample, of value 0. -/
theorem execute_accounting_witness :
    (execute "system" ((SystemCollector.Collect failingDrivesClient).toCollector id)
        5).getLast?
      = some (MustNewConstMetric
          (NewDesc "redfish_scrape_success" "Scrape success; 0: Fail, 1: Success" []
            [("collector", "system")]) 0 []) :=
  (execute_accounting "system" 5 id).2.1 failingDrivesClient "system0" "raid0" "timeout"
    (by decide)

/-- Claim C10: when connecting the session fails, `RedfishCollector.Collect` does one thing
only: it sends the availability sample `redfish_up` with value 0.  No goroutine of a Domain
Collector is started (no chassis, system or manager sample, no duration or success sample,
no `wg.Done()`), and there is no logout. -/
theorem connect_failure_sends_only_up_zero (err : String) (macString : String → String)
    (durations : String → ℚ) (schedule : List (Fin 3)) :
    RedfishCollector.Collect (Except.error err) macString durations schedule
      = [ScrapeEvent.send (MustNewConstMetric
          (NewDesc "redfish_up" "Redfish service status; 0: Down, 1: Up" [] []) 0 [])] ∧
    channel (RedfishCollector.Collect (Except.error err) macString durations schedule)
      = [MustNewConstMetric
          (NewDesc "redfish_up" "Redfish service status; 0: Down, 1: Up" [] []) 0 []] := by
  have hup : upDesc = NewDesc "redfish_up" "Redfish service status; 0: Down, 1: Up" [] [] := by
    decide
  simp only [RedfishCollector.Collect, hup, channel, and_self]

/-! ### Names of the samples -/

theorem Call.forall_metric_name (q : String → Bool) (macString : String → String) (c : Call)
    (hm : ∀ p ∈ c.measurements, q p.1 = true)
    (hc : ∀ f ∈ c.categoricalFields, q f.metric = true) :
    ∀ m ∈ c.metrics macString, q m.name = true := by
  intro m hm'
  have hnv : nameValue m ∈ (c.metrics macString).map nameValue := List.mem_map_of_mem _ hm'
  rw [c.map_nameValue_metrics, List.mem_append] at hnv
  rcases hnv with hnv | hnv
  · exact hm _ hnv
  · obtain ⟨f, hf, hpf⟩ := List.mem_flatMap.mp hnv
    unfold CategoricalField.samples ordinalSample at hpf
    split_ifs at hpf with hx
    · simp at hpf
    · simp only [List.mem_singleton, nameValue, Prod.mk.injEq] at hpf
      rw [hpf.1]
      exact hc f hf

theorem forall_mem_name_cons (q : String → Bool) (n : String) (v : ℚ)
    (l : List (String × ℚ)) :
    (∀ p ∈ (n, v) :: l, q p.1 = true) ↔ q n = true ∧ ∀ p ∈ l, q p.1 = true := by
  simp

theorem forall_mem_name_ite (q : String → Bool) (c : Prop) [Decidable c]
    (l1 l2 : List (String × ℚ)) :
    (∀ p ∈ (if c then l1 else l2), q p.1 = true)
      ↔ (c → ∀ p ∈ l1, q p.1 = true) ∧ (¬ c → ∀ p ∈ l2, q p.1 = true) := by
  split_ifs with h <;> simp [h]

theorem Call.measurement_names (c : Call) :
    ∀ p ∈ c.measurements, c.nameCheck p.1 = true := by
  cases c <;>
    simp only [Call.measurements, List.forall_mem_append, forall_mem_name_cons,
      forall_mem_name_ite, List.not_mem_nil, false_imp_iff, implies_true, and_true,
      Call.nameCheck, Call.domain, String.reduceAppend] <;>
    first
    | decide
    | (constructor <;> intros <;> decide)
    | (refine ⟨by decide, ?_, ?_⟩ <;> intros <;> decide)

theorem Call.categorical_names (c : Call) :
    ∀ f ∈ c.categoricalFields, c.nameCheck f.metric = true := by
  cases c <;>
    simp only [Call.categoricalFields, List.forall_mem_cons, List.not_mem_nil, false_imp_iff,
      implies_true, and_true, Call.nameCheck, Call.domain, String.reduceAppend] <;>
    decide

theorem Call.metric_names (macString : String → String) (c : Call) :
    ∀ m ∈ c.metrics macString, c.nameCheck m.name = true :=
  Call.forall_metric_name c.nameCheck macString c c.measurement_names c.categorical_names

theorem Call.nameCheck_isDomainName (c : Call) (n : String) (h : c.nameCheck n = true) :
    isDomainName n = true := by
  cases c <;> simp only [Call.nameCheck, Call.domain, String.reduceAppend] at h <;>
    simp only [isDomainName, managerEthernetName, Bool.or_eq_true, beq_iff_eq] at h ⊢ <;>
    first
    | exact Or.inl (Or.inl h)
    | exact Or.inl (Or.inr h)
    | exact Or.inr h
    | (rcases h with (h | h) | h
       · exact Or.inr h
       · subst h; decide
       · subst h; decide)

theorem Run.sink_isDomainName (macString : String → String) (r : Run) :
    ∀ m ∈ r.sink macString, isDomainName m.name = true := by
  intro m hm
  obtain ⟨ev, _, hev⟩ := List.mem_flatMap.mp hm
  cases ev with
  | read op err => simp [Event.metrics] at hev
  | call c => exact c.nameCheck_isDomainName _ (c.metric_names macString m hev)


/-! ### A completed scrape -/

theorem interleave_perm {α : Type} (schedule : List (Fin 3)) :
    ∀ a b c : List α, (interleave schedule a b c).Perm (a ++ b ++ c) := by
  induction schedule with
  | nil => intro a b c; simp [interleave]
  | cons i rest ih =>
    intro a b c
    match i, a, b, c with
    | 0, [], b, c => simpa [interleave] using ih [] b c
    | 0, x :: a, b, c =>
      simp only [interleave, List.cons_append]
      exact (ih a b c).cons x
    | 1, a, [], c => simpa [interleave] using ih a [] c
    | 1, a, y :: b, c =>
      simp only [interleave]
      refine ((ih a b c).cons y).trans ?_
      simp only [List.append_assoc]
      exact (@List.perm_middle α y a (b ++ c)).symm
    | 2, a, b, [] => simpa [interleave] using ih a b []
    | 2, a, b, z :: c =>
      simp only [interleave]
      refine ((ih a b c).cons z).trans ?_
      exact (@List.perm_middle α z (a ++ b) c).symm

theorem interleave_sublist {α : Type} (schedule : List (Fin 3)) :
    ∀ a b c : List α, a.Sublist (interleave schedule a b c)
      ∧ b.Sublist (interleave schedule a b c) ∧ c.Sublist (interleave schedule a b c) := by
  induction schedule with
  | nil =>
    intro a b c
    simp only [interleave]
    exact ⟨(List.sublist_append_left a b).trans (List.sublist_append_left _ c),
      (List.sublist_append_right a b).trans (List.sublist_append_left _ c),
      List.sublist_append_right _ c⟩
  | cons i rest ih =>
    intro a b c
    match i, a, b, c with
    | 0, [], b, c => simpa [interleave] using ih [] b c
    | 0, x :: a, b, c =>
      simp only [interleave]
      obtain ⟨h1, h2, h3⟩ := ih a b c
      exact ⟨h1.cons₂ x, h2.cons x, h3.cons x⟩
    | 1, a, [], c => simpa [interleave] using ih a [] c
    | 1, a, y :: b, c =>
      simp only [interleave]
      obtain ⟨h1, h2, h3⟩ := ih a b c
      exact ⟨h1.cons y, h2.cons₂ y, h3.cons y⟩
    | 2, a, b, [] => simpa [interleave] using ih a b []
    | 2, a, b, z :: c =>
      simp only [interleave]
      obtain ⟨h1, h2, h3⟩ := ih a b c
      exact ⟨h1.cons z, h2.cons z, h3.cons₂ z⟩

theorem channel_append (l1 l2 : List ScrapeEvent) :
    channel (l1 ++ l2) = channel l1 ++ channel l2 := by
  induction l1 with
  | nil => rfl
  | cons ev rest ih => cases ev <;> simp [channel, ih]

theorem channel_map_send (l : List Metric) : channel (l.map ScrapeEvent.send) = l := by
  induction l with
  | nil => rfl
  | cons m rest ih => simp [channel, ih]

theorem channel_goroutine (name : String) (collector : Collector) (duration : ℚ) :
    channel (goroutine name collector duration) = execute name collector duration := by
  simp [goroutine, channel_append, channel_map_send, channel]

theorem channel_perm {l1 l2 : List ScrapeEvent} (h : l1.Perm l2) :
    (channel l1).Perm (channel l2) := by
  induction h with
  | nil => exact List.Perm.refl _
  | cons ev _ ih => cases ev <;> simp [channel, ih]
  | swap ev1 ev2 l =>
    cases ev1 <;> cases ev2 <;> simp [channel, List.Perm.swap]
  | trans _ _ ih1 ih2 => exact ih1.trans ih2

theorem channel_sublist {l1 l2 : List ScrapeEvent} (h : l1.Sublist l2) :
    (channel l1).Sublist (channel l2) := by
  induction h with
  | slnil => exact List.Sublist.refl _
  | cons ev _ ih => cases ev <;> simp [channel] <;> first | exact ih.cons _ | exact ih
  | cons₂ ev _ ih => cases ev <;> simp [channel] <;> first | exact ih.cons₂ _ | exact ih

theorem channel_collect_ok (client : gofish.APIClient) (macString : String → String)
    (durations : String → ℚ) (schedule : List (Fin 3)) :
    ∃ merged : List Metric,
      channel (RedfishCollector.Collect (Except.ok client) macString durations schedule)
        = merged ++ [upSample 1] ∧
      merged.Perm
        (execute "chassis" ((ChassisCollector.Collect client).toCollector macString)
            (durations "chassis")
          ++ execute "system" ((SystemCollector.Collect client).toCollector macString)
            (durations "system")
          ++ execute "manager" ((ManagerCollector.Collect client).toCollector macString)
            (durations "manager")) ∧
      (execute "chassis" ((ChassisCollector.Collect client).toCollector macString)
        (durations "chassis")).Sublist merged ∧
      (execute "system" ((SystemCollector.Collect client).toCollector macString)
        (durations "system")).Sublist merged ∧
      (execute "manager" ((ManagerCollector.Collect client).toCollector macString)
        (durations "manager")).Sublist merged := by
  refine ⟨channel (interleave schedule
        (goroutine "chassis" ((ChassisCollector.Collect client).toCollector macString)
          (durations "chassis"))
        (goroutine "system" ((SystemCollector.Collect client).toCollector macString)
          (durations "system"))
        (goroutine "manager" ((ManagerCollector.Collect client).toCollector macString)
          (durations "manager"))), ?_, ?_, ?_, ?_, ?_⟩
  · have hup : upDesc = NewDesc "redfish_up" "Redfish service status; 0: Down, 1: Up" [] [] := by
      decide
    simp only [RedfishCollector.Collect, channel_append, channel, hup, upSample,
      List.append_nil]
  · have h := channel_perm (interleave_perm schedule
        (goroutine "chassis" ((ChassisCollector.Collect client).toCollector macString)
          (durations "chassis"))
        (goroutine "system" ((SystemCollector.Collect client).toCollector macString)
          (durations "system"))
        (goroutine "manager" ((ManagerCollector.Collect client).toCollector macString)
          (durations "manager")))
    simpa only [channel_append, channel_goroutine] using h
  · have h := channel_sublist (interleave_sublist schedule
        (goroutine "chassis" ((ChassisCollector.Collect client).toCollector macString)
          (durations "chassis"))
        (goroutine "system" ((SystemCollector.Collect client).toCollector macString)
          (durations "system"))
        (goroutine "manager" ((ManagerCollector.Collect client).toCollector macString)
          (durations "manager"))).1
    simpa only [channel_goroutine] using h
  · have h := channel_sublist (interleave_sublist schedule
        (goroutine "chassis" ((ChassisCollector.Collect client).toCollector macString)
          (durations "chassis"))
        (goroutine "system" ((SystemCollector.Collect client).toCollector macString)
          (durations "system"))
        (goroutine "manager" ((ManagerCollector.Collect client).toCollector macString)
          (durations "manager"))).2.1
    simpa only [channel_goroutine] using h
  · have h := channel_sublist (interleave_sublist schedule
        (goroutine "chassis" ((ChassisCollector.Collect client).toCollector macString)
          (durations "chassis"))
        (goroutine "system" ((SystemCollector.Collect client).toCollector macString)
          (durations "system"))
        (goroutine "manager" ((ManagerCollector.Collect client).toCollector macString)
          (durations "manager"))).2.2
    simpa only [channel_goroutine] using h


theorem execute_eq (name : String) (collector : Collector) (duration : ℚ) :
    execute name collector duration
      = collector.sent ++ [durationSample name duration,
          successSample name (if collector.err ≠ none then 0 else 1)] := by
  simp (disch := decide) only [execute, BuildFQName_redfish, String.reduceAppend,
    durationSample, successSample]

theorem Run.sink_filter_eq_nil (macString : String → String) (r : Run) (p : Metric → Bool)
    (hp : ∀ m, p m = true → isDomainName m.name = false) :
    (r.sink macString).filter p = [] := by
  apply List.filter_eq_nil_iff.mpr
  intro m hm hpm
  have h1 := Run.sink_isDomainName macString r m hm
  rw [hp m hpm] at h1
  exact absurd h1 (by simp)

theorem execute_filter_not_domain (macString : String → String) (r : Run) (name : String)
    (duration : ℚ) (p : Metric → Bool)
    (hp : ∀ m, p m = true → isDomainName m.name = false) :
    (execute name (r.toCollector macString) duration).filter p
      = [durationSample name duration,
          successSample name (if r.err ≠ none then 0 else 1)].filter p := by
  rw [execute_eq, List.filter_append]
  simp only [Run.toCollector]
  rw [Run.sink_filter_eq_nil macString r p hp, List.nil_append]

theorem accounting_filter_not_domain (n kind : String) (hk : isDomainName kind = false)
    (m : Metric) (h : decide (m.name = kind ∧ ("collector", n) ∈ m.labels) = true) :
    isDomainName m.name = false := by
  simp only [decide_eq_true_eq] at h
  rw [h.1]
  exact hk

theorem up_filter_not_domain (m : Metric) (h : decide (m.name = "redfish_up") = true) :
    isDomainName m.name = false := by
  simp only [decide_eq_true_eq] at h
  rw [h]
  decide

/-- Claim C11: when connecting the session succeeds then, whichever collectors fail and
however the three goroutines interleave, the channel holds exactly one availability sample,
of value 1, and for each of the names chassis, system and manager exactly one duration
sample and exactly one success sample (0 when that collector returned an error, else 1);
everything a collector and its accounting sent is on the channel, in its order, whatever
the other collectors did. -/
theorem scrape_completed_accounting (client : gofish.APIClient) (macString : String → String)
    (durations : String → ℚ) (schedule : List (Fin 3)) :
    (channel (RedfishCollector.Collect (Except.ok client) macString durations schedule)).filter
        (fun m => decide (m.name = "redfish_up")) = [upSample 1] ∧
    HasAccounting
      (channel (RedfishCollector.Collect (Except.ok client) macString durations schedule))
      "chassis" (durations "chassis")
      (if (ChassisCollector.Collect client).err ≠ none then 0 else 1) ∧
    HasAccounting
      (channel (RedfishCollector.Collect (Except.ok client) macString durations schedule))
      "system" (durations "system")
      (if (SystemCollector.Collect client).err ≠ none then 0 else 1) ∧
    HasAccounting
      (channel (RedfishCollector.Collect (Except.ok client) macString durations schedule))
      "manager" (durations "manager")
      (if (ManagerCollector.Collect client).err ≠ none then 0 else 1) ∧
    (execute "chassis" ((ChassisCollector.Collect client).toCollector macString)
        (durations "chassis")).Sublist
      (channel (RedfishCollector.Collect (Except.ok client) macString durations schedule)) ∧
    (execute "system" ((SystemCollector.Collect client).toCollector macString)
        (durations "system")).Sublist
      (channel (RedfishCollector.Collect (Except.ok client) macString durations schedule)) ∧
    (execute "manager" ((ManagerCollector.Collect client).toCollector macString)
        (durations "manager")).Sublist
      (channel (RedfishCollector.Collect (Except.ok client) macString durations schedule)) := by
  obtain ⟨merged, hout, hperm, hs1, hs2, hs3⟩ :=
    channel_collect_ok client macString durations schedule
  rw [hout]
  have key : ∀ p : Metric → Bool, (∀ m, p m = true → isDomainName m.name = false) →
      ((merged ++ [upSample 1]).filter p).Perm
      (([durationSample "chassis" (durations "chassis"),
          successSample "chassis" (if (ChassisCollector.Collect client).err ≠ none then 0 else 1),
          durationSample "system" (durations "system"),
          successSample "system" (if (SystemCollector.Collect client).err ≠ none then 0 else 1),
          durationSample "manager" (durations "manager"),
          successSample "manager" (if (ManagerCollector.Collect client).err ≠ none then 0 else 1),
          upSample 1]).filter p) := by
    intro p hp
    rw [List.filter_append]
    refine ((hperm.filter _).append_right _).trans ?_
    rw [List.filter_append, List.filter_append, execute_filter_not_domain _ _ _ _ p hp,
      execute_filter_not_domain _ _ _ _ p hp, execute_filter_not_domain _ _ _ _ p hp,
      ← List.filter_append, ← List.filter_append, ← List.filter_append]
    simp
  have hd : isDomainName "redfish_scrape_duration_seconds" = false := by decide
  have hs : isDomainName "redfish_scrape_success" = false := by decide
  refine ⟨?_, ⟨?_, ?_⟩, ⟨?_, ?_⟩, ⟨?_, ?_⟩, hs1.trans (List.sublist_append_left _ _),
    hs2.trans (List.sublist_append_left _ _), hs3.trans (List.sublist_append_left _ _)⟩
  · have h := key _ up_filter_not_domain
    simp [durationSample, successSample, upSample, Metric.name, MustNewConstMetric, NewDesc]
      at h
    simpa [upSample, Metric.name, MustNewConstMetric, NewDesc] using h
  · have h := key _ (accounting_filter_not_domain "chassis" _ hd)
    simpa [durationSample, successSample, upSample, Metric.name, Metric.labels,
      MustNewConstMetric, NewDesc] using h
  · have h := key _ (accounting_filter_not_domain "chassis" _ hs)
    simpa [durationSample, successSample, upSample, Metric.name, Metric.labels,
      MustNewConstMetric, NewDesc] using h
  · have h := key _ (accounting_filter_not_domain "system" _ hd)
    simpa [durationSample, successSample, upSample, Metric.name, Metric.labels,
      MustNewConstMetric, NewDesc] using h
  · have h := key _ (accounting_filter_not_domain "system" _ hs)
    simpa [durationSample, successSample, upSample, Metric.name, Metric.labels,
      MustNewConstMetric, NewDesc] using h
  · have h := key _ (accounting_filter_not_domain "manager" _ hd)
    simpa [durationSample, successSample, upSample, Metric.name, Metric.labels,
      MustNewConstMetric, NewDesc] using h
  · have h := key _ (accounting_filter_not_domain "manager" _ hs)
    simpa [durationSample, successSample, upSample, Metric.name, Metric.labels,
      MustNewConstMetric, NewDesc] using h


/-- Witness of claim C11: on the endpoint whose read of the drives fails, with the three
goroutines interleaved, the channel holds one availability sample of value 1 and the
accounting of the system collector with success 0. -/
theorem scrape_completed_accounting_witness :
    (channel (RedfishCollector.Collect (Except.ok failingDrivesClient) id (fun _ => 5)
        [1, 0, 2, 1, 1, 0])).filter (fun m => decide (m.name = "redfish_up")) = [upSample 1] ∧
    HasAccounting
      (channel (RedfishCollector.Collect (Except.ok failingDrivesClient) id (fun _ => 5)
        [1, 0, 2, 1, 1, 0]))
      "system" 5 0 :=
  ⟨(scrape_completed_accounting failingDrivesClient id (fun _ => 5) [1, 0, 2, 1, 1, 0]).1,
   (scrape_completed_accounting failingDrivesClient id (fun _ => 5) [1, 0, 2, 1, 1, 0]).2.2.1⟩

/-! ### Labels of the samples -/

theorem AllDescs.nil (P : Desc → Prop) : AllDescs P [] := by
  intro m hm
  simp at hm

theorem AllDescs.append {P : Desc → Prop} {l1 l2 : List Metric} (h1 : AllDescs P l1)
    (h2 : AllDescs P l2) : AllDescs P (l1 ++ l2) := by
  intro m hm
  rcases List.mem_append.mp hm with h | h
  · exact h1 m h
  · exact h2 m h

theorem AllDescs.cons {P : Desc → Prop} {d : Desc} {v : ℚ} {lv : List String}
    {l : List Metric} (h1 : P d) (h2 : AllDescs P l) :
    AllDescs P (MustNewConstMetric d v lv :: l) := by
  intro m hm
  rcases List.mem_cons.mp hm with h | h
  · rw [h]; exact h1
  · exact h2 m h

theorem AllDescs.sendOrdinal {P : Desc → Prop} {d : Desc} {e : ℚ} {lv : List String}
    (h : P d) : AllDescs P (sendOrdinal d e lv) := by
  unfold collector.sendOrdinal
  split_ifs
  · exact AllDescs.cons h (AllDescs.nil P)
  · exact AllDescs.nil P

theorem AllDescs.ite {P : Desc → Prop} {c : Prop} [Decidable c] {l1 l2 : List Metric}
    (h1 : AllDescs P l1) (h2 : AllDescs P l2) : AllDescs P (if c then l1 else l2) := by
  split_ifs
  · exact h1
  · exact h2

theorem Call.identity_labels (macString : String → String) (c : Call) :
    AllDescs (fun d => ("id", c.resourceID) ∈ d.constLabels
        ∧ ("name", c.resourceName) ∈ d.constLabels
        ∧ (c.domain ++ "_id", c.rootID) ∈ d.constLabels)
      (c.metrics macString) := by
  cases c <;>
    simp only [Call.metrics, ChassisCollector.processChassis, ChassisCollector.processThermal,
      ChassisCollector.processFan, ChassisCollector.processTemperature,
      ChassisCollector.processPowerControl, ChassisCollector.processPowerSupply,
      ChassisCollector.processVoltage, ChassisCollector.processNetworkAdapter,
      ChassisCollector.processNetworkPort, SystemCollector.processSystem,
      SystemCollector.processEthernetInterface, SystemCollector.processMemory,
      SystemCollector.processNetworkInterface, SystemCollector.processPCIeDevice,
      SystemCollector.processProcessor, SystemCollector.processStorage,
      SystemCollector.processStorageController, SystemCollector.processDrive,
      ManagerCollector.processManager, ManagerCollector.processEthernetInterface,
      Call.resourceID, Call.resourceName, Call.rootID, Call.domain, String.reduceAppend] <;>
    repeat' first
      | apply AllDescs.append
      | apply AllDescs.cons
      | apply AllDescs.sendOrdinal
      | apply AllDescs.ite
      | apply AllDescs.nil
  all_goals simp [NewDesc]


theorem mem_labels_of_const (m : Metric) (l : String × String)
    (h : l ∈ m.desc.constLabels) : l ∈ m.labels := by
  unfold Metric.labels
  exact List.mem_append_left _ h

/-- Claim C12: for every fan, `processFan` sends for reading units RPM one fan-speed-RPM
sample whose value is the reading and no ratio sample, for units Percent one fan-speed-ratio
sample whose value is the reading divided by 100 and no RPM sample, and for any other units
neither; for health OK it sends a fan-health sample of value 0; and every sample it sends is
labelled chassis_id = id of the chassis, id = member id of the fan, name = name of the
fan. -/
theorem processFan_speed_health_labels (fan : redfish.Fan) (chassisID : String) :
    (fan.ReadingUnits = redfish.RPMReadingUnits →
      ((ChassisCollector.processFan fan chassisID).map nameValue).filter
          (fun p => decide (p.1 = "redfish_chassis_fan_speed_rpm"))
        = [("redfish_chassis_fan_speed_rpm", fan.Reading)] ∧
      ((ChassisCollector.processFan fan chassisID).map nameValue).filter
          (fun p => decide (p.1 = "redfish_chassis_fan_speed_ratio")) = []) ∧
    (fan.ReadingUnits = redfish.PercentReadingUnits →
      ((ChassisCollector.processFan fan chassisID).map nameValue).filter
          (fun p => decide (p.1 = "redfish_chassis_fan_speed_ratio"))
        = [("redfish_chassis_fan_speed_ratio", fan.Reading / 100)] ∧
      ((ChassisCollector.processFan fan chassisID).map nameValue).filter
          (fun p => decide (p.1 = "redfish_chassis_fan_speed_rpm")) = []) ∧
    (¬ (fan.ReadingUnits = redfish.RPMReadingUnits
          ∨ fan.ReadingUnits = redfish.PercentReadingUnits) →
      ((ChassisCollector.processFan fan chassisID).map nameValue).filter
          (fun p => decide (p.1 = "redfish_chassis_fan_speed_rpm")) = [] ∧
      ((ChassisCollector.processFan fan chassisID).map nameValue).filter
          (fun p => decide (p.1 = "redfish_chassis_fan_speed_ratio")) = []) ∧
    (fan.Status.Health = common.OKHealth →
      ((ChassisCollector.processFan fan chassisID).map nameValue).filter
          (fun p => decide (p.1 = "redfish_chassis_fan_health"))
        = [("redfish_chassis_fan_health", 0)]) ∧
    (∀ m ∈ ChassisCollector.processFan fan chassisID,
      ("chassis_id", chassisID) ∈ m.labels ∧ ("id", fan.MemberID) ∈ m.labels
        ∧ ("name", fan.Name) ∈ m.labels) := by
  have hnv := Call.map_nameValue_metrics id (Call.processFan fan chassisID)
  simp only [Call.metrics] at hnv
  rw [hnv]
  simp (disch := decide) only [Call.measurements, Call.categoricalFields,
      CategoricalField.samples, List.flatMap_cons, List.flatMap_nil, List.filter_append,
      ordinalSample_filter_ne, pair_filter_ne, pair_filter_eq, List.filter_nil, List.append_nil,
      redfish.RPMReadingUnits, redfish.PercentReadingUnits, common.OKHealth]
  refine ⟨?_, ?_, ?_, ?_, ?_⟩
  · intro h
    simp [h]
  · intro h
    simp [h]
  · intro h
    simp only [not_or] at h
    simp [h.1, h.2]
  · intro h
    split_ifs <;> simp [h, ordinalSample, enumHealth, common.OKHealth]
  · intro m hm
    have h := Call.identity_labels id (Call.processFan fan chassisID) m hm
    simp only [Call.resourceID, Call.resourceName, Call.rootID, Call.domain,
      String.reduceAppend] at h
    exact ⟨mem_labels_of_const m _ h.2.2, mem_labels_of_const m _ h.1,
      mem_labels_of_const m _ h.2.1⟩

/-- Witness of claim C12: a fan at 3000 RPM with health OK gives one speed sample of value
3000 and one health sample of value 0. -/
theorem processFan_speed_health_labels_witness :
    ((ChassisCollector.processFan fan3000 "chassis0").map nameValue).filter
        (fun p => decide (p.1 = "redfish_chassis_fan_speed_rpm"))
      = [("redfish_chassis_fan_speed_rpm", 3000)] ∧
    ((ChassisCollector.processFan fan3000 "chassis0").map nameValue).filter
        (fun p => decide (p.1 = "redfish_chassis_fan_health"))
      = [("redfish_chassis_fan_health", 0)] :=
  ⟨((processFan_speed_health_labels fan3000 "chassis0").1 rfl).1,
   (processFan_speed_health_labels fan3000 "chassis0").2.2.2.1 rfl⟩

/-! ### Unit conversions -/

/-- Claim C13: for every memory module the capacity sample has the value CapacityMiB * 1024 *
1024 (16384 MiB gives 17,179,869,184), and the other sizes given in MiB, the cache, volatile
and non-volatile sizes of a memory module and the persistent and total cache sizes of a
storage controller, are sent as the MiB figure times 1,048,576. -/
theorem mebibyte_sizes_in_bytes (memory : redfish.Memory)
    (controller : redfish.StorageController) (systemID storageID : String) :
    ((SystemCollector.processMemory memory systemID).filter
        (fun m => !isCategoricalName m.name)).map nameValue
      = [("redfish_system_memory_cache_size_bytes", memory.CacheSizeMiB * 1048576),
         ("redfish_system_memory_capacity_bytes", memory.CapacityMiB * 1024 * 1024),
         ("redfish_system_memory_non_volatile_size_desc", memory.NonVolatileSizeMiB * 1048576),
         ("redfish_system_memory_operating_speed_hertz", memory.OperatingSpeedMhz * 1000000),
         ("redfish_system_memory_volatile_size_desc", memory.VolatileSizeMiB * 1048576)] ∧
    ((SystemCollector.processStorageController controller systemID storageID).filter
        (fun m => !isCategoricalName m.name)).map nameValue
      = [("redfish_system_storage_controller_speed_bytes",
            controller.SpeedGbps * 1000000000 / 8),
         ("redfish_system_storage_controller_cache_size_persistent_bytes",
            controller.CacheSummary.PersistentCacheSizeMiB * 1048576),
         ("redfish_system_storage_controller_cache_size_bytes",
            controller.CacheSummary.TotalCacheSizeMiB * 1048576)] ∧
    ((SystemCollector.processMemory memory16GiB systemID).map nameValue).filter
        (fun p => decide (p.1 = "redfish_system_memory_capacity_bytes"))
      = [("redfish_system_memory_capacity_bytes", 17179869184)] := by
  have h1 := Call.measurement_metrics id (Call.processMemory memory systemID)
  have h2 := Call.measurement_metrics id
    (Call.processStorageController controller systemID storageID)
  have h3 := Call.map_nameValue_metrics id (Call.processMemory memory16GiB systemID)
  simp only [Call.metrics] at h1 h2 h3
  rw [h1, h2, h3]
  refine ⟨?_, ?_, ?_⟩
  · simp only [Call.measurements, mul_assoc]
    norm_num
  · simp only [Call.measurements]
  · simp (disch := decide) only [Call.measurements, Call.categoricalFields,
      CategoricalField.samples, List.flatMap_cons, List.flatMap_nil, List.filter_append,
      ordinalSample_filter_ne, pair_filter_ne, pair_filter_eq, List.filter_nil, List.append_nil]
    norm_num [memory16GiB]

/-- Claim C14, evaluation: the processor maximum speed and the memory operating speed are
the MHz figure times 1,000,000; the storage-controller speed and the capable and negotiated
drive speeds are the Gbps figure times 1,000,000,000 divided by 8; the speed of a chassis
network port is the Mbps figure times 1,000,000 divided by 8.  But the speed of an ethernet
interface, of a system or of a manager, is the Mbps figure times 1,048,576 divided by 8: a
rate computed with the binary multiplier. -/
theorem rates_decimal_but_ethernet (processor : redfish.Processor) (memory : redfish.Memory)
    (controller : redfish.StorageController) (drive : redfish.Drive)
    (port : redfish.NetworkPort) (intf : redfish.EthernetInterface)
    (macString : String → String) (id storageID : String) :
    ("redfish_system_processor_speed_max_hertz", processor.MaxSpeedMHz * 1000000)
      ∈ (SystemCollector.processProcessor processor id).map nameValue ∧
    ("redfish_system_memory_operating_speed_hertz", memory.OperatingSpeedMhz * 1000000)
      ∈ (SystemCollector.processMemory memory id).map nameValue ∧
    ("redfish_system_storage_controller_speed_bytes", controller.SpeedGbps * 1000000000 / 8)
      ∈ (SystemCollector.processStorageController controller id storageID).map nameValue ∧
    ("redfish_system_drive_speed_capable_bytes", drive.CapableSpeedGbs * 1000000000 / 8)
      ∈ (SystemCollector.processDrive drive id).map nameValue ∧
    ("redfish_system_drive_speed_negotiated_bytes", drive.NegotiatedSpeedGbs * 1000000000 / 8)
      ∈ (SystemCollector.processDrive drive id).map nameValue ∧
    ("redfish_chassis_network_port_speed_bytes", port.CurrentLinkSpeedMbps * 1000000 / 8)
      ∈ (ChassisCollector.processNetworkPort port id).map nameValue ∧
    ((SystemCollector.processEthernetInterface macString intf id).map nameValue).filter
        (fun p => decide (p.1 = "redfish_system_ethernet_interface_speed_bytes"))
      = [("redfish_system_ethernet_interface_speed_bytes", intf.SpeedMbps * 1024 * 1024 / 8)] ∧
    ((ManagerCollector.processEthernetInterface macString intf id).map nameValue).filter
        (fun p => decide (p.1 = "redfish_manager_ethernet_interface_speed_bytes"))
      = [("redfish_manager_ethernet_interface_speed_bytes",
          intf.SpeedMbps * 1024 * 1024 / 8)] := by
  have h1 := Call.map_nameValue_metrics macString (Call.processProcessor processor id)
  have h2 := Call.map_nameValue_metrics macString (Call.processMemory memory id)
  have h3 := Call.map_nameValue_metrics macString
    (Call.processStorageController controller id storageID)
  have h4 := Call.map_nameValue_metrics macString (Call.processDrive drive id)
  have h5 := Call.map_nameValue_metrics macString (Call.processNetworkPort port id)
  have h6 := Call.map_nameValue_metrics macString (Call.processSystemEthernetInterface intf id)
  have h7 := Call.map_nameValue_metrics macString (Call.processManagerEthernetInterface intf id)
  simp only [Call.metrics] at h1 h2 h3 h4 h5 h6 h7
  rw [h1, h2, h3, h4, h5, h6, h7]
  refine ⟨?_, ?_, ?_, ?_, ?_, ?_, ?_, ?_⟩
  · simp [Call.measurements]
  · simp [Call.measurements]
  · simp [Call.measurements]
  · simp [Call.measurements]
  · simp [Call.measurements]
  · simp [Call.measurements]
  · simp (disch := decide) only [Call.measurements, Call.categoricalFields,
      CategoricalField.samples, List.flatMap_cons, List.flatMap_nil, List.filter_append,
      ordinalSample_filter_ne, pair_filter_ne, pair_filter_eq, List.filter_nil, List.append_nil]
    norm_num [mul_assoc]
  · simp (disch := decide) only [Call.measurements, Call.categoricalFields,
      CategoricalField.samples, List.flatMap_cons, List.flatMap_nil, List.filter_append,
      ordinalSample_filter_ne, pair_filter_ne, pair_filter_eq, List.filter_nil, List.append_nil]
    norm_num [mul_assoc]

/-! ### Names and label keys across collectors -/

theorem Call.label_keys_of_name (macString : String → String) (c : Call) :
    AllDescs (fun d => d.constLabels.map Prod.fst ++ d.variableLabels = labelKeysOf d.fqName
        ∨ d.fqName ∈ ["redfish_system_ethernet_interface_health",
            "redfish_system_ethernet_interface_state"]) (c.metrics macString) := by
  cases c <;>
    simp only [Call.metrics, ChassisCollector.processChassis, ChassisCollector.processThermal,
      ChassisCollector.processFan, ChassisCollector.processTemperature,
      ChassisCollector.processPowerControl, ChassisCollector.processPowerSupply,
      ChassisCollector.processVoltage, ChassisCollector.processNetworkAdapter,
      ChassisCollector.processNetworkPort, SystemCollector.processSystem,
      SystemCollector.processEthernetInterface, SystemCollector.processMemory,
      SystemCollector.processNetworkInterface, SystemCollector.processPCIeDevice,
      SystemCollector.processProcessor, SystemCollector.processStorage,
      SystemCollector.processStorageController, SystemCollector.processDrive,
      ManagerCollector.processManager, ManagerCollector.processEthernetInterface] <;>
    repeat' first
      | apply AllDescs.append
      | apply AllDescs.cons
      | apply AllDescs.sendOrdinal
      | apply AllDescs.ite
      | apply AllDescs.nil
  all_goals
    simp (disch := decide) only [NewDesc, BuildFQName_redfish, String.reduceAppend,
      List.map_cons, List.map_nil]
    decide

/-- Claim C15, evaluation at the failing input: in one scrape of an endpoint with a system and
a manager that both have an ethernet interface with health OK, the channel holds two samples
named `redfish_system_ethernet_interface_health`; the label keys of the first, sent by the
System Collector, hold `system_id`, those of the second, sent by the Manager Collector, hold
`manager_id` instead.  The names `redfish_system_ethernet_interface_health` and
`redfish_system_ethernet_interface_state` apart, two samples of any two calls that have the
same name have the same label keys. -/
theorem ethernet_health_label_keys_differ (macString : String → String) :
    ((channel (RedfishCollector.Collect (Except.ok sampleClient) id (fun _ => 0) [])).filter
        (fun m => decide (m.name = "redfish_system_ethernet_interface_health"))).map
        Metric.labelKeys
      = [["id", "name", "system_id", "interface_type", "address"],
         ["id", "name", "manager_id", "interface_type", "address"]] ∧
    (∀ c₁ c₂ : Call, ∀ m₁ ∈ c₁.metrics macString, ∀ m₂ ∈ c₂.metrics macString,
      m₁.name = m₂.name →
        m₁.labelKeys = m₂.labelKeys
          ∨ m₁.name ∈ ["redfish_system_ethernet_interface_health",
              "redfish_system_ethernet_interface_state"]) := by
  refine ⟨by decide, ?_⟩
  intro c₁ c₂ m₁ h₁ m₂ h₂ hn
  rcases Call.label_keys_of_name macString c₁ m₁ h₁ with k₁ | e₁
  · rcases Call.label_keys_of_name macString c₂ m₂ h₂ with k₂ | e₂
    · left
      have hn2 : m₁.desc.fqName = m₂.desc.fqName := hn
      unfold Metric.labelKeys
      rw [k₁, k₂, hn2]
    · right
      rw [hn]
      exact e₂
  · right
    exact e₁

/-- Claim C16, evaluation at the failing input: the Manager Collector sends, for a manager
with an ethernet interface whose health and state are known, two samples whose names start
with `redfish_system_`, not with `redfish_manager_`.  All other names follow the convention:
the name of every sample of every call starts with the namespace and the domain of its
collector, these two apart. -/
theorem manager_ethernet_names_in_system_domain (macString : String → String) :
    (((ManagerCollector.Collect sampleClient).sink id).map Metric.name).filter
        (fun n => !startsWith "redfish_manager_" n)
      = ["redfish_system_ethernet_interface_health",
         "redfish_system_ethernet_interface_state"] ∧
    (∀ c : Call, ∀ m ∈ c.metrics macString,
      startsWith ("redfish_" ++ c.domain ++ "_") m.name = true
        ∨ ((∃ intf managerID, c = Call.processManagerEthernetInterface intf managerID)
          ∧ (m.name = "redfish_system_ethernet_interface_health"
            ∨ m.name = "redfish_system_ethernet_interface_state"))) := by
  refine ⟨by decide, ?_⟩
  intro c m hm
  have h := c.metric_names macString m hm
  cases c <;> simp only [Call.nameCheck] at h <;> first
    | exact Or.inl h
    | skip
  simp only [managerEthernetName, Bool.or_eq_true, beq_iff_eq] at h
  rcases h with (h | h) | h
  · exact Or.inl h
  · exact Or.inr ⟨⟨_, _, rfl⟩, Or.inl h⟩
  · exact Or.inr ⟨⟨_, _, rfl⟩, Or.inr h⟩

/-- Claim C17, evaluation at the failing input: for a memory module the samples documented as
`Memory non-volatile size, bytes` and `Memory volatile size, bytes` are named
`..._size_desc`, and for a processor the sample documented as `Current processor TDP, W` is
named `..._tdp_current_wats`; none of these names ends in `_bytes` or in `_watts`.  These
three apart, every sample of every call whose help text gives a unit has the suffix of that
unit. -/
theorem unit_suffix_missing (macString : String → String) :
    ((SystemCollector.processMemory memory16GiB "system0").filter
        (fun m => decide (m.desc.help = "Memory non-volatile size, bytes"
          ∨ m.desc.help = "Memory volatile size, bytes"))).map Metric.name
      = ["redfish_system_memory_non_volatile_size_desc",
         "redfish_system_memory_volatile_size_desc"] ∧
    ((SystemCollector.processProcessor processor0 "system0").filter
        (fun m => decide (m.desc.help = "Current processor TDP, W"))).map Metric.name
      = ["redfish_system_processor_tdp_current_wats"] ∧
    endsWith "_bytes" "redfish_system_memory_non_volatile_size_desc" = false ∧
    endsWith "_bytes" "redfish_system_memory_volatile_size_desc" = false ∧
    endsWith "_watts" "redfish_system_processor_tdp_current_wats" = false ∧
    (∀ c : Call, ∀ m ∈ c.metrics macString,
      unitCheck m.desc.help m.name = true
        ∨ m.name ∈ ["redfish_system_memory_non_volatile_size_desc",
            "redfish_system_memory_volatile_size_desc",
            "redfish_system_processor_tdp_current_wats"]) := by
  refine ⟨by decide, by decide, by decide, by decide, by decide, ?_⟩
  intro c
  show AllDescs (fun d => unitCheck d.help d.fqName = true
        ∨ d.fqName ∈ ["redfish_system_memory_non_volatile_size_desc",
            "redfish_system_memory_volatile_size_desc",
            "redfish_system_processor_tdp_current_wats"]) (c.metrics macString)
  cases c <;>
    simp only [Call.metrics, ChassisCollector.processChassis, ChassisCollector.processThermal,
      ChassisCollector.processFan, ChassisCollector.processTemperature,
      ChassisCollector.processPowerControl, ChassisCollector.processPowerSupply,
      ChassisCollector.processVoltage, ChassisCollector.processNetworkAdapter,
      ChassisCollector.processNetworkPort, SystemCollector.processSystem,
      SystemCollector.processEthernetInterface, SystemCollector.processMemory,
      SystemCollector.processNetworkInterface, SystemCollector.processPCIeDevice,
      SystemCollector.processProcessor, SystemCollector.processStorage,
      SystemCollector.processStorageController, SystemCollector.processDrive,
      ManagerCollector.processManager, ManagerCollector.processEthernetInterface] <;>
    repeat' first
      | apply AllDescs.append
      | apply AllDescs.cons
      | apply AllDescs.sendOrdinal
      | apply AllDescs.ite
      | apply AllDescs.nil
  all_goals
    simp (disch := decide) only [NewDesc, BuildFQName_redfish, String.reduceAppend]
    decide


/-! ### Identity and parent labels -/

theorem pcieDevicesLoop_callHas (q : Call → Prop) (systemID : String)
    (hq : ∀ device, q (Call.processPCIeDevice device systemID))
    (devices : List redfish.PCIeDevice) :
    ∀ seen : List String, ∀ ev ∈ SystemCollector.pcieDevicesLoop systemID devices seen,
      ev.callHas q := by
  induction devices with
  | nil => intro seen ev hev; simp [SystemCollector.pcieDevicesLoop] at hev
  | cons device rest ih =>
    intro seen ev hev
    unfold SystemCollector.pcieDevicesLoop at hev
    split_ifs at hev
    · exact ih seen ev hev
    · rcases List.mem_cons.mp hev with rfl | h
      · exact hq device
      · exact ih _ ev h

theorem collectNetworkAdapter_root (chassisID : String) (adapter : gofish.NetworkAdapterNode) :
    ∀ ev ∈ (ChassisCollector.collectNetworkAdapter chassisID adapter).events,
      ev.callHas (fun c => c.domain = "chassis" ∧ c.rootID = chassisID) := by
  refine Run.forall_andThen _ _ _ ?_ ?_
  · intro ev hev
    rw [List.mem_singleton.mp hev]
    exact ⟨rfl, rfl⟩
  · refine Run.forall_read _ _ _ _ _ (fun _ => trivial) ?_
    intro ports
    exact Run.forall_ok_map _ _ _ (fun _ => ⟨rfl, rfl⟩)

theorem collectChassis_root (chassis : gofish.ChassisNode) :
    ∀ ev ∈ (ChassisCollector.collectChassis chassis).events,
      ev.callHas (fun c => c.domain = "chassis" ∧ c.rootID = chassis.self.ID) := by
  refine Run.forall_andThen _ _ _ ?_ ?_
  · intro ev hev
    rw [List.mem_singleton.mp hev]
    exact ⟨rfl, rfl⟩
  refine Run.forall_read _ _ _ _ _ (fun _ => trivial) ?_
  intro thermal
  refine Run.forall_andThen _ _ _ ?_ ?_
  · intro ev hev
    cases thermal with
    | none => simp [Run.ok] at hev
    | some thermal =>
      simp only [Run.ok, List.mem_append, List.mem_singleton, List.mem_map] at hev
      rcases hev with (rfl | ⟨_, _, rfl⟩) | ⟨_, _, rfl⟩ <;> exact ⟨rfl, rfl⟩
  refine Run.forall_read _ _ _ _ _ (fun _ => trivial) ?_
  intro power
  refine Run.forall_andThen _ _ _ ?_ ?_
  · intro ev hev
    cases power with
    | none => simp [Run.ok] at hev
    | some power =>
      simp only [Run.ok, List.mem_append, List.mem_map] at hev
      rcases hev with (⟨_, _, rfl⟩ | ⟨_, _, rfl⟩) | ⟨_, _, rfl⟩ <;> exact ⟨rfl, rfl⟩
  refine Run.forall_read _ _ _ _ _ (fun _ => trivial) ?_
  intro adapters
  exact Run.forall_forEach _ _ _ (collectNetworkAdapter_root chassis.self.ID)

theorem collectStorage_root (systemID : String) (storage : gofish.StorageNode) :
    ∀ ev ∈ (SystemCollector.collectStorage systemID storage).events,
      ev.callHas (fun c => (c.domain = "system" ∧ c.rootID = systemID)
        ∧ c.controllerOf storage.self.ID) := by
  refine Run.forall_andThen _ _ _ ?_ ?_
  · intro ev hev
    simp only [Run.ok, List.mem_append, List.mem_singleton, List.mem_map] at hev
    rcases hev with rfl | ⟨_, _, rfl⟩
    · exact ⟨⟨rfl, rfl⟩, trivial⟩
    · exact ⟨⟨rfl, rfl⟩, rfl⟩
  · refine Run.forall_read _ _ _ _ _ (fun _ => trivial) ?_
    intro drives
    exact Run.forall_ok_map _ _ _ (fun _ => ⟨⟨rfl, rfl⟩, trivial⟩)

theorem Event.callHas_mono {q q' : Call → Prop} (h : ∀ c, q c → q' c) (ev : Event)
    (hev : ev.callHas q) : ev.callHas q' := by
  cases ev with
  | read op err => trivial
  | call c => exact h c hev

theorem collectSystem_root (system : gofish.SystemNode) :
    ∀ ev ∈ (SystemCollector.collectSystem system).events,
      ev.callHas (fun c => c.domain = "system" ∧ c.rootID = system.self.ID) := by
  refine Run.forall_andThen _ _ _ ?_ ?_
  · intro ev hev
    rw [List.mem_singleton.mp hev]
    exact ⟨rfl, rfl⟩
  refine Run.forall_read _ _ _ _ _ (fun _ => trivial) ?_
  intro ethernetInterfaces
  refine Run.forall_andThen _ _ _ (Run.forall_ok_map _ _ _ (fun _ => ⟨rfl, rfl⟩)) ?_
  refine Run.forall_read _ _ _ _ _ (fun _ => trivial) ?_
  intro memories
  refine Run.forall_andThen _ _ _ (Run.forall_ok_map _ _ _ (fun _ => ⟨rfl, rfl⟩)) ?_
  refine Run.forall_read _ _ _ _ _ (fun _ => trivial) ?_
  intro networkInterfaces
  refine Run.forall_andThen _ _ _ (Run.forall_ok_map _ _ _ (fun _ => ⟨rfl, rfl⟩)) ?_
  refine Run.forall_read _ _ _ _ _ (fun _ => trivial) ?_
  intro pcieDevices
  refine Run.forall_andThen _ _ _
    (pcieDevicesLoop_callHas _ _ (fun _ => ⟨rfl, rfl⟩) _ _) ?_
  refine Run.forall_read _ _ _ _ _ (fun _ => trivial) ?_
  intro processors
  refine Run.forall_andThen _ _ _ (Run.forall_ok_map _ _ _ (fun _ => ⟨rfl, rfl⟩)) ?_
  refine Run.forall_read _ _ _ _ _ (fun _ => trivial) ?_
  intro storages
  refine Run.forall_forEach _ _ _ ?_
  intro storage ev hev
  exact Event.callHas_mono (fun c h => h.1) ev (collectStorage_root system.self.ID storage ev hev)

theorem collectManager_root (manager : gofish.ManagerNode) :
    ∀ ev ∈ (ManagerCollector.collectManager manager).events,
      ev.callHas (fun c => c.domain = "manager" ∧ c.rootID = manager.self.ID) := by
  refine Run.forall_andThen _ _ _ ?_ ?_
  · intro ev hev
    rw [List.mem_singleton.mp hev]
    exact ⟨rfl, rfl⟩
  · refine Run.forall_read _ _ _ _ _ (fun _ => trivial) ?_
    intro ethernetInterfaces
    exact Run.forall_ok_map _ _ _ (fun _ => ⟨rfl, rfl⟩)

/-- Claim C18, counterexample: in the traversal of an endpoint with the port `port1` of the
adapter `nic0` and the drive `disk0` of the storage subsystem `raid0`, the samples of the
port carry the labels id, name, chassis_id and link_type and those of the drive the labels
id, name, system_id and drive_type: no label holds the id of the adapter or that of the
storage subsystem. -/
theorem port_and_drive_lack_parent_label :
    ((((ChassisCollector.Collect sampleClient).sink id).filter
        (fun m => decide (m.name = "redfish_chassis_network_port_speed_bytes"))).map
        Metric.labels)
      = [[("id", "port1"), ("name", "Port 1"), ("chassis_id", "chassis0"),
          ("link_type", "Ethernet")]] ∧
    ((((SystemCollector.Collect sampleClient).sink id).filter
        (fun m => decide (m.name = "redfish_system_drive_capacity_bytes"))).map
        Metric.labels)
      = [[("id", "disk0"), ("name", "Disk 0"), ("system_id", "system0"),
          ("drive_type", "HDD")]] := by
  decide

/-- Claim C18, amended: every sample of a call carries the labels id and name of the resource
of the call and the label chassis_id, system_id or manager_id, which holds the id of the
chassis, system or manager under which the traversal makes the call (for a chassis, a system
or a manager its own id); the samples of a storage controller also carry storage_id, the id
of the storage subsystem that lists it. -/
theorem labels_identity_and_root (macString : String → String) :
    (∀ c : Call, ∀ m ∈ c.metrics macString,
      ("id", c.resourceID) ∈ m.labels ∧ ("name", c.resourceName) ∈ m.labels
        ∧ (c.domain ++ "_id", c.rootID) ∈ m.labels) ∧
    (∀ (controller : redfish.StorageController) (systemID storageID : String),
      ∀ m ∈ SystemCollector.processStorageController controller systemID storageID,
        ("storage_id", storageID) ∈ m.labels) ∧
    (∀ chassis : gofish.ChassisNode,
      ∀ ev ∈ (ChassisCollector.collectChassis chassis).events,
        ev.callHas (fun c => c.domain = "chassis" ∧ c.rootID = chassis.self.ID)) ∧
    (∀ system : gofish.SystemNode,
      ∀ ev ∈ (SystemCollector.collectSystem system).events,
        ev.callHas (fun c => c.domain = "system" ∧ c.rootID = system.self.ID)) ∧
    (∀ manager : gofish.ManagerNode,
      ∀ ev ∈ (ManagerCollector.collectManager manager).events,
        ev.callHas (fun c => c.domain = "manager" ∧ c.rootID = manager.self.ID)) ∧
    (∀ (systemID : String) (storage : gofish.StorageNode),
      ∀ ev ∈ (SystemCollector.collectStorage systemID storage).events,
        ev.callHas (Call.controllerOf storage.self.ID)) := by
  refine ⟨?_, ?_, collectChassis_root, collectSystem_root, collectManager_root, ?_⟩
  · intro c m hm
    have h := Call.identity_labels macString c m hm
    exact ⟨mem_labels_of_const m _ h.1, mem_labels_of_const m _ h.2.1,
      mem_labels_of_const m _ h.2.2⟩
  · intro controller systemID storageID m hm
    refine mem_labels_of_const m _ ?_
    revert m
    show AllDescs (fun d => ("storage_id", storageID) ∈ d.constLabels) _
    simp only [SystemCollector.processStorageController]
    repeat' first
      | apply AllDescs.append
      | apply AllDescs.cons
      | apply AllDescs.sendOrdinal
      | apply AllDescs.ite
      | apply AllDescs.nil
    all_goals simp [NewDesc]
  · intro systemID storage ev hev
    exact Event.callHas_mono (fun c h => h.2) ev (collectStorage_root systemID storage ev hev)

/-! ### Order of the samples of one collector -/

theorem Run.sink_ok (macString : String → String) (events : List Event) :
    (Run.ok events).sink macString = events.flatMap (Event.metrics macString) := rfl

theorem Run.sink_ok_map {α : Type} (macString : String → String) (f : α → Call)
    (xs : List α) :
    (Run.ok (xs.map (fun x => Event.call (f x)))).sink macString
      = xs.flatMap (fun x => (f x).metrics macString) := by
  simp only [Run.sink, Run.ok, List.flatMap_map, Event.metrics]

theorem Run.sink_andThen (macString : String → String) (a b : Run)
    (h : (a.andThen b).err = none) :
    a.err = none ∧ b.err = none
      ∧ (a.andThen b).sink macString = a.sink macString ++ b.sink macString := by
  obtain ⟨ha, hb, hev⟩ := Run.andThen_err_none a b h
  refine ⟨ha, hb, ?_⟩
  simp only [Run.sink, hev, List.flatMap_append]

theorem Run.sink_read {α : Type} (macString : String → String) (op : ReadOp) (r : Read α)
    (wrap : String → String) (k : α → Run) (h : (Run.read op r wrap k).err = none) :
    (k r.val).err = none
      ∧ (Run.read op r wrap k).sink macString = (k r.val).sink macString := by
  obtain ⟨hr, hk⟩ := Run.read_err_none op r wrap k h
  refine ⟨hk, ?_⟩
  rw [Run.read_ok op r wrap k hr]
  simp only [Run.sink, List.flatMap_cons, Event.metrics, List.nil_append]

theorem Run.sink_forEach {α : Type} (macString : String → String) (body : α → Run)
    (xs : List α) (h : (Run.forEach body xs).err = none) :
    (∀ x ∈ xs, (body x).err = none)
      ∧ (Run.forEach body xs).sink macString = xs.flatMap (fun x => (body x).sink macString) := by
  obtain ⟨hall, hev⟩ := Run.forEach_err_none body xs h
  refine ⟨hall, ?_⟩
  simp only [Run.sink, hev, List.flatMap_assoc]

theorem pcieDevicesLoop_eq_dedup (systemID : String) (devices : List redfish.PCIeDevice) :
    ∀ seen : List String,
      SystemCollector.pcieDevicesLoop systemID devices seen
        = ((dedupByID devices).filter (fun d => decide (d.ID ∉ seen))).map
            (fun d => Event.call (Call.processPCIeDevice d systemID)) := by
  induction devices with
  | nil => intro seen; rfl
  | cons device rest ih =>
    intro seen
    unfold SystemCollector.pcieDevicesLoop
    simp only [dedupByID, List.filter_cons, List.filter_filter]
    split_ifs with h1 h2 h2
    · exfalso
      simp only [decide_eq_true_eq] at h2
      exact h2 h1
    · rw [ih seen]
      congr 1
      apply List.filter_congr
      intro d _
      by_cases hd : d.ID ∈ seen
      · simp [hd]
      · have : d.ID ≠ device.ID := fun e => hd (e ▸ h1)
        simp [hd, this]
    · rw [ih (device.ID :: seen), List.map_cons]
      congr 2
      apply List.filter_congr
      intro d _
      simp only [List.mem_cons, not_or, ne_eq, Bool.decide_and, Bool.and_comm]
    · exfalso
      simp only [decide_eq_true_eq, not_not] at h2
      exact h1 h2

theorem collectStorage_sink (macString : String → String) (systemID : String)
    (storage : gofish.StorageNode)
    (h : (SystemCollector.collectStorage systemID storage).err = none) :
    (SystemCollector.collectStorage systemID storage).sink macString
      = documentedStorageSamples systemID storage := by
  unfold SystemCollector.collectStorage at h ⊢
  obtain ⟨_, h1, e1⟩ := Run.sink_andThen macString _ _ h
  obtain ⟨_, e2⟩ := Run.sink_read macString _ _ _ _ h1
  rw [e1, e2, Run.sink_ok_map, Run.sink_ok, List.flatMap_append, List.flatMap_map]
  simp only [List.flatMap_cons, List.flatMap_nil, List.append_nil, Event.metrics, Call.metrics,
    documentedStorageSamples]

theorem collectSystem_sink (macString : String → String) (system : gofish.SystemNode)
    (h : (SystemCollector.collectSystem system).err = none) :
    (SystemCollector.collectSystem system).sink macString
      = documentedSystemSamples macString system := by
  unfold SystemCollector.collectSystem SystemCollector.collectProcessorsAndStorage at h ⊢
  obtain ⟨_, h, e1⟩ := Run.sink_andThen macString _ _ h
  obtain ⟨h, e2⟩ := Run.sink_read macString _ _ _ _ h
  obtain ⟨_, h, e3⟩ := Run.sink_andThen macString _ _ h
  obtain ⟨h, e4⟩ := Run.sink_read macString _ _ _ _ h
  obtain ⟨_, h, e5⟩ := Run.sink_andThen macString _ _ h
  obtain ⟨h, e6⟩ := Run.sink_read macString _ _ _ _ h
  obtain ⟨_, h, e7⟩ := Run.sink_andThen macString _ _ h
  obtain ⟨h, e8⟩ := Run.sink_read macString _ _ _ _ h
  obtain ⟨_, h, e9⟩ := Run.sink_andThen macString _ _ h
  obtain ⟨h, e10⟩ := Run.sink_read macString _ _ _ _ h
  obtain ⟨_, h, e11⟩ := Run.sink_andThen macString _ _ h
  obtain ⟨h, e12⟩ := Run.sink_read macString _ _ _ _ h
  obtain ⟨hall, e13⟩ := Run.sink_forEach macString _ _ h
  have hs : system.Storage.val.flatMap
      (fun x => (SystemCollector.collectStorage system.self.ID x).sink macString)
      = system.Storage.val.flatMap (documentedStorageSamples system.self.ID) :=
    List.flatMap_congr (fun storage hs => collectStorage_sink macString _ storage (hall storage hs))
  rw [e1, e2, e3, e4, e5, e6, e7, e8, e9, e10, e11, e12, e13, hs]
  rw [pcieDevicesLoop_eq_dedup]
  simp only [Run.sink_ok_map, Run.sink_ok, List.flatMap_cons, List.flatMap_nil,
    List.append_nil, Event.metrics, Call.metrics, documentedSystemSamples, List.append_assoc,
    List.not_mem_nil, not_false_eq_true, decide_True, List.filter_true, List.flatMap_map]

theorem collectNetworkAdapter_sink (macString : String → String) (chassisID : String)
    (adapter : gofish.NetworkAdapterNode)
    (h : (ChassisCollector.collectNetworkAdapter chassisID adapter).err = none) :
    (ChassisCollector.collectNetworkAdapter chassisID adapter).sink macString
      = documentedAdapterSamples chassisID adapter := by
  unfold ChassisCollector.collectNetworkAdapter at h ⊢
  obtain ⟨_, h1, e1⟩ := Run.sink_andThen macString _ _ h
  obtain ⟨_, e2⟩ := Run.sink_read macString _ _ _ _ h1
  rw [e1, e2, Run.sink_ok_map, Run.sink_ok]
  simp only [List.flatMap_cons, List.flatMap_nil, List.append_nil, Event.metrics, Call.metrics,
    documentedAdapterSamples]

theorem collectChassis_sink (macString : String → String) (chassis : gofish.ChassisNode)
    (h : (ChassisCollector.collectChassis chassis).err = none) :
    (ChassisCollector.collectChassis chassis).sink macString
      = documentedChassisSamples chassis := by
  unfold ChassisCollector.collectChassis ChassisCollector.collectPower
    ChassisCollector.collectNetworkAdapters at h ⊢
  obtain ⟨_, h, e1⟩ := Run.sink_andThen macString _ _ h
  obtain ⟨h, e2⟩ := Run.sink_read macString _ _ _ _ h
  obtain ⟨_, h, e3⟩ := Run.sink_andThen macString _ _ h
  obtain ⟨h, e4⟩ := Run.sink_read macString _ _ _ _ h
  obtain ⟨_, h, e5⟩ := Run.sink_andThen macString _ _ h
  obtain ⟨h, e6⟩ := Run.sink_read macString _ _ _ _ h
  obtain ⟨hall, e7⟩ := Run.sink_forEach macString _ _ h
  have ha : chassis.NetworkAdapters.val.flatMap
      (fun x => (ChassisCollector.collectNetworkAdapter chassis.self.ID x).sink macString)
      = chassis.NetworkAdapters.val.flatMap (documentedAdapterSamples chassis.self.ID) :=
    List.flatMap_congr (fun adapter ha =>
      collectNetworkAdapter_sink macString _ adapter (hall adapter ha))
  rw [e1, e2, e3, e4, e5, e6, e7, ha]
  simp only [documentedChassisSamples]
  cases chassis.Thermal.val <;> cases chassis.Power.val <;>
    simp only [Run.sink_ok, List.flatMap_append, List.flatMap_map, List.flatMap_cons,
      List.flatMap_nil, List.append_nil, List.nil_append, Event.metrics, Call.metrics,
      documentedThermalSamples, documentedPowerSamples, List.append_assoc]

/-- Claim C19: when the System Collector returns no error, which is when every read it makes
succeeds, the samples it sends are exactly, for each system in turn, the system samples, then
those of its ethernet interfaces, memory modules, network interfaces, PCIe devices (the first
device of every id), processors, and for each storage subsystem the storage samples, those
of its controllers and those of its drives; and when the Chassis Collector returns no error,
the samples it sends are exactly, for each chassis in turn, the chassis samples, then thermal,
fans, temperatures, then power controls, power supplies, voltages, then each network adapter
followed by its ports. -/
theorem collector_samples_in_traversal_order (macString : String → String)
    (client : gofish.APIClient) :
    ((SystemCollector.Collect client).err = none →
      (SystemCollector.Collect client).sink macString
        = client.Service.Systems.val.flatMap (documentedSystemSamples macString)) ∧
    ((ChassisCollector.Collect client).err = none →
      (ChassisCollector.Collect client).sink macString
        = client.Service.Chassis.val.flatMap documentedChassisSamples) := by
  constructor
  · intro h
    unfold SystemCollector.Collect at h ⊢
    obtain ⟨h, e1⟩ := Run.sink_read macString _ _ _ _ h
    obtain ⟨hall, e2⟩ := Run.sink_forEach macString _ _ h
    rw [e1, e2]
    apply List.flatMap_congr
    intro system hs
    exact collectSystem_sink macString system (hall system hs)
  · intro h
    unfold ChassisCollector.Collect at h ⊢
    obtain ⟨h, e1⟩ := Run.sink_read macString _ _ _ _ h
    obtain ⟨hall, e2⟩ := Run.sink_forEach macString _ _ h
    rw [e1, e2]
    apply List.flatMap_congr
    intro chassis hc
    exact collectChassis_sink macString chassis (hall chassis hc)

/-- Witness of claim C19: the System Collector on the endpoint with the system `system0` and
the Chassis Collector on the endpoint with the chassis `chassis0` return no error and send
the samples in the documented order. -/
theorem collector_samples_in_traversal_order_witness :
    ((SystemCollector.Collect sampleClient).err = none ∧
      (SystemCollector.Collect sampleClient).sink id
        = sampleClient.Service.Systems.val.flatMap (documentedSystemSamples id)) ∧
    ((ChassisCollector.Collect sampleClient).err = none ∧
      (ChassisCollector.Collect sampleClient).sink id
        = sampleClient.Service.Chassis.val.flatMap documentedChassisSamples) :=
  ⟨⟨by decide, (collector_samples_in_traversal_order id sampleClient).1 (by decide)⟩,
   ⟨by decide, (collector_samples_in_traversal_order id sampleClient).2 (by decide)⟩⟩

/-! ### A chassis without thermal or power block -/

theorem Call.measurement_subtree (c : Call) :
    ∀ p ∈ c.measurements, c.subtreeCheck p.1 = true := by
  cases c <;>
    simp only [Call.measurements, List.forall_mem_append, forall_mem_name_cons,
      forall_mem_name_ite, List.not_mem_nil, false_imp_iff, implies_true, and_true] <;>
    simp only [Call.subtreeCheck, Call.isThermal, Call.isPower] <;>
    first
    | decide
    | (constructor <;> intros <;> decide)
    | (refine ⟨by decide, ?_, ?_⟩ <;> intros <;> decide)

theorem Call.categorical_subtree (c : Call) :
    ∀ f ∈ c.categoricalFields, c.subtreeCheck f.metric = true := by
  cases c <;>
    simp only [Call.categoricalFields, List.forall_mem_cons, List.not_mem_nil, false_imp_iff,
      implies_true, and_true, Call.subtreeCheck, Call.isThermal, Call.isPower] <;>
    decide

theorem Call.metric_subtree (macString : String → String) (c : Call) :
    ∀ m ∈ c.metrics macString, c.subtreeCheck m.name = true :=
  Call.forall_metric_name c.subtreeCheck macString c c.measurement_subtree c.categorical_subtree

theorem Run.sink_not_thermal (macString : String → String) (r : Run)
    (h : ∀ ev ∈ r.events, ev.callHas (fun c => c.isThermal = false)) :
    ∀ m ∈ r.sink macString, isThermalName m.name = false := by
  intro m hm
  obtain ⟨ev, hev, hmev⟩ := List.mem_flatMap.mp hm
  cases ev with
  | read op err => simp [Event.metrics] at hmev
  | call c =>
    have hc : c.isThermal = false := h _ hev
    have hs := c.metric_subtree macString m hmev
    simp only [Call.subtreeCheck, hc, Bool.and_eq_true, beq_iff_eq] at hs
    exact hs.1

theorem Run.sink_not_power (macString : String → String) (r : Run)
    (h : ∀ ev ∈ r.events, ev.callHas (fun c => c.isPower = false)) :
    ∀ m ∈ r.sink macString, isPowerName m.name = false := by
  intro m hm
  obtain ⟨ev, hev, hmev⟩ := List.mem_flatMap.mp hm
  cases ev with
  | read op err => simp [Event.metrics] at hmev
  | call c =>
    have hc : c.isPower = false := h _ hev
    have hs := c.metric_subtree macString m hmev
    simp only [Call.subtreeCheck, hc, Bool.and_eq_true, beq_iff_eq] at hs
    exact hs.2

theorem collectNetworkAdapters_outside_subtrees (chassis : gofish.ChassisNode) :
    ∀ ev ∈ (ChassisCollector.collectNetworkAdapters chassis).events,
      ev.callHas (fun c => c.isThermal = false ∧ c.isPower = false) := by
  refine Run.forall_read _ _ _ _ _ (fun _ => trivial) ?_
  intro adapters
  refine Run.forall_forEach _ _ _ ?_
  intro adapter
  refine Run.forall_andThen _ _ _ ?_ ?_
  · intro ev hev
    rw [List.mem_singleton.mp hev]
    exact ⟨rfl, rfl⟩
  · refine Run.forall_read _ _ _ _ _ (fun _ => trivial) ?_
    intro ports
    exact Run.forall_ok_map _ _ _ (fun _ => ⟨rfl, rfl⟩)

theorem collectPower_not_thermal (chassis : gofish.ChassisNode) :
    ∀ ev ∈ (ChassisCollector.collectPower chassis).events,
      ev.callHas (fun c => c.isThermal = false) := by
  refine Run.forall_read _ _ _ _ _ (fun _ => trivial) ?_
  intro power
  refine Run.forall_andThen _ _ _ ?_ ?_
  · intro ev hev
    cases power with
    | none => simp [Run.ok] at hev
    | some power =>
      simp only [Run.ok, List.mem_append, List.mem_map] at hev
      rcases hev with (⟨_, _, rfl⟩ | ⟨_, _, rfl⟩) | ⟨_, _, rfl⟩ <;> rfl
  · intro ev hev
    exact Event.callHas_mono (fun c h => h.1) ev
      (collectNetworkAdapters_outside_subtrees chassis ev hev)

theorem collectChassis_nil_thermal (chassis : gofish.ChassisNode)
    (h1 : chassis.Thermal.err = none) (h2 : chassis.Thermal.val = none) :
    ChassisCollector.collectChassis chassis
      = { events := Event.call (.processChassis chassis.self)
            :: Event.read (.ChassisThermal chassis.self.ID) none
            :: (ChassisCollector.collectPower chassis).events,
          err := (ChassisCollector.collectPower chassis).err } := by
  unfold ChassisCollector.collectChassis
  rw [Run.read_ok _ _ _ _ h1, h2]
  simp only [Run.ok_andThen, List.nil_append, List.singleton_append]

theorem collectPower_nil_power (chassis : gofish.ChassisNode)
    (h1 : chassis.Power.err = none) (h2 : chassis.Power.val = none) :
    ChassisCollector.collectPower chassis
      = { events := Event.read (.ChassisPower chassis.self.ID) none
            :: (ChassisCollector.collectNetworkAdapters chassis).events,
          err := (ChassisCollector.collectNetworkAdapters chassis).err } := by
  unfold ChassisCollector.collectPower
  rw [Run.read_ok _ _ _ _ h1, h2]
  simp only [Run.ok_andThen, List.nil_append]

theorem collectChassis_nil_power_calls (chassis : gofish.ChassisNode)
    (h1 : chassis.Power.err = none) (h2 : chassis.Power.val = none) :
    ∀ ev ∈ (ChassisCollector.collectChassis chassis).events,
      ev.callHas (fun c => c.isPower = false) := by
  refine Run.forall_andThen _ _ _ ?_ ?_
  · intro ev hev
    rw [List.mem_singleton.mp hev]
    rfl
  refine Run.forall_read _ _ _ _ _ (fun _ => trivial) ?_
  intro thermal
  refine Run.forall_andThen _ _ _ ?_ ?_
  · intro ev hev
    cases thermal with
    | none => simp [Run.ok] at hev
    | some thermal =>
      simp only [Run.ok, List.mem_append, List.mem_singleton, List.mem_map] at hev
      rcases hev with (rfl | ⟨_, _, rfl⟩) | ⟨_, _, rfl⟩ <;> rfl
  · rw [collectPower_nil_power chassis h1 h2]
    intro ev hev
    rcases List.mem_cons.mp hev with rfl | hev
    · trivial
    · exact Event.callHas_mono (fun c h => h.2) ev
        (collectNetworkAdapters_outside_subtrees chassis ev hev)

/-- Claim C20: for every chassis whose thermal read succeeds with no thermal block, the body
of the loop of the Chassis Collector calls `processChassis`, makes the thermal read and goes
on with the power subtree, whose error, if any, is the only one it returns, and none of the
samples it sends is a thermal, fan or temperature sample; and for every chassis whose power
read succeeds with no power block, the power part makes the power read and goes on with the
network adapters, whose error, if any, is the only one it returns, and none of the samples
sent for the chassis is a power-control, power-supply or voltage sample. -/
theorem nil_thermal_or_power_is_silent (macString : String → String)
    (chassis : gofish.ChassisNode) :
    (chassis.Thermal.err = none → chassis.Thermal.val = none →
      (ChassisCollector.collectChassis chassis).events
          = Event.call (.processChassis chassis.self)
            :: Event.read (.ChassisThermal chassis.self.ID) none
            :: (ChassisCollector.collectPower chassis).events
        ∧ (ChassisCollector.collectChassis chassis).err
          = (ChassisCollector.collectPower chassis).err
        ∧ ∀ m ∈ (ChassisCollector.collectChassis chassis).sink macString,
            isThermalName m.name = false) ∧
    (chassis.Power.err = none → chassis.Power.val = none →
      (ChassisCollector.collectPower chassis).events
          = Event.read (.ChassisPower chassis.self.ID) none
            :: (ChassisCollector.collectNetworkAdapters chassis).events
        ∧ (ChassisCollector.collectPower chassis).err
          = (ChassisCollector.collectNetworkAdapters chassis).err
        ∧ ∀ m ∈ (ChassisCollector.collectChassis chassis).sink macString,
            isPowerName m.name = false) := by
  constructor
  · intro h1 h2
    refine ⟨?_, ?_, ?_⟩
    · rw [collectChassis_nil_thermal chassis h1 h2]
    · rw [collectChassis_nil_thermal chassis h1 h2]
    · apply Run.sink_not_thermal
      rw [collectChassis_nil_thermal chassis h1 h2]
      intro ev hev
      rcases List.mem_cons.mp hev with rfl | hev
      · rfl
      · rcases List.mem_cons.mp hev with rfl | hev
        · trivial
        · exact collectPower_not_thermal chassis ev hev
  · intro h1 h2
    refine ⟨?_, ?_, ?_⟩
    · rw [collectPower_nil_power chassis h1 h2]
    · rw [collectPower_nil_power chassis h1 h2]
    · exact Run.sink_not_power macString _ (collectChassis_nil_power_calls chassis h1 h2)

/-- Witness of claim C20: the chassis `chassis1`, whose thermal and power reads succeed with
no block; the Chassis Collector on the endpoint with the chassis `chassis0`, which has no
power block, returns no error. -/
theorem nil_thermal_or_power_is_silent_witness :
    ((ChassisCollector.collectChassis bareChassis).events
        = Event.call (.processChassis bareChassis.self)
          :: Event.read (.ChassisThermal bareChassis.self.ID) none
          :: (ChassisCollector.collectPower bareChassis).events
      ∧ (ChassisCollector.collectChassis bareChassis).err
        = (ChassisCollector.collectPower bareChassis).err
      ∧ ∀ m ∈ (ChassisCollector.collectChassis bareChassis).sink id,
          isThermalName m.name = false) ∧
    ((ChassisCollector.collectPower bareChassis).events
        = Event.read (.ChassisPower bareChassis.self.ID) none
          :: (ChassisCollector.collectNetworkAdapters bareChassis).events
      ∧ (ChassisCollector.collectPower bareChassis).err
        = (ChassisCollector.collectNetworkAdapters bareChassis).err
      ∧ ∀ m ∈ (ChassisCollector.collectChassis bareChassis).sink id,
          isPowerName m.name = false) ∧
    (ChassisCollector.collectChassis bareChassis).err = none ∧
    (ChassisCollector.Collect sampleClient).err = none :=
  ⟨(nil_thermal_or_power_is_silent id bareChassis).1 rfl rfl,
   (nil_thermal_or_power_is_silent id bareChassis).2 rfl rfl, by decide, by decide⟩

/-! ### Ordinal tables of the codecs -/

theorem ordinalSample_filter_eq (n : String) (e : ℚ) :
    (ordinalSample n e).filter (fun p => decide (p.1 = n)) = ordinalSample n e := by
  unfold ordinalSample
  split_ifs <;> simp

/-- Claim C21: `enumEncryptionStatus` maps both spellings of the unencrypted status,
`Unecrypted` and `Unencrypted`, to 0, and no other input to 0; it maps Unlocked to 1, Locked
to 2 and Foreign to 3; and `processDrive` sends the encryption-status sample with the result
of this codec for the encryption status of the drive. -/
theorem enumEncryptionStatus_both_spellings :
    redfish.UnecryptedEncryptionStatus = "Unecrypted" ∧
    redfish.UnencryptedEncryptionStatus = "Unencrypted" ∧
    enumEncryptionStatus "Unecrypted" = 0 ∧
    enumEncryptionStatus "Unencrypted" = 0 ∧
    enumEncryptionStatus "Unlocked" = 1 ∧
    enumEncryptionStatus "Locked" = 2 ∧
    enumEncryptionStatus "Foreign" = 3 ∧
    (∀ e : String, enumEncryptionStatus e = 0 ↔ e = "Unecrypted" ∨ e = "Unencrypted") ∧
    (∀ (drive : redfish.Drive) (systemID : String),
      ((SystemCollector.processDrive drive systemID).map nameValue).filter
          (fun p => decide (p.1 = "redfish_system_drive_encryption_status"))
        = ordinalSample "redfish_system_drive_encryption_status"
            (enumEncryptionStatus drive.EncryptionStatus)) := by
  refine ⟨rfl, rfl, by decide, by decide, by decide, by decide, by decide, ?_, ?_⟩
  · intro e
    unfold enumEncryptionStatus
    simp only [redfish.UnecryptedEncryptionStatus, redfish.UnencryptedEncryptionStatus]
    split_ifs <;> simp_all
  · intro drive systemID
    rw [processDrive_nameValue]
    simp (disch := decide) only [Call.measurements, Call.categoricalFields,
      CategoricalField.samples, List.flatMap_cons, List.flatMap_nil, List.filter_append,
      ordinalSample_filter_ne, ordinalSample_filter_eq, pair_filter_ne, List.filter_nil,
      List.append_nil, List.nil_append]
    split_ifs <;> simp

theorem Call.ordinal_help_texts (macString : String → String) (c : Call) :
    AllDescs (fun d =>
        (d.fqName = "redfish_chassis_intrusion_sensor" →
          d.help = ordinalHelp "Intrusion sensor reading"
            ["Normal", "HardwareIntrusion", "TamperingDetected"]) ∧
        (d.fqName = "redfish_chassis_network_port_status" →
          d.help = ordinalHelp "Network port status" ["Down", "Up"]) ∧
        (d.fqName = "redfish_system_ethernet_interface_link_status" →
          d.help = ordinalHelp "Ethernet interface link status" ["LinkDown", "LinkUp", "NoLink"]) ∧
        (d.fqName = "redfish_system_drive_hotspare_type" →
          d.help = ordinalHelp "Drive hotspare type" ["None", "Global", "Chassis", "Dedicated"]) ∧
        (d.fqName = "redfish_system_drive_status" →
          d.help = ordinalHelp "Drive status"
            ["Fail", "OK", "Rebuild", "PredictiveFailureAnalysis", "Hotspare",
             "InACriticalArray", "InAFailedArray"]))
      (c.metrics macString) := by
  cases c <;>
    simp only [Call.metrics, ChassisCollector.processChassis, ChassisCollector.processThermal,
      ChassisCollector.processFan, ChassisCollector.processTemperature,
      ChassisCollector.processPowerControl, ChassisCollector.processPowerSupply,
      ChassisCollector.processVoltage, ChassisCollector.processNetworkAdapter,
      ChassisCollector.processNetworkPort, SystemCollector.processSystem,
      SystemCollector.processEthernetInterface, SystemCollector.processMemory,
      SystemCollector.processNetworkInterface, SystemCollector.processPCIeDevice,
      SystemCollector.processProcessor, SystemCollector.processStorage,
      SystemCollector.processStorageController, SystemCollector.processDrive,
      ManagerCollector.processManager, ManagerCollector.processEthernetInterface] <;>
    repeat' first
      | apply AllDescs.append
      | apply AllDescs.cons
      | apply AllDescs.sendOrdinal
      | apply AllDescs.ite
      | apply AllDescs.nil
  all_goals
    simp (disch := decide) only [NewDesc, BuildFQName_redfish, String.reduceAppend]
    decide

theorem ordinal_codec_feeds (chassis : redfish.Chassis) (port : redfish.NetworkPort)
    (intf : redfish.EthernetInterface) (drive : redfish.Drive) (id : String)
    (macString : String → String) :
    ((ChassisCollector.processChassis chassis).map nameValue).filter
        (fun p => decide (p.1 = "redfish_chassis_intrusion_sensor"))
      = ordinalSample "redfish_chassis_intrusion_sensor"
          (enumIntrusionSensor chassis.PhysicalSecurity.IntrusionSensor) ∧
    ((ChassisCollector.processNetworkPort port id).map nameValue).filter
        (fun p => decide (p.1 = "redfish_chassis_network_port_status"))
      = ordinalSample "redfish_chassis_network_port_status"
          (enumPortLinkStatus port.LinkStatus) ∧
    ((SystemCollector.processEthernetInterface macString intf id).map nameValue).filter
        (fun p => decide (p.1 = "redfish_system_ethernet_interface_link_status"))
      = ordinalSample "redfish_system_ethernet_interface_link_status"
          (enumInterfaceLinkStatus intf.LinkStatus) ∧
    ((SystemCollector.processDrive drive id).map nameValue).filter
        (fun p => decide (p.1 = "redfish_system_drive_hotspare_type"))
      = ordinalSample "redfish_system_drive_hotspare_type"
          (enumHotspareType drive.HotspareType) ∧
    ((SystemCollector.processDrive drive id).map nameValue).filter
        (fun p => decide (p.1 = "redfish_system_drive_status"))
      = ordinalSample "redfish_system_drive_status"
          (enumDriveStatusIndicator drive.StatusIndicator) := by
  have h1 := Call.map_nameValue_metrics macString (Call.processChassis chassis)
  have h2 := Call.map_nameValue_metrics macString (Call.processNetworkPort port id)
  have h3 := Call.map_nameValue_metrics macString (Call.processSystemEthernetInterface intf id)
  have h4 := Call.map_nameValue_metrics macString (Call.processDrive drive id)
  simp only [Call.metrics] at h1 h2 h3 h4
  rw [h1, h2, h3, h4]
  refine ⟨?_, ?_, ?_, ?_, ?_⟩
  · simp (disch := decide) only [Call.measurements, Call.categoricalFields,
      CategoricalField.samples, List.flatMap_cons, List.flatMap_nil, List.filter_append,
      ordinalSample_filter_ne, ordinalSample_filter_eq, pair_filter_ne, List.filter_nil,
      List.append_nil, List.nil_append]
  · simp (disch := decide) only [Call.measurements, Call.categoricalFields,
      CategoricalField.samples, List.flatMap_cons, List.flatMap_nil, List.filter_append,
      ordinalSample_filter_ne, ordinalSample_filter_eq, pair_filter_ne, List.filter_nil,
      List.append_nil, List.nil_append]
  · simp (disch := decide) only [Call.measurements, Call.categoricalFields,
      CategoricalField.samples, List.flatMap_cons, List.flatMap_nil, List.filter_append,
      ordinalSample_filter_ne, ordinalSample_filter_eq, pair_filter_ne, List.filter_nil,
      List.append_nil, List.nil_append]
  · simp (disch := decide) only [Call.measurements, Call.categoricalFields,
      CategoricalField.samples, List.flatMap_cons, List.flatMap_nil, List.filter_append,
      ordinalSample_filter_ne, ordinalSample_filter_eq, pair_filter_ne, List.filter_nil,
      List.append_nil, List.nil_append]
    split_ifs <;> simp
  · simp (disch := decide) only [Call.measurements, Call.categoricalFields,
      CategoricalField.samples, List.flatMap_cons, List.flatMap_nil, List.filter_append,
      ordinalSample_filter_ne, ordinalSample_filter_eq, pair_filter_ne, List.filter_nil,
      List.append_nil, List.nil_append]
    split_ifs <;> simp

/-- Claim C22: for each of the five remaining codecs the ordinals are those the help text of
the metric it feeds documents.  The documented values, in the documented order, are mapped to
0, 1, 2 and so on; every sample of every call that has the name of the metric carries the help
text that lists these values with these ordinals; and the sample of that name is the one the
code sends for the codec result of the field: intrusion sensor, network port status, ethernet
interface link status, drive hotspare type, drive status. -/
theorem remaining_codecs_match_help_texts (macString : String → String) :
    (["Normal", "HardwareIntrusion", "TamperingDetected"].map enumIntrusionSensor = [0, 1, 2] ∧
     ["Down", "Up"].map enumPortLinkStatus = [0, 1] ∧
     ["LinkDown", "LinkUp", "NoLink"].map enumInterfaceLinkStatus = [0, 1, 2] ∧
     ["None", "Global", "Chassis", "Dedicated"].map enumHotspareType = [0, 1, 2, 3] ∧
     ["Fail", "OK", "Rebuild", "PredictiveFailureAnalysis", "Hotspare", "InACriticalArray",
       "InAFailedArray"].map enumDriveStatusIndicator = [0, 1, 2, 3, 4, 5, 6]) ∧
    (ordinalHelp "Intrusion sensor reading" ["Normal", "HardwareIntrusion", "TamperingDetected"]
       = "Intrusion sensor reading; 0: Normal, 1: HardwareIntrusion, 2: TamperingDetected" ∧
     ordinalHelp "Network port status" ["Down", "Up"] = "Network port status; 0: Down, 1: Up" ∧
     ordinalHelp "Ethernet interface link status" ["LinkDown", "LinkUp", "NoLink"]
       = "Ethernet interface link status; 0: LinkDown, 1: LinkUp, 2: NoLink" ∧
     ordinalHelp "Drive hotspare type" ["None", "Global", "Chassis", "Dedicated"]
       = "Drive hotspare type; 0: None, 1: Global, 2: Chassis, 3: Dedicated" ∧
     ordinalHelp "Drive status"
         ["Fail", "OK", "Rebuild", "PredictiveFailureAnalysis", "Hotspare", "InACriticalArray",
          "InAFailedArray"]
       = "Drive status; 0: Fail, 1: OK, 2: Rebuild, 3: PredictiveFailureAnalysis, 4: Hotspare, 5: InACriticalArray, 6: InAFailedArray") ∧
    (∀ c : Call, ∀ m ∈ c.metrics macString,
      (m.name = "redfish_chassis_intrusion_sensor" →
        m.desc.help = ordinalHelp "Intrusion sensor reading"
          ["Normal", "HardwareIntrusion", "TamperingDetected"]) ∧
      (m.name = "redfish_chassis_network_port_status" →
        m.desc.help = ordinalHelp "Network port status" ["Down", "Up"]) ∧
      (m.name = "redfish_system_ethernet_interface_link_status" →
        m.desc.help = ordinalHelp "Ethernet interface link status" ["LinkDown", "LinkUp", "NoLink"]) ∧
      (m.name = "redfish_system_drive_hotspare_type" →
        m.desc.help = ordinalHelp "Drive hotspare type" ["None", "Global", "Chassis", "Dedicated"]) ∧
      (m.name = "redfish_system_drive_status" →
        m.desc.help = ordinalHelp "Drive status"
          ["Fail", "OK", "Rebuild", "PredictiveFailureAnalysis", "Hotspare",
           "InACriticalArray", "InAFailedArray"])) ∧
    (∀ (chassis : redfish.Chassis) (port : redfish.NetworkPort)
        (intf : redfish.EthernetInterface) (drive : redfish.Drive) (id : String),
      ((ChassisCollector.processChassis chassis).map nameValue).filter
          (fun p => decide (p.1 = "redfish_chassis_intrusion_sensor"))
        = ordinalSample "redfish_chassis_intrusion_sensor"
            (enumIntrusionSensor chassis.PhysicalSecurity.IntrusionSensor) ∧
      ((ChassisCollector.processNetworkPort port id).map nameValue).filter
          (fun p => decide (p.1 = "redfish_chassis_network_port_status"))
        = ordinalSample "redfish_chassis_network_port_status"
            (enumPortLinkStatus port.LinkStatus) ∧
      ((SystemCollector.processEthernetInterface macString intf id).map nameValue).filter
          (fun p => decide (p.1 = "redfish_system_ethernet_interface_link_status"))
        = ordinalSample "redfish_system_ethernet_interface_link_status"
            (enumInterfaceLinkStatus intf.LinkStatus) ∧
      ((SystemCollector.processDrive drive id).map nameValue).filter
          (fun p => decide (p.1 = "redfish_system_drive_hotspare_type"))
        = ordinalSample "redfish_system_drive_hotspare_type"
            (enumHotspareType drive.HotspareType) ∧
      ((SystemCollector.processDrive drive id).map nameValue).filter
          (fun p => decide (p.1 = "redfish_system_drive_status"))
        = ordinalSample "redfish_system_drive_status"
            (enumDriveStatusIndicator drive.StatusIndicator)) := by
  refine ⟨by decide, by decide, ?_, ?_⟩
  · intro c m hm
    exact Call.ordinal_help_texts macString c m hm
  · intro chassis port intf drive id
    exact ordinal_codec_feeds chassis port intf drive id macString

/-! ### Injectivity and range of the codecs -/

theorem OrdinalCodec.of_sentinel {encode : String → ℚ} {values : List String} {n : Nat}
    (h : SentinelCorrect encode values)
    (h1 : ∀ a ∈ values, ∀ b ∈ values, encode a = encode b →
      a = b ∨ (a ∈ unencryptedSpellings ∧ b ∈ unencryptedSpellings))
    (h2 : ∀ a ∈ values, ∃ k : Nat, k < n ∧ encode a = k)
    (h3 : ∀ k : Nat, k < n → ∃ a ∈ values, encode a = k) : OrdinalCodec encode n := by
  have hmem : ∀ e : String, encode e ≠ -1 → e ∈ values := by
    intro e he
    by_contra hne
    exact he ((h.1 e).1.mpr hne)
  refine ⟨?_, ?_, ?_⟩
  · intro a b ha hb hab
    exact h1 a (hmem a ha) b (hmem b hb) hab
  · intro a ha
    exact h2 a (hmem a ha)
  · intro k hk
    obtain ⟨a, _, ha⟩ := h3 k hk
    exact ⟨a, ha⟩

/-- Claim C26: each of the nine codecs is injective on its recognized values, the inputs it
does not map to -1, apart from the two spellings of unencrypted, and its ordinals on the
recognized values are exactly 0 up to n - 1: health n = 3, state 11, power state 4, intrusion
sensor 3, port link status 2, interface link status 3, encryption status 4, hotspare type 4,
drive status indicator 7. -/
theorem codecs_injective_contiguous :
    OrdinalCodec enumHealth 3 ∧
    OrdinalCodec enumState 11 ∧
    OrdinalCodec enumPowerState 4 ∧
    OrdinalCodec enumIntrusionSensor 3 ∧
    OrdinalCodec enumPortLinkStatus 2 ∧
    OrdinalCodec enumInterfaceLinkStatus 3 ∧
    OrdinalCodec enumEncryptionStatus 4 ∧
    OrdinalCodec enumHotspareType 4 ∧
    OrdinalCodec enumDriveStatusIndicator 7 ∧
    enumEncryptionStatus "Unecrypted" = enumEncryptionStatus "Unencrypted" :=
  ⟨OrdinalCodec.of_sentinel enumHealth_sentinel (by decide) (by decide) (by decide),
   OrdinalCodec.of_sentinel enumState_sentinel (by decide) (by decide) (by decide),
   OrdinalCodec.of_sentinel enumPowerState_sentinel (by decide) (by decide) (by decide),
   OrdinalCodec.of_sentinel enumIntrusionSensor_sentinel (by decide) (by decide) (by decide),
   OrdinalCodec.of_sentinel enumPortLinkStatus_sentinel (by decide) (by decide) (by decide),
   OrdinalCodec.of_sentinel enumInterfaceLinkStatus_sentinel (by decide) (by decide)
     (by decide),
   OrdinalCodec.of_sentinel enumEncryptionStatus_sentinel (by decide) (by decide) (by decide),
   OrdinalCodec.of_sentinel enumHotspareType_sentinel (by decide) (by decide) (by decide),
   OrdinalCodec.of_sentinel enumDriveStatusIndicator_sentinel (by decide) (by decide)
     (by decide),
   by decide⟩

/-! ### The join and the release of the session -/

theorem Shuffle.sequential {α : Type} : ∀ a b c : List α, Shuffle a b c (a ++ b ++ c)
  | x :: a, b, c => by
    simp only [List.cons_append]
    exact Shuffle.first x (Shuffle.sequential a b c)
  | [], y :: b, c => by
    simp only [List.nil_append, List.cons_append]
    exact Shuffle.second y (by simpa using Shuffle.sequential [] b c)
  | [], [], z :: c => by
    simp only [List.nil_append]
    exact Shuffle.third z (by simpa using Shuffle.sequential [] [] c)
  | [], [], [] => Shuffle.nil

theorem interleave_shuffle {α : Type} (schedule : List (Fin 3)) :
    ∀ a b c : List α, Shuffle a b c (interleave schedule a b c) := by
  induction schedule with
  | nil => intro a b c; simpa [interleave] using Shuffle.sequential a b c
  | cons i rest ih =>
    intro a b c
    match i, a, b, c with
    | 0, [], b, c => simpa [interleave] using ih [] b c
    | 0, x :: a, b, c =>
      simp only [interleave]
      exact Shuffle.first x (ih a b c)
    | 1, a, [], c => simpa [interleave] using ih a [] c
    | 1, a, y :: b, c =>
      simp only [interleave]
      exact Shuffle.second y (ih a b c)
    | 2, a, b, [] => simpa [interleave] using ih a b []
    | 2, a, b, z :: c =>
      simp only [interleave]
      exact Shuffle.third z (ih a b c)

theorem shuffle_interleave {α : Type} {a b c l : List α} (h : Shuffle a b c l) :
    ∃ schedule : List (Fin 3), interleave schedule a b c = l := by
  induction h with
  | nil => exact ⟨[], rfl⟩
  | first x _ ih =>
    obtain ⟨s, hs⟩ := ih
    exact ⟨0 :: s, by simp only [interleave, hs]⟩
  | second y _ ih =>
    obtain ⟨s, hs⟩ := ih
    exact ⟨1 :: s, by simp only [interleave, hs]⟩
  | third z _ ih =>
    obtain ⟨s, hs⟩ := ih
    exact ⟨2 :: s, by simp only [interleave, hs]⟩

theorem goroutine_eq (name : String) (collector : Collector) (duration : ℚ) :
    goroutine name collector duration
      = collector.sent.map ScrapeEvent.send
        ++ [ScrapeEvent.send (durationSample name duration),
            ScrapeEvent.send (successSample name (if collector.err ≠ none then 0 else 1)),
            ScrapeEvent.done name] := by
  simp only [goroutine, execute_eq, List.map_append, List.map_cons, List.map_nil,
    List.append_assoc, List.cons_append, List.nil_append]

theorem logout_not_mem_goroutine (name : String) (collector : Collector) (duration : ℚ) :
    ScrapeEvent.logout ∉ goroutine name collector duration := by
  simp [goroutine]

theorem done_mem_goroutine (name : String) (collector : Collector) (duration : ℚ) :
    ScrapeEvent.done name ∈ goroutine name collector duration := by
  simp [goroutine]

theorem collect_ok_eq (client : gofish.APIClient) (macString : String → String)
    (durations : String → ℚ) (schedule : List (Fin 3)) :
    RedfishCollector.Collect (Except.ok client) macString durations schedule
      = interleave schedule
          (goroutine "chassis" ((ChassisCollector.Collect client).toCollector macString)
            (durations "chassis"))
          (goroutine "system" ((SystemCollector.Collect client).toCollector macString)
            (durations "system"))
          (goroutine "manager" ((ManagerCollector.Collect client).toCollector macString)
            (durations "manager"))
        ++ [ScrapeEvent.send (upSample 1), ScrapeEvent.logout] := by
  have hup : MustNewConstMetric upDesc 1 [] = upSample 1 := by decide
  simp only [RedfishCollector.Collect, hup, List.append_assoc, List.cons_append,
    List.nil_append]

theorem collect_ok_shape (client : gofish.APIClient) (macString : String → String)
    (durations : String → ℚ) (schedule : List (Fin 3)) :
    ∃ il : List ScrapeEvent,
      RedfishCollector.Collect (Except.ok client) macString durations schedule
        = il ++ [ScrapeEvent.send (upSample 1), ScrapeEvent.logout] ∧
      (∀ e : ScrapeEvent, e ∈ il ↔
        e ∈ goroutine "chassis" ((ChassisCollector.Collect client).toCollector macString)
            (durations "chassis")
        ∨ e ∈ goroutine "system" ((SystemCollector.Collect client).toCollector macString)
            (durations "system")
        ∨ e ∈ goroutine "manager" ((ManagerCollector.Collect client).toCollector macString)
            (durations "manager")) ∧
      Shuffle
        (goroutine "chassis" ((ChassisCollector.Collect client).toCollector macString)
          (durations "chassis"))
        (goroutine "system" ((SystemCollector.Collect client).toCollector macString)
          (durations "system"))
        (goroutine "manager" ((ManagerCollector.Collect client).toCollector macString)
          (durations "manager")) il := by
  refine ⟨_, collect_ok_eq client macString durations schedule, ?_,
    interleave_shuffle _ _ _ _⟩
  intro e
  rw [(interleave_perm schedule _ _ _).mem_iff]
  simp only [List.mem_append, or_assoc]

/-- Claim C23: in every scrape in which the session connects, whatever the endpoint answers,
so whichever collectors fail, and however the goroutines interleave, `Logout` is the last step
of the scrape and happens exactly once, and the three goroutines of the collectors have all
returned before it; in a scrape in which the connection fails there is no `Logout`. -/
theorem logout_once_after_all_collectors (client : gofish.APIClient)
    (macString : String → String) (durations : String → ℚ) (schedule : List (Fin 3))
    (err : String) :
    (∃ pre : List ScrapeEvent,
      RedfishCollector.Collect (Except.ok client) macString durations schedule
        = pre ++ [ScrapeEvent.logout] ∧
      ScrapeEvent.logout ∉ pre ∧
      ScrapeEvent.done "chassis" ∈ pre ∧ ScrapeEvent.done "system" ∈ pre ∧
      ScrapeEvent.done "manager" ∈ pre) ∧
    (RedfishCollector.Collect (Except.ok client) macString durations schedule).count
        ScrapeEvent.logout = 1 ∧
    ScrapeEvent.logout
      ∉ RedfishCollector.Collect (Except.error err) macString durations schedule := by
  obtain ⟨il, hc, hmem, _⟩ := collect_ok_shape client macString durations schedule
  have hno : ScrapeEvent.logout ∉ il := by
    intro h
    rcases (hmem _).mp h with h' | h' | h'
    · exact logout_not_mem_goroutine _ _ _ h'
    · exact logout_not_mem_goroutine _ _ _ h'
    · exact logout_not_mem_goroutine _ _ _ h'
  refine ⟨⟨il ++ [ScrapeEvent.send (upSample 1)], ?_, ?_, ?_, ?_, ?_⟩, ?_, ?_⟩
  · rw [hc]
    simp only [List.append_assoc, List.cons_append, List.nil_append]
  · simp only [List.mem_append, List.mem_singleton, not_or]
    exact ⟨hno, by simp⟩
  · exact List.mem_append_left _ ((hmem _).mpr (Or.inl (done_mem_goroutine _ _ _)))
  · exact List.mem_append_left _ ((hmem _).mpr (Or.inr (Or.inl (done_mem_goroutine _ _ _))))
  · exact List.mem_append_left _ ((hmem _).mpr (Or.inr (Or.inr (done_mem_goroutine _ _ _))))
  · rw [hc, List.count_append, List.count_eq_zero_of_not_mem hno]
    decide
  · simp [RedfishCollector.Collect]

/-- Claim C24: for every endpoint and every interleaving of the three goroutines, the scrape
consists of an interleaving of the steps of the three goroutines, each of which sends the
samples of its collector, then its duration and its success sample, and then is done,
followed by the availability sample of value 1 and the logout; so the availability sample is
sent after the three collectors have returned and is the last sample on the channel.  Every
interleaving of the three goroutines is the scrape of some schedule. -/
theorem up_sample_after_full_barrier (client : gofish.APIClient)
    (macString : String → String) (durations : String → ℚ) (schedule : List (Fin 3)) :
    (∃ pre : List ScrapeEvent,
      RedfishCollector.Collect (Except.ok client) macString durations schedule
        = pre ++ [ScrapeEvent.send (upSample 1), ScrapeEvent.logout] ∧
      Shuffle
        (goroutine "chassis" ((ChassisCollector.Collect client).toCollector macString)
          (durations "chassis"))
        (goroutine "system" ((SystemCollector.Collect client).toCollector macString)
          (durations "system"))
        (goroutine "manager" ((ManagerCollector.Collect client).toCollector macString)
          (durations "manager")) pre) ∧
    (∀ (name : String) (collector : Collector) (duration : ℚ),
      goroutine name collector duration
        = collector.sent.map ScrapeEvent.send
          ++ [ScrapeEvent.send (durationSample name duration),
              ScrapeEvent.send (successSample name (if collector.err ≠ none then 0 else 1)),
              ScrapeEvent.done name]) ∧
    (channel (RedfishCollector.Collect (Except.ok client) macString durations schedule)).getLast?
      = some (upSample 1) ∧
    (∀ l : List ScrapeEvent,
      Shuffle
        (goroutine "chassis" ((ChassisCollector.Collect client).toCollector macString)
          (durations "chassis"))
        (goroutine "system" ((SystemCollector.Collect client).toCollector macString)
          (durations "system"))
        (goroutine "manager" ((ManagerCollector.Collect client).toCollector macString)
          (durations "manager")) l →
      ∃ schedule' : List (Fin 3),
        RedfishCollector.Collect (Except.ok client) macString durations schedule'
          = l ++ [ScrapeEvent.send (upSample 1), ScrapeEvent.logout]) := by
  obtain ⟨il, hc, _, hsh⟩ := collect_ok_shape client macString durations schedule
  refine ⟨⟨il, hc, hsh⟩, goroutine_eq, ?_, ?_⟩
  · rw [collect_ok_eq, channel_append]
    simp [channel]
  · intro l hl
    obtain ⟨s, hs⟩ := shuffle_interleave hl
    exact ⟨s, by rw [collect_ok_eq, hs]⟩

/-! ### Samples of a storage controller -/

theorem processStorageController_labels (controller : redfish.StorageController)
    (systemID storageID : String) :
    AllDescs (fun d => d.constLabels = [("id", controller.MemberID), ("name", controller.Name),
        ("system_id", systemID), ("storage_id", storageID)] ∧ d.variableLabels = [])
      (SystemCollector.processStorageController controller systemID storageID) := by
  simp only [SystemCollector.processStorageController]
  repeat' first
    | apply AllDescs.append
    | apply AllDescs.cons
    | apply AllDescs.sendOrdinal
    | apply AllDescs.ite
    | apply AllDescs.nil
  all_goals simp [NewDesc]

/-- Claim C25, evaluation at the failing input: for a storage controller in health Warning
whose cache is in health OK, `processStorageController` sends two samples named
`redfish_system_storage_controller_health` with the same labels, one of value 0 and one of
value 1.  For every storage controller the samples of that name, and likewise those named
`redfish_system_storage_controller_state`, are that of the cache-summary status followed by
that of the controller status, each sent when its codec result is not -1, and all samples of
the call carry the same four labels; the three remaining samples have three different
names. -/
theorem storage_controller_duplicate_samples :
    ((SystemCollector.processStorageController controllerBothStatuses "system0" "raid0").filter
        (fun m => decide (m.name = "redfish_system_storage_controller_health"))).map
        (fun m => (m.name, m.labels, m.value))
      = [("redfish_system_storage_controller_health",
          [("id", "0"), ("name", "RAID Controller"), ("system_id", "system0"),
           ("storage_id", "raid0")], 0),
         ("redfish_system_storage_controller_health",
          [("id", "0"), ("name", "RAID Controller"), ("system_id", "system0"),
           ("storage_id", "raid0")], 1)] ∧
    (∀ (controller : redfish.StorageController) (systemID storageID : String),
      ((SystemCollector.processStorageController controller systemID storageID).map
          nameValue).filter
          (fun p => decide (p.1 = "redfish_system_storage_controller_health"))
        = ordinalSample "redfish_system_storage_controller_health"
            (enumHealth controller.CacheSummary.Status.Health)
          ++ ordinalSample "redfish_system_storage_controller_health"
            (enumHealth controller.Status.Health) ∧
      ((SystemCollector.processStorageController controller systemID storageID).map
          nameValue).filter
          (fun p => decide (p.1 = "redfish_system_storage_controller_state"))
        = ordinalSample "redfish_system_storage_controller_state"
            (enumState controller.CacheSummary.Status.State)
          ++ ordinalSample "redfish_system_storage_controller_state"
            (enumState controller.Status.State) ∧
      (((SystemCollector.processStorageController controller systemID storageID).map
          nameValue).filter
          (fun p => decide (p.1 ≠ "redfish_system_storage_controller_health"
            ∧ p.1 ≠ "redfish_system_storage_controller_state"))).map Prod.fst
        = ["redfish_system_storage_controller_speed_bytes",
           "redfish_system_storage_controller_cache_size_persistent_bytes",
           "redfish_system_storage_controller_cache_size_bytes"] ∧
      ∀ m ∈ SystemCollector.processStorageController controller systemID storageID,
        m.labels = [("id", controller.MemberID), ("name", controller.Name),
          ("system_id", systemID), ("storage_id", storageID)]) := by
  refine ⟨by decide, ?_⟩
  intro controller systemID storageID
  have h := Call.map_nameValue_metrics id
    (Call.processStorageController controller systemID storageID)
  simp only [Call.metrics] at h
  rw [h]
  refine ⟨?_, ?_, ?_, ?_⟩
  · simp (disch := decide) only [Call.measurements, Call.categoricalFields,
      CategoricalField.samples, List.flatMap_cons, List.flatMap_nil, List.filter_append,
      ordinalSample_filter_ne, ordinalSample_filter_eq, pair_filter_ne, List.filter_nil,
      List.append_nil, List.nil_append]
  · simp (disch := decide) only [Call.measurements, Call.categoricalFields,
      CategoricalField.samples, List.flatMap_cons, List.flatMap_nil, List.filter_append,
      ordinalSample_filter_ne, ordinalSample_filter_eq, pair_filter_ne, List.filter_nil,
      List.append_nil, List.nil_append]
  · simp only [Call.measurements, Call.categoricalFields, CategoricalField.samples,
      List.flatMap_cons, List.flatMap_nil, List.filter_append, ordinalSample]
    split_ifs <;> simp +decide
  · intro m hm
    obtain ⟨h1, h2⟩ := processStorageController_labels controller systemID storageID m hm
    simp only [Metric.labels, h1, h2, List.zip_nil_left, List.append_nil]

end collector
